import Mathlib

/-!
Session lifecycle scheduler of `main-local.js`.

A shallow embedding of the scheduler of `src/main-local.js`.  The program is a
single-threaded cooperative JavaScript process: every stretch of code between
two `await`s runs atomically.  Each such stretch is a Lean function on `State`
named after the source function it belongs to; the suspended tasks (admissions
awaiting the browser, pending retry timers, group members awaiting their
interaction run or `browser.close()`, `cleanupSession` calls awaiting the close,
the position of `main`) are explicit fields of the state, and `step` resumes one
of them per `Event`.  JavaScript numbers that are decremented are `Int`; a
JavaScript `Set` is an insertion-ordered duplicate-free `List`.

What the events abstract: the outcome of every awaited call of the browser driver
(resolve or throw) and the order in which pending promises and timers settle are
free; wall-clock readings are event parameters.  Not part of the state: the body
of `simulateInteraction` (it writes only to the error ledger through `logError`),
`checkResources`, the dashboard, the `unhandledRejection` handler and the
`process.exit` calls, after which no event occurs.

The error ledger (`logError`), the refresh of the URL set (`fetchRecentPosts`, where the
content source is a function from page numbers to responses), the choice of the two
navigation targets and the user-agent rotator are functions of their own beside the
scheduler.  The namespace `Turk` holds the parts of `src/main-turk.js` that differ from
`main-local.js`: its rotator and the proxy argument of its admissions.
-/

namespace SessionManager

/-! ## Configuration and data -/

/-- The fields of `CONFIG` that the scheduler reads. -/
structure Config where
  MAX_SESSIONS : Nat
  SESSION_DURATION : Nat
  GROUP_SIZE : Nat
  RETRY_DELAY : Nat
deriving DecidableEq, Repr

/-- The literal `CONFIG` of `main-local.js`. -/
def CONFIG : Config :=
  { MAX_SESSIONS := 150, SESSION_DURATION := 60000, GROUP_SIZE := 5, RETRY_DELAY := 5000 }

/-- The local constant `BATCH_SIZE` of `main`. -/
def BATCH_SIZE : Nat := 50

/-- The object `stats.errors.browser`. -/
structure BrowserErrors where
  total : Nat
  navigation : Nat
  pageLoad : Nat
  clicking : Nat
  scrolling : Nat
  mouseMovement : Nat
  sessionCreation : Nat
deriving DecidableEq, Repr

/-- One record of `stats.errors.errorHistory`. -/
structure ErrorDetails where
  timestamp : Nat
  category : String
  type : String
  message : String
  stack : Option String
deriving DecidableEq, Repr

/-- The object `stats` (the gauges that only the dashboard reads are left out). -/
structure Stats where
  sessionsOpened : Int
  activeSessionsCount : Int
  sessionsCompleted : Int
  sessionsFailed : Int
  totalTabsActive : Int
  groupsCompleted : Int
  browser : BrowserErrors
  errorHistory : List ErrorDetails
deriving DecidableEq, Repr

/-- The record `{ id, browser, pages, startTime, lastActiveTime }` stored in
`waitingForGroup`.  `ref` is the identity of the JavaScript object (and of its
browser); `pages` always holds the two pages made by `createBrowserSession`. -/
structure Session where
  ref : Nat
  id : Nat
  startTime : Nat
  lastActiveTime : Nat
deriving DecidableEq, Repr

/-- Where a suspended `startNewSession` call waits: on `chromium.launch`, on
`newContext`/`newPage` (the user agent is already taken), or on the best-effort
navigation of the created session. -/
inductive AdmissionStage where
  | launching
  | opening
  | navigating (session : Session)
deriving DecidableEq, Repr

/-- A `startNewSession(sessionId)` call that passed the gate and has not yet
succeeded or failed.  `awaited` records whether `main` holds its promise in a
`Promise.all`/`Promise.allSettled`. -/
structure Admission where
  id : Nat
  awaited : Bool
  stage : AdmissionStage
deriving DecidableEq, Repr

/-- Where the per-member handler of `startNewGroup` waits: on the interaction
runs of its pages (`pagesLeft` of them still running), on `browser.close()` in
the `try` block, or on `browser.close()` in the `catch` block. -/
inductive MemberPhase where
  | running (pagesLeft : Nat)
  | closingTry
  | closingCatch
deriving DecidableEq, Repr

/-- One `groupPromises` entry that has not settled. -/
structure Member where
  session : Session
  groupId : Nat
  phase : MemberPhase
deriving DecidableEq, Repr

/-- Position of `main`: awaiting `loadUserAgents`, at the head of ramp-up
iteration `batch`, in the one-second timer of the steady-state loop, awaiting
`Promise.allSettled`, or returned. -/
inductive MainPc where
  | loading
  | ramp (batch : Nat)
  | steadyTimer
  | steadyJoin
  | done
deriving DecidableEq, Repr

/-- The module-level variables of `main-local.js` followed by the suspended tasks. -/
structure State where
  userAgents : List String
  currentUserAgentIndex : Nat
  waitingForGroup : List Session
  activeGroups : List Nat
  totalActiveSessions : Int
  groupCounter : Nat
  sessionsInProgress : List Nat
  isShuttingDown : Bool
  URLS : List String
  stats : Stats
  nextRef : Nat
  admissions : List Admission
  retries : List Nat
  members : List Member
  cleanups : List Session
  sweeps : Nat
  mainPc : MainPc
deriving DecidableEq, Repr

/-- The state when the module has been evaluated and `main()` awaits `loadUserAgents`. -/
def init : State :=
  { userAgents := [], currentUserAgentIndex := 0, waitingForGroup := [], activeGroups := [],
    totalActiveSessions := 0, groupCounter := 0, sessionsInProgress := [],
    isShuttingDown := false, URLS := [],
    stats := { sessionsOpened := 0, activeSessionsCount := 0, sessionsCompleted := 0,
               sessionsFailed := 0, totalTabsActive := 0, groupsCompleted := 0,
               browser := { total := 0, navigation := 0, pageLoad := 0, clicking := 0,
                            scrolling := 0, mouseMovement := 0, sessionCreation := 0 },
               errorHistory := [] },
    nextRef := 0, admissions := [], retries := [], members := [], cleanups := [],
    sweeps := 0, mainPc := .loading }

/-! ## JavaScript `Set` operations -/

/-- `Set.prototype.add`: appends unless already present. -/
def setAdd {α : Type} [DecidableEq α] (x : α) (l : List α) : List α :=
  if x ∈ l then l else l ++ [x]

/-- `Set.prototype.delete`. -/
def setDelete {α : Type} [DecidableEq α] (x : α) (l : List α) : List α :=
  l.filter (fun y => decide (y ≠ x))

/-! ## The synchronous stretches of the source functions -/

/-- The fallback string of `getNextUserAgent`. -/
def defaultUserAgent : String :=
  "Mozilla/5.0 (Windows NT 10.0; Win64; x64) AppleWebKit/537.36 (KHTML, like Gecko) Chrome/91.0.4472.124 Safari/537.36"

/-- `getNextUserAgent()`; `none` is JavaScript's `undefined`. -/
def getNextUserAgent (s : State) : Option String × State :=
  if s.userAgents.length = 0 then
    (some defaultUserAgent,
      { s with stats := { s.stats with browser := { s.stats.browser with
                                                     total := s.stats.browser.total + 1 } } })
  else
    (s.userAgents[s.currentUserAgentIndex]?,
      { s with currentUserAgentIndex := (s.currentUserAgentIndex + 1) % s.userAgents.length })

/-- The condition of the `if` that opens `startNewSession`. -/
def gateRejects (cfg : Config) (s : State) (sessionId : Nat) : Prop :=
  s.isShuttingDown = true ∨
    (sessionId ∉ s.sessionsInProgress ∧
      (cfg.MAX_SESSIONS : Int) ≤ s.totalActiveSessions + (s.sessionsInProgress.length : Int))

instance (cfg : Config) (s : State) (sessionId : Nat) : Decidable (gateRejects cfg s sessionId) := by
  unfold gateRejects; infer_instance

/-- `startNewSession(sessionId)` up to its first suspension, the
`await chromium.launch` inside `createBrowserSession`. -/
def startNewSession (cfg : Config) (s : State) (sessionId : Nat) (awaited : Bool) : State :=
  if gateRejects cfg s sessionId then s
  else
    { s with totalActiveSessions := s.totalActiveSessions + 1,
             stats := { s.stats with sessionsOpened := s.stats.sessionsOpened + 1 },
             admissions := s.admissions ++ [{ id := sessionId, awaited := awaited,
                                              stage := .launching }] }

/-- `createBrowserSession` between `chromium.launch` resolving and
`browser.newContext` being awaited. -/
def createBrowserSession_launched (s : State) : State :=
  (getNextUserAgent s).2

/-- `createBrowserSession` after both pages exist: `stats.totalTabsActive += 2`
and the fresh session record is returned. -/
def createBrowserSession_return (s : State) (sessionId now : Nat) : Session × State :=
  ({ ref := s.nextRef, id := sessionId, startTime := now, lastActiveTime := now },
    { s with stats := { s.stats with totalTabsActive := s.stats.totalTabsActive + 2 },
             nextRef := s.nextRef + 1 })

/-- The `catch` block of `createBrowserSession` (it rethrows). -/
def createBrowserSession_catch (s : State) : State :=
  { s with stats := { s.stats with
      browser := { s.stats.browser with sessionCreation := s.stats.browser.sessionCreation + 1 },
      sessionsFailed := s.stats.sessionsFailed + 1 } }

/-- `startNewGroup()` up to the `await Promise.all(groupPromises)`: every member
handler has started the interaction run of its two pages. -/
def startNewGroup (cfg : Config) (s : State) : State :=
  if cfg.GROUP_SIZE ≤ s.waitingForGroup.length ∧ s.isShuttingDown = false then
    let groupId := s.groupCounter + 1
    let groupSessions := s.waitingForGroup.take cfg.GROUP_SIZE
    { s with groupCounter := groupId,
             waitingForGroup := groupSessions.foldl (fun w x => setDelete x w) s.waitingForGroup,
             activeGroups := setAdd groupId s.activeGroups,
             members := s.members ++
               groupSessions.map (fun x => { session := x, groupId := groupId,
                                             phase := .running 2 }) }
  else s

/-- The tail of the `try` block of `startNewSession`, after the navigation waits.
The record `{ id: sessionId, ...session }` is a fresh object, so `waitingForGroup.add`
always appends it. -/
def startNewSession_success (cfg : Config) (s : State) (sessionId : Nat) (session : Session) :
    State :=
  startNewGroup cfg
    { s with stats := { s.stats with activeSessionsCount := s.stats.activeSessionsCount + 1 },
             waitingForGroup := s.waitingForGroup ++ [session],
             sessionsInProgress := setDelete sessionId s.sessionsInProgress }

/-- The `catch` block of `startNewSession`. -/
def startNewSession_catch (cfg : Config) (s : State) (sessionId : Nat) : State :=
  let s1 := { s with totalActiveSessions := s.totalActiveSessions - 1,
                     stats := { s.stats with sessionsFailed := s.stats.sessionsFailed + 1 },
                     sessionsInProgress := setDelete sessionId s.sessionsInProgress }
  if s1.totalActiveSessions + (s1.sessionsInProgress.length : Int) < (cfg.MAX_SESSIONS : Int)
      ∧ s1.isShuttingDown = false then
    { s1 with sessionsInProgress := setAdd sessionId s1.sessionsInProgress,
              retries := s1.retries ++ [sessionId] }
  else s1

/-- The per-member handler of `startNewGroup` from the moment
`Promise.all(session.pages.map(simulateInteraction))` resolves up to the
`await session.browser.close()` of the `try` block. -/
def member_afterRun (cfg : Config) (s : State) (session : Session) : State :=
  let s1 := { s with stats := { s.stats with sessionsCompleted := s.stats.sessionsCompleted + 1 } }
  let replacementId := session.id + cfg.MAX_SESSIONS
  let s2 := { s1 with sessionsInProgress := setAdd replacementId s1.sessionsInProgress }
  if s2.isShuttingDown = false then startNewSession cfg s2 replacementId false else s2

/-- The three decrements after the `await session.browser.close()` of the `try` block. -/
def member_closed (s : State) : State :=
  { s with stats := { s.stats with totalTabsActive := s.stats.totalTabsActive - 2,
                                   activeSessionsCount := s.stats.activeSessionsCount - 1 },
           totalActiveSessions := s.totalActiveSessions - 1 }

/-- The statement `stats.errors.browser.total++`. -/
def countBrowserError (s : State) : State :=
  { s with stats := { s.stats with browser := { s.stats.browser with
                                                 total := s.stats.browser.total + 1 } } }

/-- Entry of the `catch` block of the per-member handler, up to its
`await session.browser.close()`. -/
def member_catchEnter (s : State) : State :=
  countBrowserError s

/-- The inner `catch (e)` of the `catch` block of the per-member handler, entered when
its `await session.browser.close()` throws. -/
def member_catchInner (s : State) : State :=
  countBrowserError s

/-- The rest of the `catch` block of the per-member handler, after its inner
`try { await session.browser.close() } catch (e) { ... }`. -/
def member_catchRest (cfg : Config) (s : State) (session : Session) : State :=
  let s1 := { s with stats := { s.stats with totalTabsActive := s.stats.totalTabsActive - 2,
                                             activeSessionsCount := s.stats.activeSessionsCount - 1,
                                             sessionsFailed := s.stats.sessionsFailed + 1 },
                     totalActiveSessions := s.totalActiveSessions - 1 }
  if s1.isShuttingDown = false then
    let replacementId := session.id + cfg.MAX_SESSIONS
    startNewSession cfg
      { s1 with sessionsInProgress := setAdd replacementId s1.sessionsInProgress }
      replacementId false
  else s1

/-- The `.then` callback of `Promise.all(groupPromises)`. -/
def startNewGroup_resolved (s : State) (groupId : Nat) : State :=
  { s with activeGroups := setDelete groupId s.activeGroups,
           stats := { s.stats with groupsCompleted := s.stats.groupsCompleted + 1 } }

/-- `cleanupSession(session)` after `browser.close()` resolved. -/
def cleanupSession_closed (s : State) (session : Session) : State :=
  { s with stats := { s.stats with totalTabsActive := s.stats.totalTabsActive - 2,
                                   activeSessionsCount := s.stats.activeSessionsCount - 1 },
           waitingForGroup := setDelete session s.waitingForGroup }

/-- The `catch` block of `cleanupSession`. -/
def cleanupSession_catch (s : State) : State :=
  countBrowserError s

/-- `handleShutdown()` up to `await Promise.all(cleanupPromises)`: every
`cleanupSession` call has issued its `browser.close()`.  The final
`process.exit(0)` is not a state change; after it no further event occurs. -/
def handleShutdown (s : State) : State :=
  { s with isShuttingDown := true,
           sessionsInProgress := [],
           cleanups := s.cleanups ++ s.waitingForGroup }

/-- The two statements `sessionsInProgress.add(sessionId); startNewSession(sessionId)`
of the loops of `main`. -/
def registerAndStart (cfg : Config) (s : State) (sessionId : Nat) : State :=
  startNewSession cfg { s with sessionsInProgress := setAdd sessionId s.sessionsInProgress }
    sessionId true

/-- The ids visited by the inner `for` loop of ramp-up:
`i < BATCH_SIZE && batchStart + i < MAX_SESSIONS`. -/
def batchIds (cfg : Config) (batchStart : Nat) : List Nat :=
  ((List.range BATCH_SIZE).map (fun i => batchStart + i)).takeWhile
    (fun sessionId => decide (sessionId < cfg.MAX_SESSIONS))

/-- `Math.ceil(CONFIG.MAX_SESSIONS / BATCH_SIZE)`. -/
def batches (cfg : Config) : Nat :=
  (cfg.MAX_SESSIONS + BATCH_SIZE - 1) / BATCH_SIZE

/-- One ramp-up iteration of `main` up to `await Promise.all(batchPromises)`. -/
def main_rampBatch (cfg : Config) (s : State) (batch : Nat) : State :=
  (batchIds cfg (batch * BATCH_SIZE)).foldl (registerAndStart cfg) s

/-- The ids `Date.now() + i` of one steady-state iteration; `clock` lists the
successive readings of `Date.now()`. -/
def topUpIds (needed : Nat) (clock : List Nat) : List Nat :=
  (List.range needed).map (fun i => clock.getD i 0 + i)

/-- The body of the steady-state `while` loop of `main` after its timer, up to
`await Promise.allSettled(promises)`. -/
def main_topUp (cfg : Config) (s : State) (clock : List Nat) : State :=
  let totalPending := s.totalActiveSessions + (s.sessionsInProgress.length : Int)
  if totalPending < (cfg.MAX_SESSIONS : Int) then
    let needed := (cfg.MAX_SESSIONS : Int) - totalPending
    (topUpIds needed.toNat clock).foldl (registerAndStart cfg) s
  else s

/-- The staleness test of the sweep, `now - lastActiveTime > SESSION_DURATION * 1.5`,
with both sides doubled. -/
def isStale (cfg : Config) (session : Session) (now : Nat) : Prop :=
  3 * (cfg.SESSION_DURATION : Int) < 2 * ((now : Int) - (session.lastActiveTime : Int))

instance (cfg : Config) (session : Session) (now : Nat) : Decidable (isStale cfg session now) := by
  unfold isStale; infer_instance

/-! ## Events and the transition function -/

/-- Whatever can resume a suspended task: the settling of an awaited promise, a
timer, or a process signal.  Tasks are addressed by their position in the list
of the state that holds them. -/
inductive Event where
  /-- `loadUserAgents` read these rows from the database. -/
  | loadOk (rows : List String)
  /-- `loadUserAgents` failed on a database error, before it has assigned `userAgents`. -/
  | loadErr
  /-- `loadUserAgents` had assigned these rows when `db.close` failed. -/
  | loadCloseErr (rows : List String)
  /-- `scheduleURLFetch` assigned the result of `fetchRecentPosts()` to `URLS`. -/
  | urlFetch (urls : List String)
  /-- `main` resumes once the promises it awaits have settled (or its timer fired). -/
  | mainStep (clock : List Nat)
  /-- `chromium.launch` resolved for admission `i`. -/
  | launchOk (i : Nat)
  /-- `newContext` and both `newPage` calls resolved for admission `i`. -/
  | openOk (i now : Nat)
  /-- An awaited call of `createBrowserSession` threw for admission `i`. -/
  | createFail (i : Nat)
  /-- The navigation waits of admission `i` are over. -/
  | navigated (i : Nat)
  /-- The `setTimeout` of pending retry `j` fired. -/
  | retryFire (j : Nat)
  /-- One `simulateInteraction` of member `i` returned. -/
  | pageFinish (i : Nat)
  /-- `Promise.all(session.pages.map(simulateInteraction))` rejected for member `i`. -/
  | runThrow (i : Nat)
  /-- The awaited `browser.close()` of member `i` resolved. -/
  | closeOk (i : Nat)
  /-- The awaited `browser.close()` of member `i` threw. -/
  | closeThrow (i : Nat)
  /-- `Promise.all(groupPromises)` resolved for group `groupId`. -/
  | groupResolve (groupId : Nat)
  /-- The stale-session interval callback starts. -/
  | sweepBegin
  /-- A running interval callback visits `waitingForGroup[j]` at time `now`. -/
  | sweepVisit (j now : Nat)
  /-- A running interval callback finishes its loop. -/
  | sweepEnd
  /-- The `browser.close()` of `cleanupSession` call `i` resolved. -/
  | cleanupOk (i : Nat)
  /-- The `browser.close()` of `cleanupSession` call `i` threw. -/
  | cleanupFail (i : Nat)
  /-- `SIGINT` or `SIGTERM`. -/
  | signal
  /-- The `uncaughtException` handler. -/
  | uncaught
deriving DecidableEq, Repr

/-- Whether a promise that `main` awaits is still pending. -/
def mainBlocked (s : State) : Bool :=
  s.admissions.any (fun a => a.awaited)

/-- The `catch` block of `main`. -/
def main_catch (s : State) : State :=
  handleShutdown
    { s with stats := { s.stats with sessionsFailed := s.stats.sessionsFailed + 1 },
             mainPc := .done }

/-- The head of the steady-state loop, `while (!isShuttingDown)`. -/
def main_whileHead (s : State) : State :=
  if s.isShuttingDown then { s with mainPc := .done } else { s with mainPc := .steadyTimer }

/-- `main` resumes at its current position. -/
def main_resume (cfg : Config) (s : State) (clock : List Nat) : Option State :=
  match s.mainPc with
  | .loading => none
  | .done => none
  | .ramp batch =>
    if mainBlocked s then none
    else if batch < batches cfg then
      if s.isShuttingDown then some (main_whileHead s)
      else some { main_rampBatch cfg s batch with mainPc := .ramp (batch + 1) }
    else some (main_whileHead s)
  | .steadyTimer => some { main_topUp cfg s clock with mainPc := .steadyJoin }
  | .steadyJoin => if mainBlocked s then none else some (main_whileHead s)

/-- One atomic stretch of the program: `none` when the event cannot occur in `s`. -/
def step (cfg : Config) (s : State) : Event → Option State
  | .loadOk rows =>
    if s.mainPc = .loading then
      let s1 := { s with userAgents := rows }
      if rows.length = 0 then some (main_catch s1) else some { s1 with mainPc := .ramp 0 }
    else none
  | .loadErr =>
    if s.mainPc = .loading then some (main_catch (countBrowserError s)) else none
  | .loadCloseErr rows =>
    if s.mainPc = .loading ∧ rows.length ≠ 0 then
      some (main_catch (countBrowserError { s with userAgents := rows }))
    else none
  | .urlFetch urls => if s.mainPc = .loading then none else some { s with URLS := urls }
  | .mainStep clock => main_resume cfg s clock
  | .launchOk i =>
    match s.admissions[i]? with
    | some a =>
      if a.stage = .launching then
        let s1 := createBrowserSession_launched s
        some { s1 with admissions := s1.admissions.set i { a with stage := .opening } }
      else none
    | none => none
  | .openOk i now =>
    match s.admissions[i]? with
    | some a =>
      if a.stage = .opening then
        let r := createBrowserSession_return s a.id now
        some { r.2 with admissions := r.2.admissions.set i { a with stage := .navigating r.1 } }
      else none
    | none => none
  | .createFail i =>
    match s.admissions[i]? with
    | some a =>
      if a.stage = .launching ∨ a.stage = .opening then
        some (startNewSession_catch cfg
          (createBrowserSession_catch { s with admissions := s.admissions.eraseIdx i }) a.id)
      else none
    | none => none
  | .navigated i =>
    match s.admissions[i]? with
    | some a =>
      match a.stage with
      | .navigating session =>
        some (startNewSession_success cfg { s with admissions := s.admissions.eraseIdx i }
          a.id session)
      | _ => none
    | none => none
  | .retryFire j =>
    match s.retries[j]? with
    | some sessionId =>
      some (startNewSession cfg { s with retries := s.retries.eraseIdx j } sessionId false)
    | none => none
  | .pageFinish i =>
    match s.members[i]? with
    | some m =>
      match m.phase with
      | .running (n + 2) =>
        some { s with members := s.members.set i { m with phase := .running (n + 1) } }
      | .running 1 =>
        some (member_afterRun cfg
          { s with members := s.members.set i { m with phase := .closingTry } } m.session)
      | _ => none
    | none => none
  | .runThrow i =>
    match s.members[i]? with
    | some m =>
      match m.phase with
      | .running (_ + 1) =>
        some (member_catchEnter
          { s with members := s.members.set i { m with phase := .closingCatch } })
      | _ => none
    | none => none
  | .closeOk i =>
    match s.members[i]? with
    | some m =>
      match m.phase with
      | .closingTry => some (member_closed { s with members := s.members.eraseIdx i })
      | .closingCatch =>
        some (member_catchRest cfg { s with members := s.members.eraseIdx i } m.session)
      | _ => none
    | none => none
  | .closeThrow i =>
    match s.members[i]? with
    | some m =>
      match m.phase with
      | .closingTry =>
        some (member_catchEnter
          { s with members := s.members.set i { m with phase := .closingCatch } })
      | .closingCatch =>
        some (member_catchRest cfg (member_catchInner { s with members := s.members.eraseIdx i })
          m.session)
      | _ => none
    | none => none
  | .groupResolve groupId =>
    if groupId ∈ s.activeGroups ∧ s.members.all (fun m => decide (m.groupId ≠ groupId)) then
      some (startNewGroup_resolved s groupId)
    else none
  | .sweepBegin => if s.isShuttingDown then some s else some { s with sweeps := s.sweeps + 1 }
  | .sweepVisit j now =>
    if 0 < s.sweeps then
      match s.waitingForGroup[j]? with
      | some session =>
        if isStale cfg session now then some { s with cleanups := s.cleanups ++ [session] }
        else some s
      | none => none
    else none
  | .sweepEnd => if 0 < s.sweeps then some { s with sweeps := s.sweeps - 1 } else none
  | .cleanupOk i =>
    match s.cleanups[i]? with
    | some session =>
      some (cleanupSession_closed { s with cleanups := s.cleanups.eraseIdx i } session)
    | none => none
  | .cleanupFail i =>
    match s.cleanups[i]? with
    | some _ => some (cleanupSession_catch { s with cleanups := s.cleanups.eraseIdx i })
    | none => none
  | .signal => some (handleShutdown s)
  | .uncaught => some (handleShutdown (countBrowserError s))

/-- Runs a sequence of events; `none` when one of them cannot occur. -/
def run (cfg : Config) : State → List Event → Option State
  | s, [] => some s
  | s, e :: es => (step cfg s e).bind (fun s1 => run cfg s1 es)

/-- The occupancy sum `totalActiveSessions + sessionsInProgress.size` read by
the gate and by the steady-state loop. -/
def occupancy (s : State) : Int :=
  s.totalActiveSessions + (s.sessionsInProgress.length : Int)

/-! ## Case analysis of one step -/

/-- The graph of `step`, one constructor per branch of its definition. -/
inductive Step (cfg : Config) : State → Event → State → Prop where
  | loadEmpty : ∀ s rows, s.mainPc = .loading → rows.length = 0 →
      Step cfg s (.loadOk rows) (main_catch { s with userAgents := rows })
  | loadRows : ∀ s rows, s.mainPc = .loading → ¬ rows.length = 0 →
      Step cfg s (.loadOk rows) { s with userAgents := rows, mainPc := .ramp 0 }
  | loadErr : ∀ s, s.mainPc = .loading → Step cfg s .loadErr (main_catch (countBrowserError s))
  | loadCloseErr : ∀ s rows, (s.mainPc = .loading ∧ rows.length ≠ 0) →
      Step cfg s (.loadCloseErr rows)
        (main_catch (countBrowserError { s with userAgents := rows }))
  | urlFetch : ∀ s urls, ¬ s.mainPc = .loading → Step cfg s (.urlFetch urls) { s with URLS := urls }
  | rampBreak : ∀ s clock batch, s.mainPc = .ramp batch → ¬ mainBlocked s = true →
      batch < batches cfg → s.isShuttingDown = true → Step cfg s (.mainStep clock) (main_whileHead s)
  | rampBatch : ∀ s clock batch, s.mainPc = .ramp batch → ¬ mainBlocked s = true →
      batch < batches cfg → ¬ s.isShuttingDown = true →
      Step cfg s (.mainStep clock) { main_rampBatch cfg s batch with mainPc := .ramp (batch + 1) }
  | rampEnd : ∀ s clock batch, s.mainPc = .ramp batch → ¬ mainBlocked s = true →
      ¬ batch < batches cfg → Step cfg s (.mainStep clock) (main_whileHead s)
  | topUp : ∀ s clock, s.mainPc = .steadyTimer →
      Step cfg s (.mainStep clock) { main_topUp cfg s clock with mainPc := .steadyJoin }
  | join : ∀ s clock, s.mainPc = .steadyJoin → ¬ mainBlocked s = true →
      Step cfg s (.mainStep clock) (main_whileHead s)
  | launchOk : ∀ s i a, s.admissions[i]? = some a → a.stage = .launching →
      Step cfg s (.launchOk i)
        { createBrowserSession_launched s with
          admissions := (createBrowserSession_launched s).admissions.set i
            { a with stage := .opening } }
  | openOk : ∀ s i now a, s.admissions[i]? = some a → a.stage = .opening →
      Step cfg s (.openOk i now)
        { (createBrowserSession_return s a.id now).2 with
          admissions := (createBrowserSession_return s a.id now).2.admissions.set i
            { a with stage := .navigating (createBrowserSession_return s a.id now).1 } }
  | createFail : ∀ s i a, s.admissions[i]? = some a →
      a.stage = .launching ∨ a.stage = .opening →
      Step cfg s (.createFail i)
        (startNewSession_catch cfg
          (createBrowserSession_catch { s with admissions := s.admissions.eraseIdx i }) a.id)
  | navigated : ∀ s i a session, s.admissions[i]? = some a → a.stage = .navigating session →
      Step cfg s (.navigated i)
        (startNewSession_success cfg { s with admissions := s.admissions.eraseIdx i }
          a.id session)
  | retryFire : ∀ s j sessionId, s.retries[j]? = some sessionId →
      Step cfg s (.retryFire j)
        (startNewSession cfg { s with retries := s.retries.eraseIdx j } sessionId false)
  | pageFinish : ∀ s i m n, s.members[i]? = some m → m.phase = .running (n + 2) →
      Step cfg s (.pageFinish i)
        { s with members := s.members.set i { m with phase := .running (n + 1) } }
  | lastPageFinish : ∀ s i m, s.members[i]? = some m → m.phase = .running 1 →
      Step cfg s (.pageFinish i)
        (member_afterRun cfg
          { s with members := s.members.set i { m with phase := .closingTry } } m.session)
  | runThrow : ∀ s i m n, s.members[i]? = some m → m.phase = .running (n + 1) →
      Step cfg s (.runThrow i)
        (member_catchEnter
          { s with members := s.members.set i { m with phase := .closingCatch } })
  | closeOkTry : ∀ s i m, s.members[i]? = some m → m.phase = .closingTry →
      Step cfg s (.closeOk i) (member_closed { s with members := s.members.eraseIdx i })
  | closeOkCatch : ∀ s i m, s.members[i]? = some m → m.phase = .closingCatch →
      Step cfg s (.closeOk i)
        (member_catchRest cfg { s with members := s.members.eraseIdx i } m.session)
  | closeThrowTry : ∀ s i m, s.members[i]? = some m → m.phase = .closingTry →
      Step cfg s (.closeThrow i)
        (member_catchEnter
          { s with members := s.members.set i { m with phase := .closingCatch } })
  | closeThrowCatch : ∀ s i m, s.members[i]? = some m → m.phase = .closingCatch →
      Step cfg s (.closeThrow i)
        (member_catchRest cfg (member_catchInner { s with members := s.members.eraseIdx i })
          m.session)
  | groupResolve : ∀ s groupId,
      (groupId ∈ s.activeGroups ∧
        (s.members.all fun m => decide (m.groupId ≠ groupId)) = true) →
      Step cfg s (.groupResolve groupId) (startNewGroup_resolved s groupId)
  | sweepIdle : ∀ s, s.isShuttingDown = true → Step cfg s .sweepBegin s
  | sweepBegin : ∀ s, ¬ s.isShuttingDown = true →
      Step cfg s .sweepBegin { s with sweeps := s.sweeps + 1 }
  | sweepStale : ∀ s j now session, 0 < s.sweeps → s.waitingForGroup[j]? = some session →
      isStale cfg session now →
      Step cfg s (.sweepVisit j now) { s with cleanups := s.cleanups ++ [session] }
  | sweepFresh : ∀ s j now session, 0 < s.sweeps → s.waitingForGroup[j]? = some session →
      ¬ isStale cfg session now → Step cfg s (.sweepVisit j now) s
  | sweepEnd : ∀ s, 0 < s.sweeps → Step cfg s .sweepEnd { s with sweeps := s.sweeps - 1 }
  | cleanupOk : ∀ s i session, s.cleanups[i]? = some session →
      Step cfg s (.cleanupOk i)
        (cleanupSession_closed { s with cleanups := s.cleanups.eraseIdx i } session)
  | cleanupFail : ∀ s i session, s.cleanups[i]? = some session →
      Step cfg s (.cleanupFail i)
        (cleanupSession_catch { s with cleanups := s.cleanups.eraseIdx i })
  | signal : ∀ s, Step cfg s .signal (handleShutdown s)
  | uncaught : ∀ s, Step cfg s .uncaught (handleShutdown (countBrowserError s))

/-! ## Orderly runs and the occupancy invariant -/

/-- The ids of the admissions that are pending: in flight, or waiting for their retry timer. -/
def pendingIds (s : State) : List Nat :=
  s.admissions.map (fun a => a.id) ++ s.retries

/-- The number of group members whose replacement has been admitted in the `try` block
while their own `browser.close()` has not settled. -/
def closingTryCount (s : State) : Nat :=
  s.members.countP (fun m => decide (m.phase = .closingTry))

/-- The number of ids that `main` has handed out by ramp-up when it is at `pc`. -/
def issued (cfg : Config) : MainPc → Nat
  | .loading => 0
  | .ramp batch => min (batch * BATCH_SIZE) cfg.MAX_SESSIONS
  | _ => cfg.MAX_SESSIONS

/-- An event that neither starts the shutdown (a signal, an uncaught exception, a failed
or empty `loadUserAgents`) nor is a `browser.close()` that throws in the `try` block, after
the interaction run of the member has succeeded. -/
def orderly (s : State) : Event → Bool
  | .loadOk rows => decide (rows.length ≠ 0)
  | .loadErr => false
  | .loadCloseErr _ => false
  | .signal => false
  | .uncaught => false
  | .closeThrow i =>
    match s.members[i]? with
    | some m => decide (m.phase ≠ .closingTry)
    | none => true
  | _ => true

/-- A sequence of events from `s` all of whose events are `orderly` and all of whose
states have pairwise distinct pending ids. -/
def orderlyRun (cfg : Config) : State → List Event → Bool
  | _, [] => true
  | s, e :: es =>
    match step cfg s e with
    | some s1 => orderly s e && decide (pendingIds s1).Nodup && orderlyRun cfg s1 es
    | none => true

/-- The invariant behind the occupancy bound of orderly runs. -/
structure Inv (cfg : Config) (s : State) : Prop where
  /-- No shutdown has begun. -/
  running : s.isShuttingDown = false
  /-- `sessionsInProgress` is a set. -/
  nodup : s.sessionsInProgress.Nodup
  /-- Every id of `sessionsInProgress` belongs to a pending admission. -/
  known : ∀ x ∈ s.sessionsInProgress, x ∈ pendingIds s
  /-- Every id that waits for its retry is in `sessionsInProgress`. -/
  retrying : ∀ x ∈ s.retries, x ∈ s.sessionsInProgress
  /-- The sessions counted in `totalActiveSessions` and the pending retries, less the members
  already replaced, fit in what `main` has issued. -/
  budget : s.totalActiveSessions + (s.retries.length : Int)
    ≤ (issued cfg s.mainPc : Int) + (closingTryCount s : Int)

/-! ## Object identity of session records -/

/-- Whether admission `a` holds the created session with object identity `r`. -/
def holdsRef (r : Nat) (a : Admission) : Bool :=
  match a.stage with
  | .navigating x => decide (x.ref = r)
  | _ => false

/-- How many live session records (waiting, or still held by their admission) have identity `r`. -/
def refCount (s : State) (r : Nat) : Nat :=
  s.waitingForGroup.countP (fun x => decide (x.ref = r)) + s.admissions.countP (holdsRef r)

/-- Object identities are unique and allocated below `nextRef`. -/
def RefsFresh (s : State) : Prop :=
  ∀ r, refCount s r ≤ 1 ∧ (s.nextRef ≤ r → refCount s r = 0)

/-! ## The error ledger -/

/-- The keys of `stats.errors` that hold a counter object, which are the values that the
call sites pass as `category`; in `main-local.js` there is only `browser`. -/
inductive ErrorCategory where
  | browser
deriving DecidableEq, Repr

/-- The string that names a category. -/
def ErrorCategory.key : ErrorCategory → String
  | .browser => "browser"

/-- The argument `error` of `logError`; `none` is a property that is `undefined`. -/
structure JsError where
  message : Option String
  stack : Option String
deriving DecidableEq, Repr

/-- The expression `error.message || 'Unknown error'` (the empty string is falsy). -/
def errorMessage (error : JsError) : String :=
  match error.message with
  | some m => if m = "" then "Unknown error" else m
  | none => "Unknown error"

/-- The statement `if (obj[type] !== undefined) obj[type]++` on the object
`stats.errors.browser`, whose own keys are `total` and the six sub-kinds.  Any other key
touches none of these counters. -/
def BrowserErrors.bump (b : BrowserErrors) (type : String) : BrowserErrors :=
  if type = "total" then { b with total := b.total + 1 }
  else if type = "navigation" then { b with navigation := b.navigation + 1 }
  else if type = "pageLoad" then { b with pageLoad := b.pageLoad + 1 }
  else if type = "clicking" then { b with clicking := b.clicking + 1 }
  else if type = "scrolling" then { b with scrolling := b.scrolling + 1 }
  else if type = "mouseMovement" then { b with mouseMovement := b.mouseMovement + 1 }
  else if type = "sessionCreation" then { b with sessionCreation := b.sessionCreation + 1 }
  else b

/-- The record `errorDetails` that `logError` builds; `timestamp` stands for
`new Date().toISOString()`. -/
def errorDetails (timestamp : Nat) (category : ErrorCategory) (type : String)
    (error : JsError) : ErrorDetails :=
  { timestamp := timestamp, category := category.key, type := type,
    message := errorMessage error, stack := error.stack }

/-- The last three statements of `logError`: `unshift` the record, then `pop` when the
history has more than 50 entries. -/
def pushHistory (r : ErrorDetails) (history : List ErrorDetails) : List ErrorDetails :=
  let unshifted := r :: history
  if unshifted.length > 50 then unshifted.dropLast else unshifted

/-- `logError(category, type, error)`. -/
def logError (s : State) (timestamp : Nat) (category : ErrorCategory) (type : String)
    (error : JsError) : State :=
  match category with
  | .browser =>
    let counted := { s.stats.browser with total := s.stats.browser.total + 1 }
    { s with stats := { s.stats with
        browser := counted.bump type,
        errorHistory := pushHistory (errorDetails timestamp .browser type error)
                          s.stats.errorHistory } }

/-- One call of `logError` with its arguments. -/
structure LogCall where
  timestamp : Nat
  category : ErrorCategory
  type : String
  error : JsError
deriving DecidableEq, Repr

/-- A sequence of `logError` calls, earliest first. -/
def logErrors (s : State) (calls : List LogCall) : State :=
  calls.foldl (fun acc c => logError acc c.timestamp c.category c.type c.error) s

/-- The entries that `updateDashboard` prints under "Last 3 Errors":
`stats.errors.errorHistory.slice(0, 3)`. -/
def updateDashboard_lastErrors (s : State) : List ErrorDetails :=
  s.stats.errorHistory.take 3

/-! ## The target URL set -/

/-- The constant `REQUIRED_URLS` of `fetchRecentPosts`. -/
def REQUIRED_URLS : Nat := 10

/-- What `axios.get` does for one page of the posts endpoint: it throws, or it resolves with
a response whose `data` is missing (`none`) or lists the posts, each post given by its
`link`. -/
inductive Response where
  | failure
  | data (links : Option (List String))
deriving DecidableEq, Repr

/-- The test `post.link.includes('/video/')`. -/
def includesVideo (link : String) : Bool :=
  link.toList.tails.any (fun t => "/video/".toList.isPrefixOf t)

/-- The expression `response.data.filter(post => !post.link.includes('/video/'))
.map(post => post.link)`. -/
def nonVideoLinks (links : List String) : List String :=
  links.filter (fun link => !includesVideo link)

/-- The array that `fetchRecentPosts` returns, and the number of `axios.get` calls it has
made (pages `1` to `requests` have been requested). -/
structure Fetched where
  urls : List String
  requests : Nat
deriving DecidableEq, Repr

/-- The `while` loop of `fetchRecentPosts` with its `try`/`catch`, at the loop head with the
variables `page` and `filteredUrls`; `source page` is the outcome of the request for `page`.
The loop need not end (a source may go on serving pages of videos): `none` says that `fuel`
iterations were not enough. -/
def fetchRecentPosts_loop (source : Nat → Response) :
    Nat → Nat → List String → Nat → Option Fetched
  | 0, _, _, _ => none
  | fuel + 1, page, filteredUrls, requests =>
    if filteredUrls.length < REQUIRED_URLS then
      match source page with
      | .failure => some { urls := [], requests := requests + 1 }
      | .data none => some { urls := filteredUrls, requests := requests + 1 }
      | .data (some links) =>
        if links.length = 0 then some { urls := filteredUrls, requests := requests + 1 }
        else
          if REQUIRED_URLS ≤ (filteredUrls ++ nonVideoLinks links).length then
            some { urls := (filteredUrls ++ nonVideoLinks links).take REQUIRED_URLS,
                   requests := requests + 1 }
          else
            fetchRecentPosts_loop source fuel (page + 1) (filteredUrls ++ nonVideoLinks links)
              (requests + 1)
    else some { urls := filteredUrls, requests := requests }

/-- `fetchRecentPosts()`, the same function in `main-local.js` and in `main-turk.js`. -/
def fetchRecentPosts (source : Nat → Response) (fuel : Nat) : Option Fetched :=
  fetchRecentPosts_loop source fuel 1 [] 0

/-- The statement `URLS = await fetchRecentPosts()` of `scheduleURLFetch`, once the call
has returned `fetched`. -/
def scheduleURLFetch_assign (s : State) (fetched : List String) : State :=
  { s with URLS := fetched }

/-- A content source that serves `pages` for the page numbers `1, 2, ...` and answers every
later request with `last`. -/
def sourceOf (pages : List (List String)) (last : Response) : Nat → Response
  | 0 => last
  | page + 1 =>
    match pages[page]? with
    | some links => .data (some links)
    | none => last

/-- The number of requests after which `filteredUrls`, extended by the non-video links of
the pages in turn, first holds `REQUIRED_URLS` entries; all pages if that never happens. -/
def pagesNeeded : List String → List (List String) → Nat
  | _, [] => 0
  | filteredUrls, links :: rest =>
    if REQUIRED_URLS ≤ (filteredUrls ++ nonVideoLinks links).length then 1
    else 1 + pagesNeeded (filteredUrls ++ nonVideoLinks links) rest

/-! ## Navigation targets -/

/-- The number of low bits that a non-negative integer below `2 ^ 1024` loses when it is
rounded to the 53-bit significand of a double. -/
def droppedBits : Nat → Nat → Nat
  | 0, _ => 0
  | fuel + 1, n => if n < 2 ^ 53 then 0 else droppedBits fuel (n / 2) + 1

/-- The nearest IEEE 754 double of a non-negative integer below `2 ^ 1024`, ties to the even
significand: an integer below `2 ^ 53` is a double, a larger one keeps its 53 leading
bits. -/
def toDouble (n : Nat) : Nat :=
  let e := droppedBits 1024 n
  if e = 0 then n
  else
    let q := n / 2 ^ e
    let r := n % 2 ^ e
    let half := 2 ^ (e - 1)
    if r < half then q * 2 ^ e
    else if half < r then (q + 1) * 2 ^ e
    else if q % 2 = 0 then q * 2 ^ e else (q + 1) * 2 ^ e

/-- The JavaScript sum `a + b` of two doubles that are non-negative integers. -/
def jsAdd (a b : Nat) : Nat :=
  toDouble (a + b)

/-- The targets of the two `goto` calls of `startNewSession`, `URLS[sessionId % URLS.length]`
for `pages[0]` and `URLS[(sessionId + 1) % URLS.length]` for `pages[1]`; `none` when the
test `URLS.length >= 2` fails and no `goto` is called.  `sessionId` is a double, and so is
the sum `sessionId + 1`; the remainder of two doubles is exact. -/
def startNewSession_targets (s : State) (sessionId : Nat) :
    Option (Option String × Option String) :=
  if 2 ≤ s.URLS.length then
    some (s.URLS[sessionId % s.URLS.length]?, s.URLS[jsAdd sessionId 1 % s.URLS.length]?)
  else none

/-! ## The identity rotator -/

/-- The state after `k` sequential calls of `getNextUserAgent`. -/
def getNextUserAgent_calls : Nat → State → State
  | 0, s => s
  | k + 1, s => (getNextUserAgent (getNextUserAgent_calls k s)).2

/-! ## The proxied variant, `main-turk.js` -/

namespace Turk

/-- The literal `CONFIG` of `main-turk.js`. -/
def CONFIG : Config :=
  { MAX_SESSIONS := 360, SESSION_DURATION := 45000, GROUP_SIZE := 5, RETRY_DELAY := 5000 }

/-- The value of a property to which `++` is applied.  `stats.browserErrors` and
`stats.proxyErrors` are not among the properties of the literal `stats` of
`main-turk.js`: they start out `undefined`, and `undefined++` stores `NaN`. -/
inductive JsNumber where
  | undefined
  | nan
  | num (n : Int)
deriving DecidableEq, Repr

/-- The postfix `++` on a property value. -/
def JsNumber.increment : JsNumber → JsNumber
  | .undefined => .nan
  | .nan => .nan
  | .num n => .num (n + 1)

/-- The object `stats.errors.proxy`. -/
structure ProxyErrors where
  total : Nat
  connection : Nat
  authentication : Nat
  timeout : Nat
deriving DecidableEq, Repr

/-- The object `stats` of `main-turk.js`: the two flat properties that the code increments
without declaring them, and the error ledger `stats.errors`. -/
structure Stats where
  browserErrors : JsNumber
  proxyErrors : JsNumber
  proxy : ProxyErrors
  browser : BrowserErrors
  errorHistory : List ErrorDetails
deriving DecidableEq, Repr

/-- The module-level variables of `main-turk.js` that `getNextUserAgent` reads or writes. -/
structure State where
  userAgents : List String
  currentUserAgentIndex : Nat
  stats : Stats
deriving DecidableEq, Repr

/-- The values of these variables when the module has been evaluated. -/
def init : State :=
  { userAgents := [], currentUserAgentIndex := 0,
    stats := { browserErrors := .undefined, proxyErrors := .undefined,
               proxy := { total := 0, connection := 0, authentication := 0, timeout := 0 },
               browser := { total := 0, navigation := 0, pageLoad := 0, clicking := 0,
                            scrolling := 0, mouseMovement := 0, sessionCreation := 0 },
               errorHistory := [] } }

/-- `getNextUserAgent()` of `main-turk.js`; the fallback string is the same as in
`main-local.js`. -/
def getNextUserAgent (s : State) : Option String × State :=
  if s.userAgents.length = 0 then
    (some defaultUserAgent,
      { s with stats := { s.stats with browserErrors := s.stats.browserErrors.increment } })
  else
    (s.userAgents[s.currentUserAgentIndex]?,
      { s with currentUserAgentIndex := (s.currentUserAgentIndex + 1) % s.userAgents.length })

/-- The state after `k` sequential calls of `getNextUserAgent`. -/
def getNextUserAgent_calls : Nat → State → State
  | 0, s => s
  | k + 1, s => (getNextUserAgent (getNextUserAgent_calls k s)).2

/-- One entry of the proxy list read by `loadProxies`. -/
structure ProxyData where
  ip : String
  port : Nat
deriving DecidableEq, Repr

/-- The arguments of one call `startNewSession(sessionId, proxyData)`; `proxyData` is handed
on unchanged to `createBrowserSession(proxyData)`, and `none` is `undefined`. -/
structure Call where
  sessionId : Nat
  proxyData : Option ProxyData
deriving DecidableEq, Repr

/-- The fields `id` and `proxyData` of the record `{ id: sessionId, ...session, proxyData }`
that a successful admission adds to `waitingForGroup`. -/
structure Session where
  id : Nat
  proxyData : Option ProxyData
deriving DecidableEq, Repr

/-- The call that both loops of `main` make for `sessionId`:
`startNewSession(sessionId, proxies[sessionId % proxies.length])`. -/
def main_call (proxies : List ProxyData) (sessionId : Nat) : Call :=
  { sessionId := sessionId, proxyData := proxies[sessionId % proxies.length]? }

/-- The record that the call leaves in the waiting set when it succeeds. -/
def startNewSession_record (c : Call) : Session :=
  { id := c.sessionId, proxyData := c.proxyData }

/-- The retry that the `catch` block of `startNewSession` schedules:
`startNewSession(sessionId, proxyData)`. -/
def startNewSession_retry (c : Call) : Call :=
  { sessionId := c.sessionId, proxyData := c.proxyData }

/-- The replacement call of the per-member handler, the same in its `try` and its `catch`
block: `startNewSession(session.id + CONFIG.MAX_SESSIONS, session.proxyData)`. -/
def startNewGroup_replacement (cfg : Config) (session : Session) : Call :=
  { sessionId := session.id + cfg.MAX_SESSIONS, proxyData := session.proxyData }

/-- The call that admits generation `k` of the line of sessions that `main` starts with id
`j`: every generation is admitted once its call (or a retry of it) succeeds, and is replaced
when it leaves its group. -/
def lineage (cfg : Config) (proxies : List ProxyData) (j : Nat) : Nat → Call
  | 0 => main_call proxies j
  | k + 1 =>
    startNewGroup_replacement cfg
      (startNewSession_record (startNewSession_retry (lineage cfg proxies j k)))

/-- The keys of `stats.errors` of `main-turk.js` that hold a counter object. -/
inductive ErrorCategory where
  | proxy
  | browser
deriving DecidableEq, Repr

/-- The string that names a category. -/
def ErrorCategory.key : ErrorCategory → String
  | .proxy => "proxy"
  | .browser => "browser"

/-- The statement `if (obj[type] !== undefined) obj[type]++` on the object
`stats.errors.proxy`, whose own keys are `total` and the three sub-kinds. -/
def ProxyErrors.bump (p : ProxyErrors) (type : String) : ProxyErrors :=
  if type = "total" then { p with total := p.total + 1 }
  else if type = "connection" then { p with connection := p.connection + 1 }
  else if type = "authentication" then { p with authentication := p.authentication + 1 }
  else if type = "timeout" then { p with timeout := p.timeout + 1 }
  else p

/-- `logError(category, type, error)` of `main-turk.js`, the same statements as in
`main-local.js` on a ledger of two categories. -/
def logError (s : State) (timestamp : Nat) (category : ErrorCategory) (type : String)
    (error : JsError) : State :=
  let record : ErrorDetails :=
    { timestamp := timestamp, category := category.key, type := type,
      message := errorMessage error, stack := error.stack }
  match category with
  | .proxy =>
    let counted := { s.stats.proxy with total := s.stats.proxy.total + 1 }
    { s with stats := { s.stats with
        proxy := counted.bump type,
        errorHistory := pushHistory record s.stats.errorHistory } }
  | .browser =>
    let counted := { s.stats.browser with total := s.stats.browser.total + 1 }
    { s with stats := { s.stats with
        browser := counted.bump type,
        errorHistory := pushHistory record s.stats.errorHistory } }

/-- What the database does for `loadUserAgents`: it cannot be opened, the query fails, or
the query returns rows and closing the database then fails or succeeds. -/
inductive LoadOutcome where
  | openError
  | queryError
  | rows (rows : List String) (closeError : Bool)
deriving DecidableEq, Repr

/-- `loadUserAgents()` of `main-turk.js`: whether its promise resolves, and the state it
leaves. -/
def loadUserAgents (s : State) : LoadOutcome → Bool × State
  | .openError =>
    (false, { s with stats := { s.stats with browserErrors := s.stats.browserErrors.increment } })
  | .queryError =>
    (false, { s with stats := { s.stats with browserErrors := s.stats.browserErrors.increment } })
  | .rows rows closeError =>
    let s1 := { s with userAgents := rows }
    if rows.length = 0 then (false, s1)
    else if closeError then
      (false, { s1 with stats := { s1.stats with
                  browserErrors := s1.stats.browserErrors.increment } })
    else (true, s1)

end Turk

/-! ## What the occupancy sum counts -/

/-- The number of sessions that exist: the admissions in flight, the sessions in the waiting
set, and the group members whose handler has not yet run its `totalActiveSessions--`. -/
def live (s : State) : Int :=
  (s.admissions.length : Int) + (s.waitingForGroup.length : Int) + (s.members.length : Int)

/-- The units of `totalActiveSessions` that belong to no existing session. -/
def orphaned (s : State) : Int :=
  s.totalActiveSessions - live s

/-- Whether `e` is the successful close, by `cleanupSession`, of a session that is in the
waiting set. -/
def removesWaiting (s : State) : Event → Bool
  | .cleanupOk i =>
    match s.cleanups[i]? with
    | some session => decide (session ∈ s.waitingForGroup)
    | none => false
  | _ => false

/-- The number of waiting sessions that `cleanupSession` has closed along a run. -/
def removedByCleanup (cfg : Config) : State → List Event → Nat
  | _, [] => 0
  | s, e :: es =>
    match step cfg s e with
    | some s1 => (if removesWaiting s e then 1 else 0) + removedByCleanup cfg s1 es
    | none => 0

/-- Every admission in flight has its id in `sessionsInProgress`. -/
def Registered (s : State) : Prop :=
  ∀ x ∈ s.admissions.map (fun a => a.id), x ∈ s.sessionsInProgress

/-! ## The guard of the identity list -/

/-- Either identities have been loaded and `main` is past `loadUserAgents`, or nothing has
been admitted and `main` is still loading or has returned. -/
def Guarded (s : State) : Prop :=
  (s.userAgents ≠ [] ∧ s.mainPc ≠ .loading) ∨
    (s.admissions = [] ∧ s.retries = [] ∧ s.members = [] ∧ s.waitingForGroup = [] ∧
      (s.mainPc = .loading ∨ s.mainPc = .done))

/-! ## Admissions that shutdown finds in flight -/

/-- Whether an admission in flight has not yet created its session record: it awaits
`chromium.launch` or `newContext`/`newPage`. -/
def isCreating (a : Admission) : Bool :=
  match a.stage with
  | .launching => true
  | .opening => true
  | .navigating _ => false

/-- The number of admissions in flight that have not yet created their session record. -/
def creating (s : State) : Nat :=
  s.admissions.countP isCreating

/-! ## Concrete configurations used in the examples -/

/-- The scenario of the specification: `MAX_SESSIONS = 10`, `GROUP_SIZE = 5`. -/
def scenarioConfig : Config :=
  { MAX_SESSIONS := 10, SESSION_DURATION := 60000, GROUP_SIZE := 5, RETRY_DELAY := 5000 }

/-- A pool of one session whose groups have one member. -/
def soloConfig : Config :=
  { MAX_SESSIONS := 1, SESSION_DURATION := 60000, GROUP_SIZE := 1, RETRY_DELAY := 5000 }

/-- A pool of two sessions that form one group of two. -/
def pairConfig : Config :=
  { MAX_SESSIONS := 2, SESSION_DURATION := 60000, GROUP_SIZE := 2, RETRY_DELAY := 5000 }

/-- A pool of one session that never fills a group of two. -/
def loneConfig : Config :=
  { MAX_SESSIONS := 1, SESSION_DURATION := 60000, GROUP_SIZE := 2, RETRY_DELAY := 5000 }

/-- Three sessions waiting, in insertion order. -/
def threeWaiting : State :=
  { init with waitingForGroup :=
                [{ ref := 0, id := 0, startTime := 0, lastActiveTime := 0 },
                 { ref := 1, id := 1, startTime := 0, lastActiveTime := 0 },
                 { ref := 2, id := 2, startTime := 0, lastActiveTime := 0 }],
              totalActiveSessions := 3, nextRef := 3, mainPc := .steadyTimer,
              userAgents := ["ua"] }

/-- Group 1 of `pairConfig`: session 0 has one interaction run left, session 1 has both. -/
def pairLastPage : State :=
  (run pairConfig init
    [.loadOk ["ua"], .mainStep [], .launchOk 0, .openOk 0 0, .navigated 0,
     .launchOk 0, .openOk 0 0, .navigated 0, .pageFinish 0]).getD init

/-- The state `pairLastPage` after the last interaction run of session 0 has finished. -/
def pairClosing : State :=
  (step pairConfig pairLastPage (.pageFinish 0)).getD init

/-- The state of `main` right after `sessionsInProgress.add(0)` in the first ramp-up batch. -/
def registeredZero : State :=
  { init with userAgents := ["ua"], sessionsInProgress := [0], mainPc := .ramp 1 }

/-- The state `threeWaiting` after `handleShutdown()`. -/
def shutDownThree : State :=
  handleShutdown threeWaiting

/-- The state `shutDownThree` after the close of its first waiting session resolved. -/
def shutDownThreeClosed : State :=
  (step pairConfig shutDownThree (.cleanupOk 0)).getD init

/-- Session 0 of `soloConfig` is admitted, grouped and finishes both interaction runs. -/
def soloTrace : List Event :=
  [.loadOk ["ua"], .mainStep [], .launchOk 0, .openOk 0 0, .navigated 0, .pageFinish 0,
   .pageFinish 0]

/-- The state after `soloTrace`: session 0 awaits its close, its replacement is in flight. -/
def soloReplaced : State :=
  (run soloConfig init soloTrace).getD init

/-- Three identities loaded, cursor at 0. -/
def threeAgents : State :=
  { init with userAgents := ["ua0", "ua1", "ua2"], mainPc := .ramp 0 }

/-- Three identities loaded in the proxied variant, cursor at 0. -/
def turkThreeAgents : Turk.State :=
  { Turk.init with userAgents := ["ua0", "ua1", "ua2"] }

/-- A URL set of three entries. -/
def threeUrls : State :=
  { init with userAgents := ["ua0"], URLS := ["u0", "u1", "u2"], mainPc := .ramp 0 }

/-- A proxy list of seven entries. -/
def sevenProxies : List Turk.ProxyData :=
  [⟨"10.0.0.0", 8000⟩, ⟨"10.0.0.1", 8000⟩, ⟨"10.0.0.2", 8000⟩, ⟨"10.0.0.3", 8000⟩,
   ⟨"10.0.0.4", 8000⟩, ⟨"10.0.0.5", 8000⟩, ⟨"10.0.0.6", 8000⟩]

/-- Two pages of six posts each; the third post of the first page is a video. -/
def twoPages : List (List String) :=
  [["a1", "a2", "x/video/1", "a3", "a4", "a5"], ["b1", "b2", "b3", "b4", "b5", "b6"]]

/-- A state in which the occupancy sum is far above `MAX_SESSIONS = 150`. -/
def crowded : State :=
  { init with userAgents := ["ua"], totalActiveSessions := 1000, sessionsInProgress := [7, 8],
              mainPc := .steadyTimer }

/-- Session 0 of `loneConfig` is admitted and waits for a group that never fills; a sweep
finds it stale and calls `cleanupSession` on it. -/
def loneStaleTrace : List Event :=
  [.loadOk ["ua"], .mainStep [], .launchOk 0, .openOk 0 0, .navigated 0, .sweepBegin,
   .sweepVisit 0 100000]

/-- The state after `loneStaleTrace`: the `browser.close()` of `cleanupSession` is awaited. -/
def loneStale : State :=
  (run loneConfig init loneStaleTrace).getD init

/-- The state `loneStale` after the close has resolved. -/
def loneSwept : State :=
  (step loneConfig loneStale (.cleanupOk 0)).getD init

/-- The state `loneStale` after the close has resolved and `main` has gone through one
iteration of its steady-state loop. -/
def loneLost : State :=
  (run loneConfig loneStale [.cleanupOk 0, .sweepEnd, .mainStep [], .mainStep [200000]]).getD
    init

/-- Sessions 0 and 1 of `pairConfig` are admitted; session 0 reaches the waiting set,
session 1 is still being created when a signal arrives. -/
def pairSignalTrace : List Event :=
  [.loadOk ["ua"], .mainStep [], .launchOk 0, .openOk 0 0, .navigated 0, .signal]

/-- The state after `pairSignalTrace`. -/
def pairShutDown : State :=
  (run pairConfig init pairSignalTrace).getD init

/-- The state `pairShutDown` after the admission of session 1 has run to its end. -/
def pairLate : State :=
  (run pairConfig pairShutDown [.launchOk 0, .openOk 0 5, .navigated 0]).getD init

/-! ## Theorems -/

/-! ### Lists as sets -/

theorem foldl_setDelete {α : Type} [DecidableEq α] (a w : List α) :
    a.foldl (fun w x => setDelete x w) w = w.filter (fun y => decide (y ∉ a)) := by
  induction a generalizing w with
  | nil => simp
  | cons x a ih =>
    rw [List.foldl_cons, ih, setDelete, List.filter_filter]
    congr 1
    funext y
    simp [Bool.and_comm]

theorem take_foldl_setDelete {α : Type} [DecidableEq α] (l : List α) (n : Nat) (h : l.Nodup) :
    (l.take n).foldl (fun w x => setDelete x w) l = l.drop n := by
  rw [foldl_setDelete]
  have hd := List.disjoint_take_drop h (le_refl n)
  conv_lhs => rw [← List.take_append_drop n l]
  conv_rhs => rw [← List.nil_append (l.drop n)]
  rw [List.filter_append]
  congr 1
  · rw [List.filter_eq_nil_iff]; intro a ha; simpa using ha
  · rw [List.filter_eq_self]; intro a ha; simpa using fun h' => hd h' ha

theorem mem_setAdd_self {α : Type} [DecidableEq α] (x : α) (l : List α) : x ∈ setAdd x l := by
  unfold setAdd; split <;> simp [*]

theorem mem_setAdd {α : Type} [DecidableEq α] (x y : α) (l : List α) :
    y ∈ setAdd x l ↔ y = x ∨ y ∈ l := by
  unfold setAdd; split
  · constructor
    · exact Or.inr
    · rintro (rfl | h) <;> assumption
  · simp [or_comm]

theorem mem_setDelete {α : Type} [DecidableEq α] (x y : α) (l : List α) :
    y ∈ setDelete x l ↔ y ∈ l ∧ y ≠ x := by
  simp [setDelete]

theorem setAdd_nodup {α : Type} [DecidableEq α] (x : α) (l : List α) (h : l.Nodup) :
    (setAdd x l).Nodup := by
  unfold setAdd
  split
  · exact h
  · rw [List.nodup_append]
    exact ⟨h, List.nodup_singleton x, by simpa using ‹x ∉ l›⟩

theorem setDelete_nodup {α : Type} [DecidableEq α] (x : α) (l : List α) (h : l.Nodup) :
    (setDelete x l).Nodup :=
  h.sublist (List.filter_sublist l)

theorem countP_setDelete_le {α : Type} [DecidableEq α] (p : α → Bool) (x : α) (l : List α) :
    (setDelete x l).countP p ≤ l.countP p :=
  (List.filter_sublist l).countP_le p

theorem countP_foldl_setDelete_le {α : Type} [DecidableEq α] (p : α → Bool) (a l : List α) :
    (a.foldl (fun w x => setDelete x w) l).countP p ≤ l.countP p := by
  rw [foldl_setDelete]
  exact (List.filter_sublist l).countP_le p

theorem foldl_setAdd_nodup (ids l : List Nat) (h : l.Nodup) :
    (ids.foldl (fun acc x => setAdd x acc) l).Nodup := by
  induction ids generalizing l with
  | nil => exact h
  | cons x xs ih => exact ih _ (setAdd_nodup x l h)

theorem mem_foldl_setAdd (ids l : List Nat) (y : Nat) :
    y ∈ ids.foldl (fun acc x => setAdd x acc) l ↔ y ∈ l ∨ y ∈ ids := by
  induction ids generalizing l with
  | nil => simp
  | cons x xs ih =>
    rw [List.foldl_cons, ih, mem_setAdd, List.mem_cons]
    constructor
    · rintro ((h | h) | h)
      · exact Or.inr (Or.inl h)
      · exact Or.inl h
      · exact Or.inr (Or.inr h)
    · rintro (h | h | h)
      · exact Or.inl (Or.inr h)
      · exact Or.inl (Or.inl h)
      · exact Or.inr h

theorem length_le_of_nodup_subset {α : Type} {l₁ l₂ : List α} (d : l₁.Nodup)
    (h : ∀ x ∈ l₁, x ∈ l₂) : l₁.length ≤ l₂.length :=
  (List.subperm_of_subset d h).length_le

theorem mem_eraseIdx_of_ne {α : Type} {l : List α} {i : Nat} {a b : α}
    (hi : l[i]? = some b) (ha : a ∈ l) (hne : a ≠ b) : a ∈ l.eraseIdx i := by
  rw [List.mem_eraseIdx_iff_getElem?]
  obtain ⟨k, hk⟩ := List.mem_iff_getElem?.mp ha
  refine ⟨k, ?_, hk⟩
  rintro rfl
  rw [hi] at hk
  exact hne (Option.some.inj hk).symm

theorem countP_eraseIdx {α : Type} (p : α → Bool) (l : List α) (i : Nat) (a : α)
    (hi : l[i]? = some a) :
    l.countP p = (l.eraseIdx i).countP p + (if p a then 1 else 0) := by
  induction l generalizing i with
  | nil => simp at hi
  | cons x xs ih =>
    cases i with
    | zero =>
      simp only [List.getElem?_cons_zero, Option.some.injEq] at hi
      subst hi
      simp [List.countP_cons]
    | succ k =>
      simp only [List.getElem?_cons_succ] at hi
      simp only [List.eraseIdx_cons_succ, List.countP_cons, ih k hi]
      omega

theorem countP_set_of_getElem? {α : Type} (p : α → Bool) (l : List α) (i : Nat) (a b : α)
    (hi : l[i]? = some a) :
    (l.set i b).countP p + (if p a then 1 else 0) = l.countP p + (if p b then 1 else 0) := by
  induction l generalizing i with
  | nil => simp at hi
  | cons x xs ih =>
    cases i with
    | zero =>
      simp only [List.getElem?_cons_zero, Option.some.injEq] at hi
      subst hi
      simp only [List.set_cons_zero, List.countP_cons]
      omega
    | succ k =>
      simp only [List.getElem?_cons_succ] at hi
      simp only [List.set_cons_succ, List.countP_cons]
      have := ih k hi
      omega

theorem eraseIdx_concat_length {α : Type} (l : List α) (a : α) :
    (l ++ [a]).eraseIdx l.length = l := by
  induction l with
  | nil => rfl
  | cons x xs ih => simp [List.eraseIdx_cons_succ, ih]

theorem set_concat_length {α : Type} (l : List α) (a b : α) :
    (l ++ [a]).set l.length b = l ++ [b] := by
  induction l with
  | nil => rfl
  | cons x xs ih => simp [ih]

/-! ### `step` and its graph -/

/-- Every transition of `step` is a `Step`. -/
theorem step_sound (cfg : Config) (s : State) (e : Event) (s1 : State)
    (h : step cfg s e = some s1) : Step cfg s e s1 := by
  cases e <;> simp only [step, main_resume] at h
  all_goals repeat' split at h
  all_goals first | contradiction | cases h
  case loadOk.isTrue.isTrue.refl => apply Step.loadEmpty; all_goals assumption
  case loadOk.isTrue.isFalse.refl => apply Step.loadRows; all_goals assumption
  case loadErr.isTrue.refl => apply Step.loadErr; all_goals assumption
  case loadCloseErr.isTrue.refl => apply Step.loadCloseErr; all_goals assumption
  case urlFetch.isFalse.refl => apply Step.urlFetch; all_goals assumption
  case mainStep.h_3.isFalse.isTrue.isTrue.refl => apply Step.rampBreak; all_goals assumption
  case mainStep.h_3.isFalse.isTrue.isFalse.refl => apply Step.rampBatch; all_goals assumption
  case mainStep.h_3.isFalse.isFalse.refl => apply Step.rampEnd; all_goals assumption
  case mainStep.h_4.refl => apply Step.topUp; all_goals assumption
  case mainStep.h_5.isFalse.refl => apply Step.join; all_goals assumption
  case launchOk.h_1.isTrue.refl => apply Step.launchOk; all_goals assumption
  case openOk.h_1.isTrue.refl => apply Step.openOk; all_goals assumption
  case createFail.h_1.isTrue.refl => apply Step.createFail; all_goals assumption
  case navigated.h_1.h_1.refl => apply Step.navigated; all_goals assumption
  case retryFire.h_1.refl => apply Step.retryFire; all_goals assumption
  case pageFinish.h_1.h_1.refl => apply Step.pageFinish; all_goals assumption
  case pageFinish.h_1.h_2.refl => apply Step.lastPageFinish; all_goals assumption
  case runThrow.h_1.h_1.refl => apply Step.runThrow; all_goals assumption
  case closeOk.h_1.h_1.refl => apply Step.closeOkTry; all_goals assumption
  case closeOk.h_1.h_2.refl => apply Step.closeOkCatch; all_goals assumption
  case closeThrow.h_1.h_1.refl => apply Step.closeThrowTry; all_goals assumption
  case closeThrow.h_1.h_2.refl => apply Step.closeThrowCatch; all_goals assumption
  case groupResolve.isTrue.refl => apply Step.groupResolve; all_goals assumption
  case sweepBegin.isTrue.refl => apply Step.sweepIdle; all_goals assumption
  case sweepBegin.isFalse.refl => apply Step.sweepBegin; all_goals assumption
  case sweepVisit.isTrue.h_1.isTrue.refl => apply Step.sweepStale; all_goals assumption
  case sweepVisit.isTrue.h_1.isFalse.refl => apply Step.sweepFresh; all_goals assumption
  case sweepEnd.isTrue.refl => apply Step.sweepEnd; all_goals assumption
  case cleanupOk.h_1.refl => apply Step.cleanupOk; all_goals assumption
  case cleanupFail.h_1.refl => apply Step.cleanupFail; all_goals assumption
  case signal.refl => apply Step.signal
  case uncaught.refl => apply Step.uncaught

/-- Every `Step` is a transition of `step`. -/
theorem step_complete (cfg : Config) (s : State) (e : Event) (s1 : State)
    (h : Step cfg s e s1) : step cfg s e = some s1 := by
  cases h <;> simp_all [step, main_resume]

/-! ### Effect of the synchronous stretches on single fields -/

theorem startNewSession_stats_completed (cfg : Config) (s : State) (i : Nat) (a : Bool) :
    (startNewSession cfg s i a).stats.sessionsCompleted = s.stats.sessionsCompleted := by
  unfold startNewSession; split <;> rfl

theorem startNewSession_stats_groups (cfg : Config) (s : State) (i : Nat) (a : Bool) :
    (startNewSession cfg s i a).stats.groupsCompleted = s.stats.groupsCompleted := by
  unfold startNewSession; split <;> rfl

theorem startNewSession_members (cfg : Config) (s : State) (i : Nat) (a : Bool) :
    (startNewSession cfg s i a).members = s.members := by
  unfold startNewSession; split <;> rfl

theorem startNewSession_inProgress (cfg : Config) (s : State) (i : Nat) (a : Bool) :
    (startNewSession cfg s i a).sessionsInProgress = s.sessionsInProgress := by
  unfold startNewSession; split <;> rfl

theorem startNewSession_pass (cfg : Config) (s : State) (sessionId : Nat) (awaited : Bool)
    (hsd : s.isShuttingDown = false) (hin : sessionId ∈ s.sessionsInProgress) :
    startNewSession cfg s sessionId awaited =
      { s with totalActiveSessions := s.totalActiveSessions + 1,
               stats := { s.stats with sessionsOpened := s.stats.sessionsOpened + 1 },
               admissions := s.admissions ++ [{ id := sessionId, awaited := awaited,
                                                stage := .launching }] } := by
  unfold startNewSession
  rw [if_neg]
  rintro (h | ⟨h, _⟩)
  · rw [hsd] at h; cases h
  · exact h hin

theorem startNewSession_shutdown (cfg : Config) (t : State) (sessionId : Nat) (awaited : Bool)
    (hsd : t.isShuttingDown = true) : startNewSession cfg t sessionId awaited = t := by
  unfold startNewSession
  rw [if_pos (show gateRejects cfg t sessionId from Or.inl hsd)]

theorem startNewGroup_total (cfg : Config) (s : State) :
    (startNewGroup cfg s).totalActiveSessions = s.totalActiveSessions := by
  unfold startNewGroup; split <;> rfl

theorem startNewGroup_inProgress (cfg : Config) (s : State) :
    (startNewGroup cfg s).sessionsInProgress = s.sessionsInProgress := by
  unfold startNewGroup; split <;> rfl

theorem startNewGroup_frame (cfg : Config) (s : State) :
    (startNewGroup cfg s).isShuttingDown = s.isShuttingDown ∧
    (startNewGroup cfg s).sessionsInProgress = s.sessionsInProgress ∧
    (startNewGroup cfg s).admissions = s.admissions ∧
    (startNewGroup cfg s).retries = s.retries ∧
    (startNewGroup cfg s).totalActiveSessions = s.totalActiveSessions ∧
    (startNewGroup cfg s).mainPc = s.mainPc := by
  unfold startNewGroup
  split <;> simp

theorem startNewGroup_shutdown (cfg : Config) (t : State) (hsd : t.isShuttingDown = true) :
    startNewGroup cfg t = t := by
  unfold startNewGroup
  rw [if_neg]
  rintro ⟨-, h⟩
  rw [hsd] at h; cases h

theorem startNewGroup_countP (cfg : Config) (s : State) (p : Session → Bool)
    (h : s.waitingForGroup.Nodup) :
    (startNewGroup cfg s).waitingForGroup.countP p
        + (startNewGroup cfg s).members.countP (fun m => p m.session)
      = s.waitingForGroup.countP p + s.members.countP (fun m => p m.session) := by
  unfold startNewGroup
  split
  · dsimp only
    rw [take_foldl_setDelete _ _ h, List.countP_append, List.countP_map]
    conv_rhs => rw [← List.take_append_drop cfg.GROUP_SIZE s.waitingForGroup, List.countP_append]
    simp only [Function.comp_def]
    have h1 : List.countP (fun x => p x) (List.take cfg.GROUP_SIZE s.waitingForGroup)
        = List.countP p (List.take cfg.GROUP_SIZE s.waitingForGroup) := rfl
    omega
  · rfl

theorem createBrowserSession_launched_frame (s : State) :
    (createBrowserSession_launched s).admissions = s.admissions ∧
    (createBrowserSession_launched s).totalActiveSessions = s.totalActiveSessions ∧
    (createBrowserSession_launched s).sessionsInProgress = s.sessionsInProgress ∧
    (createBrowserSession_launched s).waitingForGroup = s.waitingForGroup ∧
    (createBrowserSession_launched s).members = s.members ∧
    (createBrowserSession_launched s).nextRef = s.nextRef ∧
    (createBrowserSession_launched s).isShuttingDown = s.isShuttingDown ∧
    (createBrowserSession_launched s).retries = s.retries ∧
    (createBrowserSession_launched s).mainPc = s.mainPc := by
  unfold createBrowserSession_launched getNextUserAgent
  split <;> simp

theorem main_whileHead_running (s : State) (h : s.isShuttingDown = false) :
    main_whileHead s = { s with mainPc := .steadyTimer } := by
  simp [main_whileHead, h]

theorem foldl_registerAndStart_stats_completed (cfg : Config) (ids : List Nat) (s : State) :
    (ids.foldl (registerAndStart cfg) s).stats.sessionsCompleted = s.stats.sessionsCompleted := by
  induction ids generalizing s with
  | nil => rfl
  | cons x xs ih => rw [List.foldl_cons, ih, registerAndStart, startNewSession_stats_completed]

theorem foldl_registerAndStart_stats_groups (cfg : Config) (ids : List Nat) (s : State) :
    (ids.foldl (registerAndStart cfg) s).stats.groupsCompleted = s.stats.groupsCompleted := by
  induction ids generalizing s with
  | nil => rfl
  | cons x xs ih => rw [List.foldl_cons, ih, registerAndStart, startNewSession_stats_groups]

theorem foldl_registerAndStart_members (cfg : Config) (ids : List Nat) (s : State) :
    (ids.foldl (registerAndStart cfg) s).members = s.members := by
  induction ids generalizing s with
  | nil => rfl
  | cons x xs ih => rw [List.foldl_cons, ih, registerAndStart, startNewSession_members]

theorem foldl_registerAndStart_shutdown (cfg : Config) (ids : List Nat) (t : State)
    (hsd : t.isShuttingDown = true) :
    (ids.foldl (registerAndStart cfg) t).isShuttingDown = true ∧
    (ids.foldl (registerAndStart cfg) t).admissions = t.admissions ∧
    (ids.foldl (registerAndStart cfg) t).groupCounter = t.groupCounter ∧
    (ids.foldl (registerAndStart cfg) t).members = t.members ∧
    (ids.foldl (registerAndStart cfg) t).stats = t.stats := by
  induction ids generalizing t with
  | nil => exact ⟨hsd, rfl, rfl, rfl, rfl⟩
  | cons x xs ih =>
    rw [List.foldl_cons, registerAndStart, startNewSession_shutdown cfg _ x true (by exact hsd)]
    exact ih _ hsd

theorem foldl_registerAndStart_running (cfg : Config) (ids : List Nat) (s : State)
    (hsd : s.isShuttingDown = false) :
    (ids.foldl (registerAndStart cfg) s).isShuttingDown = false ∧
    (ids.foldl (registerAndStart cfg) s).totalActiveSessions
      = s.totalActiveSessions + (ids.length : Int) ∧
    (ids.foldl (registerAndStart cfg) s).sessionsInProgress
      = ids.foldl (fun acc x => setAdd x acc) s.sessionsInProgress ∧
    (ids.foldl (registerAndStart cfg) s).admissions
      = s.admissions ++ ids.map (fun x => { id := x, awaited := true, stage := .launching }) ∧
    (ids.foldl (registerAndStart cfg) s).retries = s.retries ∧
    (ids.foldl (registerAndStart cfg) s).members = s.members ∧
    (ids.foldl (registerAndStart cfg) s).mainPc = s.mainPc := by
  induction ids generalizing s with
  | nil => simp [hsd]
  | cons x xs ih =>
    rw [List.foldl_cons, registerAndStart,
      startNewSession_pass cfg { s with sessionsInProgress := setAdd x s.sessionsInProgress } x true
        hsd (mem_setAdd_self _ _)]
    obtain ⟨h1, h2, h3, h4, h5, h6, h7⟩ := ih
      { s with sessionsInProgress := setAdd x s.sessionsInProgress,
               totalActiveSessions := s.totalActiveSessions + 1,
               stats := { s.stats with sessionsOpened := s.stats.sessionsOpened + 1 },
               admissions := s.admissions ++ [{ id := x, awaited := true, stage := .launching }] }
      hsd
    refine ⟨h1, ?_, h3, ?_, h5, h6, h7⟩
    · rw [h2]; simp only [List.length_cons]; push_cast; ring
    · rw [h4]; simp

theorem length_batchIds_le (cfg : Config) (a : Nat) :
    (batchIds cfg a).length ≤ min BATCH_SIZE (cfg.MAX_SESSIONS - a) := by
  have hsub : List.Sublist (batchIds cfg a) ((List.range BATCH_SIZE).map (fun i => a + i)) :=
    List.takeWhile_sublist _
  have h1 : (batchIds cfg a).length ≤ BATCH_SIZE := by
    simpa using hsub.length_le
  have hnd : (batchIds cfg a).Nodup := by
    refine List.Nodup.sublist hsub ?_
    exact (List.nodup_range _).map (fun x y h => by simpa using h)
  have h2 : (batchIds cfg a).length ≤ cfg.MAX_SESSIONS - a := by
    have := @length_le_of_nodup_subset Nat (batchIds cfg a)
      (List.range' a (cfg.MAX_SESSIONS - a)) hnd ?_
    · simpa using this
    · intro x hx
      have hlt : x < cfg.MAX_SESSIONS := by
        simpa using List.mem_takeWhile_imp hx
      have hge : a ≤ x := by
        have := hsub.subset hx
        simp only [List.mem_map, List.mem_range] at this
        obtain ⟨i, -, rfl⟩ := this
        omega
      rw [List.mem_range']
      exact ⟨x - a, by omega, by omega⟩
  exact le_min h1 h2

theorem map_id_set (l : List Admission) (i : Nat) (a b : Admission)
    (hi : l[i]? = some a) (hid : b.id = a.id) :
    (l.set i b).map (fun a => a.id) = l.map (fun a => a.id) := by
  induction l generalizing i with
  | nil => rfl
  | cons x xs ih =>
    cases i with
    | zero =>
      simp only [List.getElem?_cons_zero, Option.some.injEq] at hi
      subst hi
      simp [hid]
    | succ k =>
      simp only [List.getElem?_cons_succ] at hi
      simp [ih k hi]

/-! ### The admission gate -/

/-- C1: `startNewSession(sessionId)` leaves the whole state unchanged and starts no browser
creation exactly when `isShuttingDown` holds or `sessionId` is not in `sessionsInProgress`
while `totalActiveSessions + sessionsInProgress.size >= MAX_SESSIONS`; in every other case
it adds exactly 1 to `totalActiveSessions` and to `stats.sessionsOpened`, changes nothing
else, and then awaits the browser creation. -/
theorem startNewSession_noop_iff (cfg : Config) (s : State) (sessionId : Nat) (awaited : Bool) :
    (startNewSession cfg s sessionId awaited = s ↔
      (s.isShuttingDown = true ∨
        (sessionId ∉ s.sessionsInProgress ∧
          (cfg.MAX_SESSIONS : Int)
            ≤ s.totalActiveSessions + (s.sessionsInProgress.length : Int)))) ∧
    (startNewSession cfg s sessionId awaited = s ∨
      startNewSession cfg s sessionId awaited =
        { s with totalActiveSessions := s.totalActiveSessions + 1,
                 stats := { s.stats with sessionsOpened := s.stats.sessionsOpened + 1 },
                 admissions := s.admissions ++ [{ id := sessionId, awaited := awaited,
                                                  stage := .launching }] }) := by
  unfold startNewSession
  by_cases h : gateRejects cfg s sessionId
  · simp only [if_pos h, true_iff, true_or, and_true]
    exact h
  · simp only [if_neg h, or_true, and_true]
    constructor
    · intro heq
      have := congrArg State.totalActiveSessions heq
      simp at this
    · intro h'
      exact absurd h' h

/-! ### Group formation -/

/-- C2: `startNewGroup` changes the state exactly when the waiting set holds at least
`GROUP_SIZE` sessions and `isShuttingDown` is false; then `groupCounter` grows by exactly 1,
the members of the new group are the first `GROUP_SIZE` sessions of the waiting set in
insertion order, the waiting set becomes the remaining sessions in their order, and none
of the grouped sessions is left in the waiting set. -/
theorem startNewGroup_forms (cfg : Config) (s : State) (hset : s.waitingForGroup.Nodup) :
    (startNewGroup cfg s ≠ s ↔
      (cfg.GROUP_SIZE ≤ s.waitingForGroup.length ∧ s.isShuttingDown = false)) ∧
    ((cfg.GROUP_SIZE ≤ s.waitingForGroup.length ∧ s.isShuttingDown = false) →
      (startNewGroup cfg s).groupCounter = s.groupCounter + 1 ∧
      (startNewGroup cfg s).members =
        s.members ++ (s.waitingForGroup.take cfg.GROUP_SIZE).map
          (fun x => { session := x, groupId := s.groupCounter + 1, phase := .running 2 }) ∧
      (s.waitingForGroup.take cfg.GROUP_SIZE).length = cfg.GROUP_SIZE ∧
      (startNewGroup cfg s).waitingForGroup = s.waitingForGroup.drop cfg.GROUP_SIZE ∧
      (∀ x ∈ s.waitingForGroup.take cfg.GROUP_SIZE, x ∉ (startNewGroup cfg s).waitingForGroup)) := by
  unfold startNewGroup
  by_cases h : cfg.GROUP_SIZE ≤ s.waitingForGroup.length ∧ s.isShuttingDown = false
  · rw [if_pos h]
    dsimp only
    rw [take_foldl_setDelete _ _ hset]
    refine ⟨⟨fun _ => h, fun _ heq => ?_⟩, fun _ => ⟨rfl, rfl, ?_, rfl, ?_⟩⟩
    · have := congrArg State.groupCounter heq
      simp at this
    · simp [h.1]
    · intro x hx hx'
      exact List.disjoint_take_drop hset (le_refl _) hx hx'
  · simp only [if_neg h]
    exact ⟨⟨fun hne => absurd rfl hne, fun h' => absurd h' h⟩, fun h' => absurd h' h⟩

/-- Witness of `startNewGroup_forms`: with three waiting sessions and `GROUP_SIZE = 2` the two
earliest sessions form group 1 and the third one stays. -/
theorem startNewGroup_forms_witness :
    threeWaiting.waitingForGroup.Nodup ∧
    (startNewGroup pairConfig threeWaiting).groupCounter = threeWaiting.groupCounter + 1 ∧
    (startNewGroup pairConfig threeWaiting).waitingForGroup
      = threeWaiting.waitingForGroup.drop pairConfig.GROUP_SIZE :=
  ⟨by decide,
   ((startNewGroup_forms pairConfig threeWaiting (by decide)).2 (by decide)).1,
   ((startNewGroup_forms pairConfig threeWaiting (by decide)).2 (by decide)).2.2.2.1⟩

/-! ### Replacement of a settled group member -/

/-- C3 (code defect): with `MAX_SESSIONS = 1`, session 0 finishes its interaction run, its
`browser.close()` throws in the `try` block and the second close succeeds; the handler has
then called `startNewSession(1)` twice (two admissions with the replacement id 0 + 1 are in
flight), although the claim asks for exactly one replacement call. -/
theorem replacement_started_twice_when_close_throws :
    (run soloConfig init
        [.loadOk ["ua"], .mainStep [], .launchOk 0, .openOk 0 0, .navigated 0,
         .pageFinish 0, .pageFinish 0, .closeThrow 0, .closeOk 0]).map
      (fun s => (s.isShuttingDown, s.admissions.map (fun a => a.id), s.members.length))
      = some (false, [1, 1], 0) := by
  decide

/-! ### The barrier of a group -/

/-- C4 (counterexample): in a group of two, member 0 has been counted in
`stats.sessionsCompleted`, its replacement (id 2) has been admitted and its browser has
been closed while member 1 of the same group 1 still has both interaction runs going. -/
theorem member_processed_while_sibling_runs :
    (run pairConfig init
        [.loadOk ["ua"], .mainStep [], .launchOk 0, .openOk 0 0, .navigated 0,
         .launchOk 0, .openOk 0 0, .navigated 0,
         .pageFinish 0, .pageFinish 0, .closeOk 0]).map
      (fun s => (s.stats.sessionsCompleted, s.admissions.map (fun a => a.id),
                 s.members.map (fun m => (m.session.id, m.groupId, m.phase)),
                 s.activeGroups))
      = some (1, [2], [(1, 1, .running 2)], [1]) := by
  rfl

/-- Which steps change `stats.sessionsCompleted` and `stats.groupsCompleted`, and which
members a settled close belongs to. -/
theorem step_counter_cases (cfg : Config) (s s1 : State) (e : Event)
    (h : step cfg s e = some s1) :
    (s1.stats.sessionsCompleted ≠ s.stats.sessionsCompleted →
      ∃ i m, e = .pageFinish i ∧ s.members[i]? = some m ∧ m.phase = .running 1 ∧
        s1.stats.sessionsCompleted = s.stats.sessionsCompleted + 1 ∧
        m.session.id + cfg.MAX_SESSIONS ∈ s1.sessionsInProgress ∧
        s1.members[i]? = some { m with phase := .closingTry }) ∧
    (∀ i, e = .closeOk i ∨ e = .closeThrow i →
      ∃ m, s.members[i]? = some m ∧ (m.phase = .closingTry ∨ m.phase = .closingCatch)) ∧
    (s1.stats.groupsCompleted ≠ s.stats.groupsCompleted →
      ∃ g, e = .groupResolve g ∧ g ∈ s.activeGroups ∧ ∀ m ∈ s.members, m.groupId ≠ g) := by
  have hS := step_sound cfg s e s1 h
  clear h
  cases hS
  case lastPageFinish i m hm hp =>
    refine ⟨fun _ => ⟨i, m, rfl, hm, hp, ?_, ?_, ?_⟩, ?_, ?_⟩
    · unfold member_afterRun; dsimp only; split <;> simp [startNewSession_stats_completed]
    · unfold member_afterRun; dsimp only
      split <;> simp [startNewSession_inProgress, mem_setAdd_self]
    · have hi : i < s.members.length := (List.getElem?_eq_some_iff.mp hm).1
      unfold member_afterRun; dsimp only
      split <;> simp [startNewSession_members, hi]
    · intro j hj; rcases hj with hj | hj <;> cases hj
    · intro hne; exfalso; apply hne
      unfold member_afterRun; dsimp only
      split <;> simp [startNewSession_stats_groups]
  case closeOkTry i m hm hp =>
    refine ⟨fun hne => absurd ?_ hne, ?_, fun hne => absurd ?_ hne⟩
    · simp [member_closed]
    · intro j hj; rcases hj with hj | hj <;> cases hj
      exact ⟨m, hm, Or.inl hp⟩
    · simp [member_closed]
  case closeOkCatch i m hm hp =>
    refine ⟨fun hne => absurd ?_ hne, ?_, fun hne => absurd ?_ hne⟩
    · simp only [member_catchRest, startNewSession]; split_ifs <;> simp
    · intro j hj; rcases hj with hj | hj <;> cases hj
      exact ⟨m, hm, Or.inr hp⟩
    · simp only [member_catchRest, startNewSession]; split_ifs <;> simp
  case closeThrowTry i m hm hp =>
    refine ⟨fun hne => absurd ?_ hne, ?_, fun hne => absurd ?_ hne⟩
    · simp [member_catchEnter, countBrowserError]
    · intro j hj; rcases hj with hj | hj <;> cases hj
      exact ⟨m, hm, Or.inl hp⟩
    · simp [member_catchEnter, countBrowserError]
  case closeThrowCatch i m hm hp =>
    refine ⟨fun hne => absurd ?_ hne, ?_, fun hne => absurd ?_ hne⟩
    · simp only [member_catchRest, startNewSession, member_catchInner, countBrowserError]
      split_ifs <;> simp
    · intro j hj; rcases hj with hj | hj <;> cases hj
      exact ⟨m, hm, Or.inr hp⟩
    · simp only [member_catchRest, startNewSession, member_catchInner, countBrowserError]
      split_ifs <;> simp
  case groupResolve g hg =>
    refine ⟨fun hne => absurd ?_ hne, ?_, fun _ => ⟨g, rfl, hg.1, ?_⟩⟩
    · simp [startNewGroup_resolved]
    · intro j hj; rcases hj with hj | hj <;> cases hj
    · intro m hm
      have := hg.2
      rw [List.all_eq_true] at this
      simpa using this m hm
  all_goals
    refine ⟨fun hne => absurd ?_ hne, ?_, fun hne => absurd ?_ hne⟩
  all_goals first
    | (intro j hj; rcases hj with hj | hj <;> cases hj)
    | skip
  all_goals
    simp only [main_catch, handleShutdown, countBrowserError, main_whileHead,
      createBrowserSession_launched, getNextUserAgent, createBrowserSession_return,
      startNewSession_catch, createBrowserSession_catch, startNewSession_success, startNewGroup,
      startNewSession, member_catchEnter, member_catchInner, cleanupSession_closed, cleanupSession_catch,
      main_rampBatch, main_topUp]
  all_goals first
    | rfl
    | exact foldl_registerAndStart_stats_completed _ _ _
    | exact foldl_registerAndStart_stats_groups _ _ _
    | (split_ifs <;> simp [foldl_registerAndStart_stats_completed,
        foldl_registerAndStart_stats_groups])

/-- A member that awaits the close of the `try` block either did so already or has just
seen the last of its own interaction runs finish. -/
theorem closingTry_origin (cfg : Config) (s s1 : State) (e : Event)
    (h : step cfg s e = some s1) :
    ∀ m1 ∈ s1.members, m1.phase = .closingTry →
      m1 ∈ s.members ∨
        ∃ i m, e = .pageFinish i ∧ s.members[i]? = some m ∧ m.phase = .running 1 ∧
          m1 = { m with phase := .closingTry } := by
  have hS := step_sound cfg s e s1 h
  clear h
  intro m1 hm1 hph
  cases hS
  case lastPageFinish i m hm hp =>
    simp only [member_afterRun] at hm1
    split_ifs at hm1
    all_goals
      simp only [startNewSession_members] at hm1
      rcases List.mem_or_eq_of_mem_set hm1 with h' | h'
      · exact Or.inl h'
      · exact Or.inr ⟨i, m, rfl, hm, hp, h'⟩
  case pageFinish i m n hm hp =>
    rcases List.mem_or_eq_of_mem_set hm1 with h' | h'
    · exact Or.inl h'
    · rw [h'] at hph; cases hph
  case runThrow i m n hm hp =>
    simp only [member_catchEnter, countBrowserError] at hm1
    rcases List.mem_or_eq_of_mem_set hm1 with h' | h'
    · exact Or.inl h'
    · rw [h'] at hph; cases hph
  case closeThrowTry i m hm hp =>
    simp only [member_catchEnter, countBrowserError] at hm1
    rcases List.mem_or_eq_of_mem_set hm1 with h' | h'
    · exact Or.inl h'
    · rw [h'] at hph; cases hph
  case navigated i a session hi hst =>
    left
    simp only [startNewSession_success, startNewGroup] at hm1
    split_ifs at hm1
    · simp only [List.mem_append, List.mem_map] at hm1
      rcases hm1 with h' | ⟨x, -, rfl⟩
      · exact h'
      · cases hph
    · exact hm1
  all_goals left
  all_goals
    try simp only [main_catch, handleShutdown, countBrowserError, main_whileHead,
      createBrowserSession_launched, getNextUserAgent, createBrowserSession_return,
      startNewSession_catch, createBrowserSession_catch, member_closed, member_catchRest,
      member_catchInner, startNewGroup_resolved, cleanupSession_closed, cleanupSession_catch,
      main_rampBatch, main_topUp] at hm1
  all_goals (try split_ifs at hm1)
  all_goals
    try simp only [startNewSession_members, foldl_registerAndStart_members] at hm1
  all_goals first
    | exact hm1
    | exact List.mem_of_mem_eraseIdx hm1

/-! ### The occupancy sum -/

/-- C5 (counterexample): with `MAX_SESSIONS = 1`, once session 0 has finished its run and its
replacement has passed the gate, `totalActiveSessions + sessionsInProgress.size` is 3 while
`MAX_SESSIONS` plus the number of admissions in flight is 2. -/
theorem occupancy_exceeds_cap_plus_inflight :
    (run soloConfig init
        [.loadOk ["ua"], .mainStep [], .launchOk 0, .openOk 0 0, .navigated 0,
         .pageFinish 0, .pageFinish 0]).map
      (fun s => (occupancy s, (soloConfig.MAX_SESSIONS : Int) + (s.admissions.length : Int)))
      = some (3, 2) := by
  decide

theorem closingTryCount_startNewGroup (cfg : Config) (s : State) :
    closingTryCount (startNewGroup cfg s) = closingTryCount s := by
  unfold startNewGroup closingTryCount
  split
  · simp only [List.countP_append, List.countP_map, Function.comp_def]
    simp
  · rfl

theorem closingTryCount_set (s : State) (i : Nat) (m : Member) (p : MemberPhase)
    (hm : s.members[i]? = some m) :
    (List.countP (fun m => decide (m.phase = .closingTry))
        (s.members.set i { m with phase := p }) : Int)
      + (if m.phase = .closingTry then 1 else 0)
      = (closingTryCount s : Int) + (if p = .closingTry then 1 else 0) := by
  have := countP_set_of_getElem? (fun m => decide (m.phase = .closingTry)) s.members i m
    { m with phase := p } hm
  unfold closingTryCount
  simp only [decide_eq_true_eq] at this
  split_ifs at this ⊢ <;> omega

theorem issued_le_max (cfg : Config) (pc : MainPc) : issued cfg pc ≤ cfg.MAX_SESSIONS := by
  cases pc <;> simp [issued]

theorem inv_init (cfg : Config) : Inv cfg init where
  running := rfl
  nodup := List.nodup_nil
  known := by intro x hx; cases hx
  retrying := by intro x hx; cases hx
  budget := by simp [init, issued, closingTryCount]

theorem Inv.congr {cfg : Config} {s s1 : State} (h : Inv cfg s)
    (h1 : s1.isShuttingDown = s.isShuttingDown)
    (h2 : s1.sessionsInProgress = s.sessionsInProgress)
    (h3 : s1.admissions.map (fun a => a.id) = s.admissions.map (fun a => a.id))
    (h4 : s1.retries = s.retries)
    (hb : s1.totalActiveSessions + (s1.retries.length : Int)
      ≤ (issued cfg s1.mainPc : Int) + (closingTryCount s1 : Int)) : Inv cfg s1 where
  running := by rw [h1]; exact h.running
  nodup := by rw [h2]; exact h.nodup
  known := by
    have := h.known
    unfold pendingIds at this ⊢
    rw [h2, h3, h4]; exact this
  retrying := by rw [h2, h4]; exact h.retrying
  budget := hb

theorem Inv.mono {cfg : Config} {s s1 : State} (h : Inv cfg s)
    (h1 : s1.isShuttingDown = s.isShuttingDown)
    (h2 : s1.sessionsInProgress = s.sessionsInProgress)
    (h3 : s1.admissions.map (fun a => a.id) = s.admissions.map (fun a => a.id))
    (h4 : s1.retries = s.retries)
    (h5 : s1.totalActiveSessions = s.totalActiveSessions)
    (h6 : closingTryCount s1 = closingTryCount s)
    (h7 : issued cfg s.mainPc ≤ issued cfg s1.mainPc) : Inv cfg s1 where
  running := by rw [h1]; exact h.running
  nodup := by rw [h2]; exact h.nodup
  known := by
    have := h.known
    unfold pendingIds at this ⊢
    rw [h2, h3, h4]; exact this
  retrying := by rw [h2, h4]; exact h.retrying
  budget := by
    have := h.budget
    rw [h4, h5, h6]
    have h7' : (issued cfg s.mainPc : Int) ≤ (issued cfg s1.mainPc : Int) := by exact_mod_cast h7
    omega

theorem Inv.register {cfg : Config} {s s1 : State} (h : Inv cfg s) (ids : List Nat)
    (h1 : s1.isShuttingDown = false)
    (h2 : s1.sessionsInProgress = ids.foldl (fun acc x => setAdd x acc) s.sessionsInProgress)
    (h3 : s1.admissions.map (fun a => a.id) = s.admissions.map (fun a => a.id) ++ ids)
    (h4 : s1.retries = s.retries)
    (hb : s1.totalActiveSessions + (s1.retries.length : Int)
      ≤ (issued cfg s1.mainPc : Int) + (closingTryCount s1 : Int)) : Inv cfg s1 where
  running := h1
  nodup := by rw [h2]; exact foldl_setAdd_nodup _ _ h.nodup
  known := by
    intro x hx
    rw [h2, mem_foldl_setAdd] at hx
    unfold pendingIds
    rw [h3, h4]
    rcases hx with hx | hx
    · have := h.known x hx
      unfold pendingIds at this
      simp only [List.mem_append] at this ⊢
      tauto
    · simp only [List.mem_append]; tauto
  retrying := by
    intro x hx
    rw [h4] at hx
    rw [h2, mem_foldl_setAdd]
    exact Or.inl (h.retrying x hx)
  budget := hb

theorem pending_id_not_retrying {s : State} (hpend : (pendingIds s).Nodup) {i : Nat}
    {a : Admission} (hi : s.admissions[i]? = some a) : a.id ∉ s.retries := by
  unfold pendingIds at hpend
  rw [List.nodup_append] at hpend
  intro hmem
  exact hpend.2.2 (List.mem_map.mpr ⟨a, List.getElem?_mem hi, rfl⟩) hmem

theorem Inv.settle {cfg : Config} {s s1 : State} (h : Inv cfg s) (hpend : (pendingIds s).Nodup)
    (i : Nat) (a : Admission) (hi : s.admissions[i]? = some a)
    (h1 : s1.isShuttingDown = false)
    (h3 : s1.admissions = s.admissions.eraseIdx i)
    (hcase : (s1.sessionsInProgress = setDelete a.id s.sessionsInProgress ∧
                s1.retries = s.retries) ∨
             (s1.sessionsInProgress = setAdd a.id (setDelete a.id s.sessionsInProgress) ∧
                s1.retries = s.retries ++ [a.id]))
    (hb : s1.totalActiveSessions + (s1.retries.length : Int)
      ≤ (issued cfg s1.mainPc : Int) + (closingTryCount s1 : Int)) : Inv cfg s1 where
  running := h1
  nodup := by
    rcases hcase with ⟨h2, -⟩ | ⟨h2, -⟩ <;> rw [h2]
    · exact setDelete_nodup _ _ h.nodup
    · exact setAdd_nodup _ _ (setDelete_nodup _ _ h.nodup)
  known := by
    have hold : ∀ x ∈ s.sessionsInProgress, x ≠ a.id →
        x ∈ (s.admissions.eraseIdx i).map (fun a => a.id) ∨ x ∈ s.retries := by
      intro x hx hne
      have := h.known x hx
      unfold pendingIds at this
      rw [List.mem_append] at this
      rcases this with hm | hm
      · left
        obtain ⟨b, hb1, hb2⟩ := List.mem_map.mp hm
        refine List.mem_map.mpr ⟨b, mem_eraseIdx_of_ne hi hb1 ?_, hb2⟩
        rintro rfl
        exact hne hb2.symm
      · exact Or.inr hm
    intro x hx
    unfold pendingIds
    rw [h3, List.mem_append]
    rcases hcase with ⟨h2, h4⟩ | ⟨h2, h4⟩ <;> rw [h2] at hx <;> rw [h4]
    · rw [mem_setDelete] at hx
      exact hold x hx.1 hx.2
    · rw [mem_setAdd, mem_setDelete] at hx
      rcases hx with rfl | hx
      · right; simp
      · rcases hold x hx.1 hx.2 with h' | h'
        · exact Or.inl h'
        · right; simp [h']
  retrying := by
    have hnot := pending_id_not_retrying hpend hi
    intro x hx
    rcases hcase with ⟨h2, h4⟩ | ⟨h2, h4⟩ <;> rw [h2] <;> rw [h4] at hx
    · rw [mem_setDelete]
      exact ⟨h.retrying x hx, fun heq => hnot (heq ▸ hx)⟩
    · rw [mem_setAdd, mem_setDelete]
      rw [List.mem_append, List.mem_singleton] at hx
      rcases hx with hx | hx
      · exact Or.inr ⟨h.retrying x hx, fun heq => hnot (heq ▸ hx)⟩
      · exact Or.inl hx
  budget := hb

theorem retries_le_inProgress {cfg : Config} {s : State} (h : Inv cfg s)
    (hpend : (pendingIds s).Nodup) : s.retries.length ≤ s.sessionsInProgress.length := by
  unfold pendingIds at hpend
  rw [List.nodup_append] at hpend
  exact length_le_of_nodup_subset hpend.2.1 h.retrying

theorem inv_step (cfg : Config) (s s1 : State) (e : Event) (hinv : Inv cfg s)
    (hS : Step cfg s e s1) (hord : orderly s e = true) (hpend : (pendingIds s).Nodup) :
    Inv cfg s1 := by
  cases hS
  case loadEmpty rows h1 h2 => simp [orderly, h2] at hord
  case loadErr => simp [orderly] at hord
  case loadCloseErr => simp [orderly] at hord
  case signal => simp [orderly] at hord
  case uncaught => simp [orderly] at hord
  case rampBreak clock batch h1 h2 h3 h4 => rw [hinv.running] at h4; cases h4
  case closeThrowTry i m hm hp => simp [orderly, hm, hp] at hord
  case loadRows rows h1 h2 =>
    exact hinv.mono rfl rfl rfl rfl rfl rfl (by simp [h1, issued])
  case urlFetch urls h1 => exact hinv.mono rfl rfl rfl rfl rfl rfl (le_refl _)
  case rampEnd clock batch h1 h2 h3 =>
    rw [main_whileHead_running s hinv.running]
    exact hinv.mono rfl rfl rfl rfl rfl rfl (by simpa [issued] using issued_le_max cfg _)
  case join clock h1 h2 =>
    rw [main_whileHead_running s hinv.running]
    exact hinv.mono rfl rfl rfl rfl rfl rfl (by simpa [issued] using issued_le_max cfg _)
  case launchOk i a h1 h2 =>
    obtain ⟨f1, f2, f3, f4, f5, f6, f7, f8, f9⟩ := createBrowserSession_launched_frame s
    refine hinv.mono f7 f3 ?_ f8 f2 ?_ ?_
    · simp only [f1]; exact map_id_set _ _ a _ h1 rfl
    · simp only [closingTryCount, f5]
    · simp only [f9]; exact le_refl _
  case openOk i now a h1 h2 =>
    refine hinv.mono rfl rfl ?_ rfl rfl rfl (le_refl _)
    exact map_id_set _ _ a _ h1 rfl
  case pageFinish i m n hm hp =>
    refine hinv.mono rfl rfl rfl rfl rfl ?_ (le_refl _)
    have := closingTryCount_set s i m (.running (n + 1)) hm
    simp only [hp] at this
    simp only [closingTryCount] at this ⊢
    exact_mod_cast this
  case runThrow i m n hm hp =>
    refine hinv.mono rfl rfl rfl rfl rfl ?_ (le_refl _)
    have := closingTryCount_set s i m .closingCatch hm
    simp only [hp] at this
    simp only [closingTryCount, member_catchEnter, countBrowserError] at this ⊢
    exact_mod_cast this
  case groupResolve g hg => exact hinv.mono rfl rfl rfl rfl rfl rfl (le_refl _)
  case sweepIdle h => exact hinv
  case sweepBegin h => exact hinv.mono rfl rfl rfl rfl rfl rfl (le_refl _)
  case sweepStale j now session h1 h2 h3 => exact hinv.mono rfl rfl rfl rfl rfl rfl (le_refl _)
  case sweepFresh => exact hinv
  case sweepEnd h => exact hinv.mono rfl rfl rfl rfl rfl rfl (le_refl _)
  case cleanupOk i session h => exact hinv.mono rfl rfl rfl rfl rfl rfl (le_refl _)
  case cleanupFail i session h => exact hinv.mono rfl rfl rfl rfl rfl rfl (le_refl _)
  case rampBatch clock batch h1 h2 h3 h4 =>
    obtain ⟨f1, f2, f3, f4, f5, f6, f7⟩ := foldl_registerAndStart_running cfg
      (batchIds cfg (batch * BATCH_SIZE)) s hinv.running
    refine hinv.register (batchIds cfg (batch * BATCH_SIZE)) f1 f3 ?_ f5 ?_
    · simp only [main_rampBatch, f4, List.map_append, List.map_map, Function.comp_def,
        List.map_id']
    · have hb := hinv.budget
      have hl := length_batchIds_le cfg (batch * BATCH_SIZE)
      simp only [main_rampBatch, closingTryCount, f2, f5, f6, issued, h1] at hb ⊢
      simp only [BATCH_SIZE] at hb hl ⊢
      push_cast at hb hl ⊢
      omega
  case topUp clock h1 =>
    have hb := hinv.budget
    have hle := retries_le_inProgress hinv hpend
    simp only [h1, issued] at hb
    unfold main_topUp
    dsimp only
    split_ifs with hlt
    · obtain ⟨f1, f2, f3, f4, f5, f6, f7⟩ := foldl_registerAndStart_running cfg
        (topUpIds (↑cfg.MAX_SESSIONS
          - (s.totalActiveSessions + ↑s.sessionsInProgress.length)).toNat clock) s hinv.running
      refine hinv.register _ f1 f3 ?_ f5 ?_
      · simp only [f4, List.map_append, List.map_map, Function.comp_def, List.map_id']
      · have hlen : ∀ n, (topUpIds n clock).length = n := by
          intro n; simp [topUpIds]
        simp only [closingTryCount, f2, f5, f6, issued, hlen] at hb ⊢
        omega
    · exact hinv.congr rfl rfl rfl rfl (by simpa [issued, closingTryCount] using hb)
  case retryFire j x hj =>
    have hx : x ∈ s.sessionsInProgress := hinv.retrying x (List.getElem?_mem hj)
    rw [startNewSession_pass cfg { s with retries := s.retries.eraseIdx j } x false
      hinv.running hx]
    have hjl : j < s.retries.length := (List.getElem?_eq_some_iff.mp hj).1
    refine ⟨hinv.running, hinv.nodup, ?_, ?_, ?_⟩
    · intro y hy
      have := hinv.known y hy
      simp only [pendingIds, List.mem_append, List.map_append, List.map_cons, List.map_nil,
        List.mem_singleton] at this ⊢
      rcases this with h' | h'
      · exact Or.inl (Or.inl h')
      · by_cases hyx : y = x
        · exact Or.inl (Or.inr hyx)
        · exact Or.inr (mem_eraseIdx_of_ne hj h' hyx)
    · intro y hy
      exact hinv.retrying y (List.mem_of_mem_eraseIdx hy)
    · have hb := hinv.budget
      simp only [closingTryCount, List.length_eraseIdx, hjl, if_true] at hb ⊢
      omega
  case createFail i a hi hst =>
    have hb := hinv.budget
    have hsd := hinv.running
    simp only [startNewSession_catch, createBrowserSession_catch]
    split_ifs with hc
    · refine hinv.settle hpend i a hi hsd rfl (Or.inr ⟨rfl, rfl⟩) ?_
      simp only [closingTryCount, List.length_append, List.length_singleton] at hb ⊢
      push_cast
      omega
    · refine hinv.settle hpend i a hi hsd rfl (Or.inl ⟨rfl, rfl⟩) ?_
      simp only [closingTryCount] at hb ⊢
      omega
  case navigated i a session hi hst =>
    obtain ⟨g1, g2, g3, g4, g5, g6⟩ := startNewGroup_frame cfg
      { s with admissions := s.admissions.eraseIdx i,
               stats := { s.stats with activeSessionsCount := s.stats.activeSessionsCount + 1 },
               waitingForGroup := s.waitingForGroup ++ [session],
               sessionsInProgress := setDelete a.id s.sessionsInProgress }
    have g7 := closingTryCount_startNewGroup cfg
      { s with admissions := s.admissions.eraseIdx i,
               stats := { s.stats with activeSessionsCount := s.stats.activeSessionsCount + 1 },
               waitingForGroup := s.waitingForGroup ++ [session],
               sessionsInProgress := setDelete a.id s.sessionsInProgress }
    refine hinv.settle hpend i a hi (g1.trans hinv.running) g3 (Or.inl ⟨g2, g4⟩) ?_
    have hb := hinv.budget
    unfold startNewSession_success
    rw [g4, g5, g6, g7]
    simpa [closingTryCount] using hb
  case lastPageFinish i m hm hp =>
    unfold member_afterRun
    dsimp only
    rw [if_pos hinv.running, startNewSession_pass]
    · refine hinv.register [m.session.id + cfg.MAX_SESSIONS] hinv.running rfl (by simp) rfl ?_
      have hb := hinv.budget
      have := closingTryCount_set s i m .closingTry hm
      simp only [hp] at this
      simp only [closingTryCount] at this hb ⊢
      simp at this
      omega
    · exact hinv.running
    · exact mem_setAdd_self _ _
  case closeOkTry i m hm hp =>
    refine hinv.congr rfl rfl rfl rfl ?_
    have hb := hinv.budget
    have := countP_eraseIdx (fun m => decide (m.phase = .closingTry)) s.members i m hm
    simp only [hp] at this
    simp only [closingTryCount, member_closed] at this hb ⊢
    simp at this
    omega
  case closeOkCatch i m hm hp =>
    unfold member_catchRest
    dsimp only
    rw [if_pos hinv.running, startNewSession_pass]
    · refine hinv.register [m.session.id + cfg.MAX_SESSIONS] hinv.running rfl (by simp) rfl ?_
      have hb := hinv.budget
      have := countP_eraseIdx (fun m => decide (m.phase = .closingTry)) s.members i m hm
      simp only [hp] at this
      simp only [closingTryCount] at this hb ⊢
      simp at this
      omega
    · exact hinv.running
    · exact mem_setAdd_self _ _
  case closeThrowCatch i m hm hp =>
    unfold member_catchRest member_catchInner countBrowserError
    dsimp only
    rw [if_pos hinv.running, startNewSession_pass]
    · refine hinv.register [m.session.id + cfg.MAX_SESSIONS] hinv.running rfl (by simp) rfl ?_
      have hb := hinv.budget
      have := countP_eraseIdx (fun m => decide (m.phase = .closingTry)) s.members i m hm
      simp only [hp] at this
      simp only [closingTryCount] at this hb ⊢
      simp at this
      omega
    · exact hinv.running
    · exact mem_setAdd_self _ _

theorem inv_run (cfg : Config) (es : List Event) (s s1 : State) (hinv : Inv cfg s)
    (hpend : (pendingIds s).Nodup) (hrun : run cfg s es = some s1)
    (hord : orderlyRun cfg s es = true) : Inv cfg s1 := by
  induction es generalizing s with
  | nil =>
    simp only [run, Option.some.injEq] at hrun
    exact hrun ▸ hinv
  | cons e es ih =>
    simp only [run] at hrun
    cases hstep : step cfg s e with
    | none => rw [hstep] at hrun; cases hrun
    | some s2 =>
      rw [hstep] at hrun
      simp only [orderlyRun, hstep, Bool.and_eq_true, decide_eq_true_eq] at hord
      exact ih s2 (inv_step cfg s s2 e hinv (step_sound cfg s e s2 hstep) hord.1.1 hpend)
        hord.1.2 hrun hord.2

/-- C5 (amended): in every state reached from the initial state by events that start no
shutdown, with pairwise distinct ids among the admissions pending at any one time, and
without a `browser.close()` that throws after a successful interaction run,
`totalActiveSessions + sessionsInProgress.size` is at most `MAX_SESSIONS` plus the number
of admissions in flight plus the number of group members whose replacement has been
admitted while their own `browser.close()` has not settled. -/
theorem occupancy_bound (cfg : Config) (es : List Event) (s : State)
    (hrun : run cfg init es = some s) (hord : orderlyRun cfg init es = true) :
    occupancy s ≤ (cfg.MAX_SESSIONS : Int) + (s.admissions.length : Int)
      + (closingTryCount s : Int) := by
  have hinv := inv_run cfg es init s (inv_init cfg) (by simp [pendingIds, init]) hrun hord
  have hb := hinv.budget
  have hi : (issued cfg s.mainPc : Int) ≤ (cfg.MAX_SESSIONS : Int) := by
    exact_mod_cast issued_le_max cfg s.mainPc
  have hk := length_le_of_nodup_subset hinv.nodup hinv.known
  simp only [pendingIds, List.length_append, List.length_map] at hk
  unfold occupancy
  omega

/-- Witness of `occupancy_bound`: after `soloTrace` the occupancy sum is 3, which is
`MAX_SESSIONS = 1` plus one admission in flight plus one replaced member awaiting its close. -/
theorem occupancy_bound_witness :
    run soloConfig init soloTrace = some soloReplaced ∧
    orderlyRun soloConfig init soloTrace = true ∧
    occupancy soloReplaced = 3 ∧
    occupancy soloReplaced ≤ (soloConfig.MAX_SESSIONS : Int)
      + (soloReplaced.admissions.length : Int) + (closingTryCount soloReplaced : Int) :=
  ⟨rfl, by decide, by decide, occupancy_bound soloConfig soloTrace soloReplaced rfl (by decide)⟩

/-! ### The session counters -/

/-- C6 (code defect): with `MAX_SESSIONS = 1` and `GROUP_SIZE = 2`, the admission of id 0 fails
once and its retry succeeds.  Nothing is in flight any more, one session is active
(`totalActiveSessions = 1`, `stats.activeSessionsCount = 1`), but
`sessionsOpened - sessionsCompleted - sessionsFailed = 2 - 0 - 2 = 0`. -/
theorem active_differs_from_opened_minus_settled :
    (run loneConfig init
        [.loadOk ["ua"], .mainStep [], .createFail 0, .retryFire 0, .launchOk 0, .openOk 0 0,
         .navigated 0]).map
      (fun s => (s.admissions.length, s.retries.length, s.members.length, s.cleanups.length,
                 s.totalActiveSessions, s.stats.activeSessionsCount,
                 s.stats.sessionsOpened - s.stats.sessionsCompleted - s.stats.sessionsFailed))
      = some (0, 0, 0, 0, 1, 1, 0) := by
  rfl

/-- C7 (code defect): session 0 finishes its interaction run and its `browser.close()` throws
in the `try` block; when the handler has settled, the one session has been counted both in
`stats.sessionsCompleted` and in `stats.sessionsFailed`. -/
theorem member_counted_completed_and_failed :
    (run soloConfig init
        [.loadOk ["ua"], .mainStep [], .launchOk 0, .openOk 0 0, .navigated 0,
         .pageFinish 0, .pageFinish 0, .closeThrow 0, .closeOk 0]).map
      (fun s => (s.members.length, s.stats.sessionsCompleted, s.stats.sessionsFailed))
      = some (0, 1, 1) := by
  decide

/-- C8 (code defect): one failed creation adds 2 to `stats.sessionsFailed`, once in the
`catch` block of `createBrowserSession` and once more in the `catch` block of
`startNewSession` that receives the rethrown error. -/
theorem creation_failure_counted_twice (cfg : Config) (s : State) (sessionId : Nat) :
    (startNewSession_catch cfg (createBrowserSession_catch s) sessionId).stats.sessionsFailed
      = s.stats.sessionsFailed + 2 := by
  unfold startNewSession_catch createBrowserSession_catch
  dsimp only
  split <;> simp <;> omega

/-! ### Failed admissions and their retry -/

/-- C9 (counterexample): with `GROUP_SIZE = 1`, the admission of id 0 fails, its retry
succeeds, and at once `startNewGroup` moves the new session into group 1: no session with
id 0 is in the waiting set. -/
theorem retried_session_not_in_waiting_set :
    (run soloConfig init
        [.loadOk ["ua"], .mainStep [], .createFail 0, .retryFire 0, .launchOk 0, .openOk 0 0,
         .navigated 0]).map
      (fun s => ((s.waitingForGroup.filter (fun x => decide (x.id = 0))).length,
                 s.members.map (fun m => (m.session.id, m.groupId))))
      = some (0, [(0, 1)]) := by
  decide

theorem retryFire_passes (cfg : Config) (t : State) (sessionId j : Nat)
    (hj : t.retries[j]? = some sessionId) (hin : sessionId ∈ t.sessionsInProgress)
    (hsd : t.isShuttingDown = false) :
    ∃ t1, step cfg t (.retryFire j) = some t1 ∧
      t1.admissions = t.admissions ++ [{ id := sessionId, awaited := false, stage := .launching }] ∧
      t1.totalActiveSessions = t.totalActiveSessions + 1 ∧
      t1.sessionsInProgress = t.sessionsInProgress ∧
      t1.waitingForGroup = t.waitingForGroup ∧ t1.members = t.members ∧
      t1.nextRef = t.nextRef ∧ t1.isShuttingDown = false := by
  refine ⟨_, step_complete cfg _ _ _ (Step.retryFire t j sessionId hj), ?_⟩
  rw [startNewSession_pass cfg { t with retries := t.retries.eraseIdx j } sessionId false hsd hin]
  simp [hsd]

theorem launchOk_last (cfg : Config) (t : State) (l : List Admission) (sessionId : Nat)
    (awaited : Bool)
    (hadm : t.admissions = l ++ [{ id := sessionId, awaited := awaited, stage := .launching }]) :
    ∃ t1, step cfg t (.launchOk l.length) = some t1 ∧
      t1.admissions = l ++ [{ id := sessionId, awaited := awaited, stage := .opening }] ∧
      t1.totalActiveSessions = t.totalActiveSessions ∧
      t1.sessionsInProgress = t.sessionsInProgress ∧
      t1.waitingForGroup = t.waitingForGroup ∧ t1.members = t.members ∧
      t1.nextRef = t.nextRef ∧ t1.isShuttingDown = t.isShuttingDown := by
  obtain ⟨f1, f2, f3, f4, f5, f6, f7, -, -⟩ := createBrowserSession_launched_frame t
  refine ⟨_, step_complete cfg _ _ _ (Step.launchOk t l.length
    ⟨sessionId, awaited, .launching⟩ (by simp [hadm]) rfl), ?_⟩
  simp [f1, f2, f3, f4, f5, f6, f7, hadm, set_concat_length]

theorem openOk_last (cfg : Config) (t : State) (l : List Admission) (sessionId now : Nat)
    (awaited : Bool)
    (hadm : t.admissions = l ++ [{ id := sessionId, awaited := awaited, stage := .opening }]) :
    ∃ t1, step cfg t (.openOk l.length now) = some t1 ∧
      t1.admissions = l ++ [{ id := sessionId, awaited := awaited,
                              stage := .navigating { ref := t.nextRef, id := sessionId,
                                                     startTime := now, lastActiveTime := now } }] ∧
      t1.totalActiveSessions = t.totalActiveSessions ∧
      t1.sessionsInProgress = t.sessionsInProgress ∧
      t1.waitingForGroup = t.waitingForGroup ∧ t1.members = t.members ∧
      t1.isShuttingDown = t.isShuttingDown := by
  refine ⟨_, step_complete cfg _ _ _ (Step.openOk t l.length now
    ⟨sessionId, awaited, .opening⟩ (by simp [hadm]) rfl), ?_⟩
  simp [createBrowserSession_return, hadm, set_concat_length]

theorem navigated_last (cfg : Config) (t : State) (l : List Admission) (sessionId : Nat)
    (awaited : Bool) (session : Session)
    (hadm : t.admissions = l ++ [{ id := sessionId, awaited := awaited,
                                   stage := .navigating session }])
    (hid : session.id = sessionId)
    (hset : t.waitingForGroup.Nodup) (hnew : session ∉ t.waitingForGroup) :
    ∃ t1, step cfg t (.navigated l.length) = some t1 ∧
      sessionId ∉ t1.sessionsInProgress ∧
      t1.totalActiveSessions = t.totalActiveSessions ∧
      t1.waitingForGroup.countP (fun x => decide (x.id = sessionId))
          + t1.members.countP (fun m => decide (m.session.id = sessionId))
        = t.waitingForGroup.countP (fun x => decide (x.id = sessionId))
          + t.members.countP (fun m => decide (m.session.id = sessionId)) + 1 := by
  refine ⟨_, step_complete cfg _ _ _ (Step.navigated t l.length
    ⟨sessionId, awaited, .navigating session⟩ session (by simp [hadm]) rfl), ?_, ?_, ?_⟩
  · simp [startNewSession_success, startNewGroup_inProgress, mem_setDelete]
  · simp [startNewSession_success, startNewGroup_total]
  · unfold startNewSession_success
    rw [startNewGroup_countP cfg _ (fun x => decide (x.id = sessionId))]
    · simp [List.countP_append, hid]; omega
    · simpa [List.nodup_append] using ⟨hset, hnew⟩

theorem retry_succeeds (cfg : Config) (t : State) (sessionId j now : Nat)
    (hset : t.waitingForGroup.Nodup) (hfresh : ∀ x ∈ t.waitingForGroup, x.ref < t.nextRef)
    (hj : t.retries[j]? = some sessionId) (hin : sessionId ∈ t.sessionsInProgress)
    (hsd : t.isShuttingDown = false) :
    ∃ s6, run cfg t [.retryFire j, .launchOk t.admissions.length,
                     .openOk t.admissions.length now, .navigated t.admissions.length] = some s6 ∧
      sessionId ∉ s6.sessionsInProgress ∧
      s6.totalActiveSessions = t.totalActiveSessions + 1 ∧
      s6.waitingForGroup.countP (fun x => decide (x.id = sessionId))
          + s6.members.countP (fun m => decide (m.session.id = sessionId))
        = t.waitingForGroup.countP (fun x => decide (x.id = sessionId))
          + t.members.countP (fun m => decide (m.session.id = sessionId)) + 1 := by
  obtain ⟨t1, e1, a1, b1, c1, d1, m1, n1, z1⟩ := retryFire_passes cfg t sessionId j hj hin hsd
  obtain ⟨t2, e2, a2, b2, c2, d2, m2, n2, z2⟩ := launchOk_last cfg t1 _ sessionId false a1
  obtain ⟨t3, e3, a3, b3, c3, d3, m3, z3⟩ := openOk_last cfg t2 _ sessionId now false a2
  have hnew : ({ ref := t2.nextRef, id := sessionId, startTime := now,
                 lastActiveTime := now } : Session) ∉ t3.waitingForGroup := by
    rw [d3, d2, d1, n2, n1]
    intro hmem
    exact absurd (hfresh _ hmem) (lt_irrefl _)
  obtain ⟨t4, e4, a4, b4, c4⟩ := navigated_last cfg t3 _ sessionId false _ a3 rfl
    (by rw [d3, d2, d1]; exact hset) hnew
  refine ⟨t4, ?_, a4, ?_, ?_⟩
  · simp [run, e1, e2, e3, e4]
  · rw [b4, b3, b2, b1]
  · rw [c4, d3, d2, d1, m3, m2, m1]

/-- C9 (amended): an admission of `sessionId` that passed the gate and whose creation fails
leaves `totalActiveSessions` at its value before the attempt and removes `sessionId` from
`sessionsInProgress`; `sessionId` is put back and exactly one retry is scheduled if and only
if `totalActiveSessions + sessionsInProgress.size` (after the removal) is below
`MAX_SESSIONS` and `isShuttingDown` is false.  If that retry then succeeds, `sessionId` is
absent from `sessionsInProgress`, `totalActiveSessions` is exactly 1 higher than before the
first attempt, and exactly one more session with that id exists, either in the waiting set
or, when its arrival filled a group, among the members of the group formed at once. -/
theorem retry_accounting (cfg : Config) (s0 : State) (sessionId : Nat) (awaited : Bool) (now : Nat)
    (hset : s0.waitingForGroup.Nodup) (hfresh : ∀ x ∈ s0.waitingForGroup, x.ref < s0.nextRef)
    (hgate : ¬ gateRejects cfg s0 sessionId) :
    ∃ s2, step cfg (startNewSession cfg s0 sessionId awaited) (.createFail s0.admissions.length)
        = some s2 ∧
      s2.totalActiveSessions = s0.totalActiveSessions ∧
      ((s0.totalActiveSessions + ((setDelete sessionId s0.sessionsInProgress).length : Int)
            < (cfg.MAX_SESSIONS : Int) ∧ s0.isShuttingDown = false) →
          sessionId ∈ s2.sessionsInProgress ∧ s2.retries = s0.retries ++ [sessionId] ∧
          ∃ s6, run cfg s2 [.retryFire s0.retries.length, .launchOk s0.admissions.length,
                            .openOk s0.admissions.length now,
                            .navigated s0.admissions.length] = some s6 ∧
            sessionId ∉ s6.sessionsInProgress ∧
            s6.totalActiveSessions = s0.totalActiveSessions + 1 ∧
            s6.waitingForGroup.countP (fun x => decide (x.id = sessionId))
                + s6.members.countP (fun m => decide (m.session.id = sessionId))
              = s0.waitingForGroup.countP (fun x => decide (x.id = sessionId))
                + s0.members.countP (fun m => decide (m.session.id = sessionId)) + 1) ∧
      (¬ (s0.totalActiveSessions + ((setDelete sessionId s0.sessionsInProgress).length : Int)
            < (cfg.MAX_SESSIONS : Int) ∧ s0.isShuttingDown = false) →
          sessionId ∉ s2.sessionsInProgress ∧ s2.retries = s0.retries) := by
  have hsd : s0.isShuttingDown = false := by
    cases hb : s0.isShuttingDown
    · rfl
    · exact absurd (Or.inl hb) hgate
  have hs1 : startNewSession cfg s0 sessionId awaited =
      { s0 with totalActiveSessions := s0.totalActiveSessions + 1,
                stats := { s0.stats with sessionsOpened := s0.stats.sessionsOpened + 1 },
                admissions := s0.admissions ++ [{ id := sessionId, awaited := awaited,
                                                  stage := .launching }] } := by
    unfold startNewSession; rw [if_neg hgate]
  rw [hs1]
  refine ⟨_, step_complete _ _ _ _ (Step.createFail _ _ ⟨sessionId, awaited, .launching⟩
    (by simp) (Or.inl rfl)), ?_, ?_, ?_⟩
  · simp only [startNewSession_catch, createBrowserSession_catch]
    split_ifs <;> simp
  · intro hc
    have hs2 : startNewSession_catch cfg
        (createBrowserSession_catch
          { ({ s0 with totalActiveSessions := s0.totalActiveSessions + 1,
                       stats := { s0.stats with sessionsOpened := s0.stats.sessionsOpened + 1 },
                       admissions := s0.admissions ++ [{ id := sessionId, awaited := awaited,
                                                         stage := .launching }] } : State) with
            admissions := (s0.admissions ++ [({ id := sessionId, awaited := awaited,
                                                stage := .launching } : Admission)]).eraseIdx
                            s0.admissions.length }) sessionId
        = { s0 with
            stats := { s0.stats with
              sessionsOpened := s0.stats.sessionsOpened + 1,
              browser := { s0.stats.browser with
                sessionCreation := s0.stats.browser.sessionCreation + 1 },
              sessionsFailed := s0.stats.sessionsFailed + 1 + 1 },
            sessionsInProgress := setAdd sessionId (setDelete sessionId s0.sessionsInProgress),
            retries := s0.retries ++ [sessionId] } := by
      simp only [startNewSession_catch, createBrowserSession_catch, eraseIdx_concat_length]
      rw [if_pos (by simpa using hc)]
      simp
    rw [hs2]
    refine ⟨mem_setAdd_self _ _, rfl, ?_⟩
    have := retry_succeeds cfg
      { s0 with
        stats := { s0.stats with
          sessionsOpened := s0.stats.sessionsOpened + 1,
          browser := { s0.stats.browser with
            sessionCreation := s0.stats.browser.sessionCreation + 1 },
          sessionsFailed := s0.stats.sessionsFailed + 1 + 1 },
        sessionsInProgress := setAdd sessionId (setDelete sessionId s0.sessionsInProgress),
        retries := s0.retries ++ [sessionId] }
      sessionId s0.retries.length now hset hfresh (by simp) (mem_setAdd_self _ _) hsd
    exact this
  · intro hc
    simp only [startNewSession_catch, createBrowserSession_catch]
    rw [if_neg (by simpa using hc)]
    simp [mem_setDelete]

/-- Witness of `retry_accounting`: with `MAX_SESSIONS = 1` the registered admission of id 0
fails, the counter is back at its old value and id 0 is in `sessionsInProgress` again. -/
theorem retry_accounting_witness :
    registeredZero.waitingForGroup.Nodup ∧ ¬ gateRejects soloConfig registeredZero 0 ∧
    ∃ s2, step soloConfig (startNewSession soloConfig registeredZero 0 true)
        (.createFail registeredZero.admissions.length) = some s2 ∧
      s2.totalActiveSessions = registeredZero.totalActiveSessions ∧
      0 ∈ s2.sessionsInProgress :=
  ⟨by decide, by decide,
   (retry_accounting soloConfig registeredZero 0 true 0 (by decide) (by decide)
      (by decide)).imp
     (fun _ h => ⟨h.1, h.2.1, (h.2.2.1 (by decide)).1⟩)⟩

/-! ### Session records are unique objects -/

theorem startNewGroup_waiting_countP_le (cfg : Config) (s : State) (p : Session → Bool) :
    (startNewGroup cfg s).waitingForGroup.countP p ≤ s.waitingForGroup.countP p := by
  unfold startNewGroup
  split
  · exact countP_foldl_setDelete_le p _ _
  · exact le_refl _

theorem startNewGroup_admissions_nextRef (cfg : Config) (s : State) :
    (startNewGroup cfg s).admissions = s.admissions ∧
    (startNewGroup cfg s).nextRef = s.nextRef := by
  unfold startNewGroup
  split <;> simp

theorem startNewSession_refCount (cfg : Config) (s : State) (x : Nat) (a : Bool) (r : Nat) :
    refCount (startNewSession cfg s x a) r = refCount s r ∧
    (startNewSession cfg s x a).nextRef = s.nextRef := by
  unfold startNewSession refCount
  split
  · exact ⟨rfl, rfl⟩
  · simp [List.countP_append, holdsRef]

theorem foldl_registerAndStart_refCount (cfg : Config) (ids : List Nat) (s : State) (r : Nat) :
    refCount (ids.foldl (registerAndStart cfg) s) r = refCount s r ∧
    (ids.foldl (registerAndStart cfg) s).nextRef = s.nextRef := by
  induction ids generalizing s with
  | nil => exact ⟨rfl, rfl⟩
  | cons x xs ih =>
    rw [List.foldl_cons]
    obtain ⟨h1, h2⟩ := ih (registerAndStart cfg s x)
    obtain ⟨h3, h4⟩ := startNewSession_refCount cfg
      { s with sessionsInProgress := setAdd x s.sessionsInProgress } x true r
    rw [h1, h2]
    exact ⟨h3, h4⟩

theorem RefsFresh.of_le {s s1 : State} (h : RefsFresh s)
    (h1 : ∀ r, refCount s1 r ≤ refCount s r) (h2 : s.nextRef ≤ s1.nextRef) : RefsFresh s1 := by
  intro r
  obtain ⟨a, b⟩ := h r
  have := h1 r
  exact ⟨by omega, fun hr => by have := b (le_trans h2 hr); omega⟩

theorem refsFresh_step (cfg : Config) (s s1 : State) (e : Event) (h : RefsFresh s)
    (hS : Step cfg s e s1) : RefsFresh s1 := by
  cases hS
  case launchOk i a hi hst =>
    obtain ⟨f1, -, -, f4, -, f6, -, -, -⟩ := createBrowserSession_launched_frame s
    refine h.of_le (fun r => ?_) (by simp [f6])
    have := countP_set_of_getElem? (holdsRef r) s.admissions i a { a with stage := .opening } hi
    simp only [holdsRef, hst] at this
    simp only [refCount, f1, f4]
    omega
  case openOk i now a hi hst =>
    intro r
    obtain ⟨b1, b2⟩ := h r
    have := countP_set_of_getElem? (holdsRef r) s.admissions i a
      { a with stage := .navigating { ref := s.nextRef, id := a.id, startTime := now,
                                      lastActiveTime := now } } hi
    simp only [holdsRef, hst] at this
    simp only [refCount, createBrowserSession_return] at b1 b2 ⊢
    by_cases hr : s.nextRef = r
    · subst hr
      have h0 := b2 (le_refl _)
      simp only [decide_True, if_true, Bool.false_eq_true, if_false] at this
      constructor
      · omega
      · intro hlt; omega
    · simp only [hr, decide_False, Bool.false_eq_true, if_false] at this
      constructor
      · omega
      · intro hlt
        have h0 := b2 (by omega)
        omega
  case createFail i a hi hst =>
    refine h.of_le (fun r => ?_) ?_
    · have := countP_eraseIdx (holdsRef r) s.admissions i a hi
      simp only [startNewSession_catch, createBrowserSession_catch, refCount]
      split_ifs <;> simp only [] <;> omega
    · simp only [startNewSession_catch, createBrowserSession_catch]
      split_ifs <;> exact le_refl _
  case navigated i a session hi hst =>
    obtain ⟨g1, g2⟩ := startNewGroup_admissions_nextRef cfg
      { s with admissions := s.admissions.eraseIdx i,
               stats := { s.stats with activeSessionsCount := s.stats.activeSessionsCount + 1 },
               waitingForGroup := s.waitingForGroup ++ [session],
               sessionsInProgress := setDelete a.id s.sessionsInProgress }
    refine h.of_le (fun r => ?_) ?_
    · have h1 := countP_eraseIdx (holdsRef r) s.admissions i a hi
      have h2 := startNewGroup_waiting_countP_le cfg
        { s with admissions := s.admissions.eraseIdx i,
                 stats := { s.stats with activeSessionsCount := s.stats.activeSessionsCount + 1 },
                 waitingForGroup := s.waitingForGroup ++ [session],
                 sessionsInProgress := setDelete a.id s.sessionsInProgress }
        (fun x => decide (x.ref = r))
      have h3 : holdsRef r a = decide (session.ref = r) := by simp [holdsRef, hst]
      simp only [refCount, startNewSession_success, g1]
      simp only [List.countP_append, List.countP_cons, List.countP_nil] at h2
      rw [h3] at h1
      omega
    · simp only [startNewSession_success, g2]; exact le_refl _
  case retryFire j x hj =>
    exact h.of_le (fun r => by rw [(startNewSession_refCount cfg _ x false r).1]; exact le_refl _)
      (by rw [(startNewSession_refCount cfg _ x false 0).2])
  case rampBatch clock batch h1 h2 h3 h4 =>
    refine h.of_le (fun r => ?_) ?_
    · have := (foldl_registerAndStart_refCount cfg (batchIds cfg (batch * BATCH_SIZE)) s r).1
      simp only [refCount, main_rampBatch] at this ⊢
      omega
    · simp only [main_rampBatch,
        (foldl_registerAndStart_refCount cfg (batchIds cfg (batch * BATCH_SIZE)) s 0).2]
      exact le_refl _
  case topUp clock h1 =>
    refine h.of_le (fun r => ?_) ?_
    · simp only [main_topUp]
      split_ifs
      · have := (foldl_registerAndStart_refCount cfg
          (topUpIds (↑cfg.MAX_SESSIONS
            - (s.totalActiveSessions + ↑s.sessionsInProgress.length)).toNat clock) s r).1
        simp only [refCount] at this ⊢
        omega
      · exact le_refl _
    · simp only [main_topUp]
      split_ifs
      · simp only [(foldl_registerAndStart_refCount cfg
          (topUpIds (↑cfg.MAX_SESSIONS
            - (s.totalActiveSessions + ↑s.sessionsInProgress.length)).toNat clock) s 0).2]
        exact le_refl _
      · exact le_refl _
  case lastPageFinish i m hm hp =>
    refine h.of_le (fun r => ?_) ?_
    · simp only [member_afterRun]
      split_ifs
      · rw [(startNewSession_refCount cfg _ _ false r).1]; exact le_refl _
      · exact le_refl _
    · simp only [member_afterRun]
      split_ifs
      · rw [(startNewSession_refCount cfg _ _ false 0).2]
      · exact le_refl _
  case closeOkCatch i m hm hp =>
    refine h.of_le (fun r => ?_) ?_
    · simp only [member_catchRest]
      split_ifs
      · rw [(startNewSession_refCount cfg _ _ false r).1]; exact le_refl _
      · exact le_refl _
    · simp only [member_catchRest]
      split_ifs
      · rw [(startNewSession_refCount cfg _ _ false 0).2]
      · exact le_refl _
  case closeThrowCatch i m hm hp =>
    refine h.of_le (fun r => ?_) ?_
    · simp only [member_catchRest, member_catchInner, countBrowserError]
      split_ifs
      · rw [(startNewSession_refCount cfg _ _ false r).1]; exact le_refl _
      · exact le_refl _
    · simp only [member_catchRest, member_catchInner, countBrowserError]
      split_ifs
      · rw [(startNewSession_refCount cfg _ _ false 0).2]
      · exact le_refl _
  case cleanupOk i session hi =>
    refine h.of_le (fun r => ?_) (le_refl _)
    have := countP_setDelete_le (fun x => decide (x.ref = r)) session s.waitingForGroup
    simp only [refCount, cleanupSession_closed]
    omega
  all_goals
    refine h.of_le (fun r => ?_) ?_
  all_goals
    try simp only [main_catch, handleShutdown, countBrowserError, main_whileHead,
      member_catchEnter, member_closed, startNewGroup_resolved, cleanupSession_catch, refCount]
  all_goals (try split_ifs)
  all_goals exact le_refl _

theorem refsFresh_run (cfg : Config) (es : List Event) (s s1 : State) (h : RefsFresh s)
    (hrun : run cfg s es = some s1) : RefsFresh s1 := by
  induction es generalizing s with
  | nil =>
    simp only [run, Option.some.injEq] at hrun
    exact hrun ▸ h
  | cons e es ih =>
    simp only [run] at hrun
    cases hstep : step cfg s e with
    | none => rw [hstep] at hrun; cases hrun
    | some s2 =>
      rw [hstep] at hrun
      exact ih s2 (refsFresh_step cfg s s2 e h (step_sound cfg s e s2 hstep)) hrun

/-- In every reachable state the waiting set is duplicate-free and holds only session
records created before: the two conditions on the waiting set under which the statements
about group formation and about retries are made. -/
theorem reachable_waiting_set (cfg : Config) (es : List Event) (s : State)
    (hrun : run cfg init es = some s) :
    s.waitingForGroup.Nodup ∧ ∀ x ∈ s.waitingForGroup, x.ref < s.nextRef := by
  have h : RefsFresh s :=
    refsFresh_run cfg es init s (fun r => by simp [refCount, init]) hrun
  constructor
  · rw [List.nodup_iff_count_le_one]
    intro x
    have h1 : s.waitingForGroup.count x
        ≤ s.waitingForGroup.countP (fun y => decide (y.ref = x.ref)) := by
      unfold List.count
      apply List.countP_mono_left
      intro y _ hy
      simp only [beq_iff_eq] at hy
      simp [hy]
    have h2 := (h x.ref).1
    unfold refCount at h2
    omega
  · intro x hx
    by_contra hge
    have h0 := (h x.ref).2 (Nat.le_of_not_lt hge)
    unfold refCount at h0
    have hpos : 0 < s.waitingForGroup.countP (fun y => decide (y.ref = x.ref)) :=
      List.countP_pos_iff.mpr ⟨x, hx, by simp⟩
    omega


/-! ### What the handler of one group member waits for -/

/-- What the per-member handler does when the last interaction run of its own pages
finishes, whatever the other members of the group are doing. -/
theorem lastPageFinish_effect (cfg : Config) (s : State) (i : Nat) (m : Member)
    (hm : s.members[i]? = some m) (hp : m.phase = .running 1) :
    ∃ s1, step cfg s (.pageFinish i) = some s1 ∧
      s1.stats.sessionsCompleted = s.stats.sessionsCompleted + 1 ∧
      s1.members = s.members.set i { m with phase := .closingTry } ∧
      m.session.id + cfg.MAX_SESSIONS ∈ s1.sessionsInProgress ∧
      (s.isShuttingDown = false →
        s1.admissions = s.admissions ++ [{ id := m.session.id + cfg.MAX_SESSIONS,
                                            awaited := false, stage := .launching }] ∧
        s1.totalActiveSessions = s.totalActiveSessions + 1) ∧
      (s.isShuttingDown = true →
        s1.admissions = s.admissions ∧ s1.totalActiveSessions = s.totalActiveSessions) ∧
      s1.activeGroups = s.activeGroups ∧
      s1.stats.groupsCompleted = s.stats.groupsCompleted := by
  refine ⟨_, step_complete cfg s _ _ (Step.lastPageFinish s i m hm hp), ?_⟩
  unfold member_afterRun
  dsimp only
  by_cases hsd : s.isShuttingDown = false
  · rw [if_pos hsd, startNewSession_pass]
    · refine ⟨rfl, rfl, mem_setAdd_self _ _, fun _ => ⟨rfl, rfl⟩, ?_, rfl, rfl⟩
      intro h
      rw [hsd] at h
      cases h
    · exact hsd
    · exact mem_setAdd_self _ _
  · rw [if_neg hsd]
    exact ⟨rfl, rfl, mem_setAdd_self _ _, fun h => absurd h hsd, fun _ => ⟨rfl, rfl⟩, rfl, rfl⟩

/-- What the per-member handler does when an interaction run of its own pages throws, and
when the close of its `catch` block settles, whatever the other members are doing. -/
theorem runThrow_effect (cfg : Config) (s : State) (i : Nat) (m : Member)
    (hm : s.members[i]? = some m) :
    (∀ n, m.phase = .running (n + 1) →
      ∃ s1, step cfg s (.runThrow i) = some s1 ∧
        s1.members = s.members.set i { m with phase := .closingCatch } ∧
        s1.stats.browser.total = s.stats.browser.total + 1 ∧
        s1.stats.sessionsCompleted = s.stats.sessionsCompleted ∧
        s1.admissions = s.admissions ∧ s1.activeGroups = s.activeGroups) ∧
    (m.phase = .closingCatch →
      ∃ s1, step cfg s (.closeOk i) = some s1 ∧
        s1.members = s.members.eraseIdx i ∧
        s1.stats.sessionsFailed = s.stats.sessionsFailed + 1 ∧
        s1.stats.sessionsCompleted = s.stats.sessionsCompleted ∧
        (s.isShuttingDown = false →
          s1.admissions = s.admissions ++ [{ id := m.session.id + cfg.MAX_SESSIONS,
                                              awaited := false, stage := .launching }] ∧
          s1.totalActiveSessions = s.totalActiveSessions - 1 + 1) ∧
        (s.isShuttingDown = true →
          s1.admissions = s.admissions ∧
          s1.totalActiveSessions = s.totalActiveSessions - 1) ∧
        s1.activeGroups = s.activeGroups) := by
  constructor
  · intro n hp
    exact ⟨_, step_complete cfg s _ _ (Step.runThrow s i m n hm hp), rfl, rfl, rfl, rfl, rfl⟩
  · intro hp
    refine ⟨_, step_complete cfg s _ _ (Step.closeOkCatch s i m hm hp), ?_⟩
    unfold member_catchRest
    dsimp only
    by_cases hsd : s.isShuttingDown = false
    · rw [if_pos hsd, startNewSession_pass]
      · refine ⟨rfl, rfl, rfl, fun _ => ⟨rfl, rfl⟩, ?_, rfl⟩
        intro h
        rw [hsd] at h
        cases h
      · exact hsd
      · exact mem_setAdd_self _ _
    · rw [if_neg hsd]
      exact ⟨rfl, rfl, rfl, fun h => absurd h hsd, fun _ => ⟨rfl, rfl⟩, rfl⟩

/-- `Promise.all(groupPromises)` resolves exactly when the group is active and no handler
of a member of the group is left; then the group id leaves `activeGroups` and
`stats.groupsCompleted` grows by 1. -/
theorem groupResolve_effect (cfg : Config) (s : State) (g : Nat) :
    ((step cfg s (.groupResolve g)).isSome = true ↔
      g ∈ s.activeGroups ∧ ∀ m ∈ s.members, m.groupId ≠ g) ∧
    (∀ s1, step cfg s (.groupResolve g) = some s1 →
      s1.activeGroups = setDelete g s.activeGroups ∧
      s1.stats.groupsCompleted = s.stats.groupsCompleted + 1 ∧
      s1.stats.sessionsCompleted = s.stats.sessionsCompleted ∧
      s1.admissions = s.admissions ∧ s1.members = s.members) := by
  have hall : (s.members.all (fun m => decide (m.groupId ≠ g)) = true) ↔
      ∀ m ∈ s.members, m.groupId ≠ g := by
    rw [List.all_eq_true]
    constructor
    · intro h m hm; simpa using h m hm
    · intro h m hm; simpa using h m hm
  constructor
  · simp only [step]
    split_ifs with hc
    · simp only [Option.isSome_some, true_iff]
      exact ⟨hc.1, hall.mp hc.2⟩
    · simp only [Option.isSome_none, Bool.false_eq_true, false_iff]
      intro h
      exact hc ⟨h.1, hall.mpr h.2⟩
  · intro s1 h
    simp only [step] at h
    split_ifs at h
    cases h
    exact ⟨rfl, rfl, rfl, rfl, rfl⟩

/-- The steps that start an admission: a loop iteration of `main`, a retry timer, the end
of the last interaction run of a member, and the settled close of the `catch` block of a
member. -/
theorem admissions_grow_cases (cfg : Config) (s s1 : State) (e : Event)
    (h : step cfg s e = some s1) (hlt : s.admissions.length < s1.admissions.length) :
    (∃ clock, e = .mainStep clock) ∨ (∃ j, e = .retryFire j) ∨
    (∃ i m, e = .pageFinish i ∧ s.members[i]? = some m ∧ m.phase = .running 1) ∨
    (∃ i m, (e = .closeOk i ∨ e = .closeThrow i) ∧ s.members[i]? = some m ∧
      m.phase = .closingCatch) := by
  have hS := step_sound cfg s e s1 h
  clear h
  cases hS
  case rampBreak clock batch h1 h2 h3 h4 => exact Or.inl ⟨clock, rfl⟩
  case rampBatch clock batch h1 h2 h3 h4 => exact Or.inl ⟨clock, rfl⟩
  case rampEnd clock batch h1 h2 h3 => exact Or.inl ⟨clock, rfl⟩
  case topUp clock h1 => exact Or.inl ⟨clock, rfl⟩
  case join clock h1 h2 => exact Or.inl ⟨clock, rfl⟩
  case retryFire j x hj => exact Or.inr (Or.inl ⟨j, rfl⟩)
  case lastPageFinish i m hm hp => exact Or.inr (Or.inr (Or.inl ⟨i, m, rfl, hm, hp⟩))
  case closeOkCatch i m hm hp =>
    exact Or.inr (Or.inr (Or.inr ⟨i, m, Or.inl rfl, hm, hp⟩))
  case closeThrowCatch i m hm hp =>
    exact Or.inr (Or.inr (Or.inr ⟨i, m, Or.inr rfl, hm, hp⟩))
  case launchOk i a hi hst =>
    exfalso
    obtain ⟨f1, -, -, -, -, -, -, -, -⟩ := createBrowserSession_launched_frame s
    simp only [List.length_set, f1] at hlt
    omega
  case openOk i now a hi hst =>
    exfalso
    simp only [List.length_set, createBrowserSession_return] at hlt
    omega
  case createFail i a hi hst =>
    exfalso
    have := List.length_eraseIdx_le s.admissions i
    simp only [startNewSession_catch, createBrowserSession_catch] at hlt
    split_ifs at hlt
    all_goals
      simp only [] at hlt
      omega
  case navigated i a session hi hst =>
    exfalso
    have := List.length_eraseIdx_le s.admissions i
    obtain ⟨g1, -⟩ := startNewGroup_admissions_nextRef cfg
      { s with admissions := s.admissions.eraseIdx i,
               stats := { s.stats with activeSessionsCount := s.stats.activeSessionsCount + 1 },
               waitingForGroup := s.waitingForGroup ++ [session],
               sessionsInProgress := setDelete a.id s.sessionsInProgress }
    simp only [startNewSession_success, g1] at hlt
    omega
  all_goals exfalso
  all_goals
    try simp only [main_catch, handleShutdown, countBrowserError, member_closed,
      member_catchEnter, startNewGroup_resolved, cleanupSession_closed,
      cleanupSession_catch] at hlt
  all_goals omega

theorem startNewSession_activeGroups (cfg : Config) (s : State) (x : Nat) (a : Bool) :
    (startNewSession cfg s x a).activeGroups = s.activeGroups := by
  unfold startNewSession; split <;> rfl

theorem foldl_registerAndStart_activeGroups (cfg : Config) (ids : List Nat) (s : State) :
    (ids.foldl (registerAndStart cfg) s).activeGroups = s.activeGroups := by
  induction ids generalizing s with
  | nil => rfl
  | cons x xs ih => rw [List.foldl_cons, ih, registerAndStart, startNewSession_activeGroups]

/-- A group id leaves `activeGroups` only when `Promise.all(groupPromises)` of that group
resolves, and then no handler of a member of the group is left. -/
theorem activeGroups_cases (cfg : Config) (s s1 : State) (e : Event)
    (h : step cfg s e = some s1) (g : Nat) (hg : g ∈ s.activeGroups)
    (hg1 : g ∉ s1.activeGroups) :
    e = .groupResolve g ∧ ∀ m ∈ s.members, m.groupId ≠ g := by
  have hS := step_sound cfg s e s1 h
  clear h
  cases hS
  case groupResolve g1 hc =>
    have hgg : g = g1 := by
      by_contra hne
      exact hg1 ((mem_setDelete g1 g s.activeGroups).mpr ⟨hg, hne⟩)
    subst hgg
    refine ⟨rfl, ?_⟩
    intro m hm
    have := hc.2
    rw [List.all_eq_true] at this
    simpa using this m hm
  case navigated i a session hi hst =>
    exfalso
    apply hg1
    simp only [startNewSession_success, startNewGroup]
    split_ifs
    · exact (mem_setAdd _ g _).mpr (Or.inr hg)
    · exact hg
  case rampBatch clock batch h1 h2 h3 h4 =>
    exfalso
    apply hg1
    show g ∈ (main_rampBatch cfg s batch).activeGroups
    rw [main_rampBatch, foldl_registerAndStart_activeGroups]
    exact hg
  case topUp clock h1 =>
    exfalso
    apply hg1
    show g ∈ (main_topUp cfg s clock).activeGroups
    simp only [main_topUp]
    split_ifs
    · rw [foldl_registerAndStart_activeGroups]; exact hg
    · exact hg
  all_goals exfalso
  all_goals apply hg1
  all_goals
    try simp only [main_catch, handleShutdown, countBrowserError, main_whileHead,
      createBrowserSession_launched, getNextUserAgent, createBrowserSession_return,
      startNewSession_catch, createBrowserSession_catch, member_afterRun, member_closed,
      member_catchRest, member_catchEnter, member_catchInner, cleanupSession_closed,
      cleanupSession_catch, startNewSession]
  all_goals (try split_ifs)
  all_goals exact hg

/-- C4 (amended): the barrier of the per-member handler is the member's own pages, not the
group.  Whenever the last interaction run of a member finishes, whatever the other members
are doing, that step counts the member in `stats.sessionsCompleted`, registers its
replacement id and (unless shutting down) admits the replacement, and the handler starts to
await `browser.close()`; the other members stay as they are.  `stats.sessionsCompleted`
changes in no other step, no member reaches the close of the `try` block in any other
way, and an admission starts only in a loop iteration of `main`, at a retry timer, in that
step of a member or when the close of a member's `catch` block settles.  A close settles
only for a member whose handler has left its interaction runs.  When a run of a member
throws, its handler goes on to the close of its `catch` block and, once that settles,
counts the failure and admits the replacement, again without waiting for anyone.  Only
the group id in `activeGroups` and `stats.groupsCompleted` wait for the whole group:
`Promise.all(groupPromises)` resolves exactly when no handler of the group is left, the
id is removed and the counter grows in that step and in no other. -/
theorem member_barrier (cfg : Config) (s s1 : State) (e : Event)
    (h : step cfg s e = some s1) :
    (s1.stats.sessionsCompleted ≠ s.stats.sessionsCompleted →
      ∃ i m, e = .pageFinish i ∧ s.members[i]? = some m ∧ m.phase = .running 1 ∧
        s1.stats.sessionsCompleted = s.stats.sessionsCompleted + 1 ∧
        m.session.id + cfg.MAX_SESSIONS ∈ s1.sessionsInProgress ∧
        s1.members[i]? = some { m with phase := .closingTry }) ∧
    (∀ i m, s.members[i]? = some m → m.phase = .running 1 →
      ∃ s2, step cfg s (.pageFinish i) = some s2 ∧
        s2.stats.sessionsCompleted = s.stats.sessionsCompleted + 1 ∧
        s2.members = s.members.set i { m with phase := .closingTry } ∧
        m.session.id + cfg.MAX_SESSIONS ∈ s2.sessionsInProgress ∧
        (s.isShuttingDown = false →
          s2.admissions = s.admissions ++ [{ id := m.session.id + cfg.MAX_SESSIONS,
                                              awaited := false, stage := .launching }] ∧
          s2.totalActiveSessions = s.totalActiveSessions + 1) ∧
        (s.isShuttingDown = true →
          s2.admissions = s.admissions ∧ s2.totalActiveSessions = s.totalActiveSessions) ∧
        s2.activeGroups = s.activeGroups ∧
        s2.stats.groupsCompleted = s.stats.groupsCompleted) ∧
    (s.admissions.length < s1.admissions.length →
      (∃ clock, e = .mainStep clock) ∨ (∃ j, e = .retryFire j) ∨
      (∃ i m, e = .pageFinish i ∧ s.members[i]? = some m ∧ m.phase = .running 1) ∨
      (∃ i m, (e = .closeOk i ∨ e = .closeThrow i) ∧ s.members[i]? = some m ∧
        m.phase = .closingCatch)) ∧
    (∀ m1 ∈ s1.members, m1.phase = .closingTry →
      m1 ∈ s.members ∨
        ∃ i m, e = .pageFinish i ∧ s.members[i]? = some m ∧ m.phase = .running 1 ∧
          m1 = { m with phase := .closingTry }) ∧
    (∀ i, e = .closeOk i ∨ e = .closeThrow i →
      ∃ m, s.members[i]? = some m ∧ (m.phase = .closingTry ∨ m.phase = .closingCatch)) ∧
    (∀ i m, s.members[i]? = some m →
      (∀ n, m.phase = .running (n + 1) →
        ∃ s2, step cfg s (.runThrow i) = some s2 ∧
          s2.members = s.members.set i { m with phase := .closingCatch } ∧
          s2.stats.browser.total = s.stats.browser.total + 1 ∧
          s2.stats.sessionsCompleted = s.stats.sessionsCompleted ∧
          s2.admissions = s.admissions ∧ s2.activeGroups = s.activeGroups) ∧
      (m.phase = .closingCatch →
        ∃ s2, step cfg s (.closeOk i) = some s2 ∧
          s2.members = s.members.eraseIdx i ∧
          s2.stats.sessionsFailed = s.stats.sessionsFailed + 1 ∧
          s2.stats.sessionsCompleted = s.stats.sessionsCompleted ∧
          (s.isShuttingDown = false →
            s2.admissions = s.admissions ++ [{ id := m.session.id + cfg.MAX_SESSIONS,
                                                awaited := false, stage := .launching }] ∧
            s2.totalActiveSessions = s.totalActiveSessions - 1 + 1) ∧
          (s.isShuttingDown = true →
            s2.admissions = s.admissions ∧
            s2.totalActiveSessions = s.totalActiveSessions - 1) ∧
          s2.activeGroups = s.activeGroups)) ∧
    (s1.stats.groupsCompleted ≠ s.stats.groupsCompleted →
      ∃ g, e = .groupResolve g ∧ g ∈ s.activeGroups ∧ ∀ m ∈ s.members, m.groupId ≠ g) ∧
    (∀ g ∈ s.activeGroups, g ∉ s1.activeGroups →
      e = .groupResolve g ∧ ∀ m ∈ s.members, m.groupId ≠ g) ∧
    (∀ g, ((step cfg s (.groupResolve g)).isSome = true ↔
        g ∈ s.activeGroups ∧ ∀ m ∈ s.members, m.groupId ≠ g) ∧
      (∀ s2, step cfg s (.groupResolve g) = some s2 →
        s2.activeGroups = setDelete g s.activeGroups ∧
        s2.stats.groupsCompleted = s.stats.groupsCompleted + 1 ∧
        s2.stats.sessionsCompleted = s.stats.sessionsCompleted ∧
        s2.admissions = s.admissions ∧ s2.members = s.members)) :=
  ⟨(step_counter_cases cfg s s1 e h).1,
   fun i m hm hp => lastPageFinish_effect cfg s i m hm hp,
   admissions_grow_cases cfg s s1 e h,
   closingTry_origin cfg s s1 e h,
   (step_counter_cases cfg s s1 e h).2.1,
   fun i m hm => runThrow_effect cfg s i m hm,
   (step_counter_cases cfg s s1 e h).2.2,
   fun g hg hg1 => activeGroups_cases cfg s s1 e h g hg hg1,
   fun g => groupResolve_effect cfg s g⟩

/-- Witness of `member_barrier`: in group 1 of `pairConfig` the last page of session 0
finishes while session 1 still has both runs going.  Session 0 is counted as completed,
its replacement, id 2, is admitted and its close is awaited; session 1 is still running
and the group is still active. -/
theorem member_barrier_witness :
    step pairConfig pairLastPage (.pageFinish 0) = some pairClosing ∧
    pairLastPage.members.map (fun m => (m.session.id, m.groupId, m.phase))
      = [(0, 1, .running 1), (1, 1, .running 2)] ∧
    pairClosing.members.map (fun m => (m.session.id, m.groupId, m.phase))
      = [(0, 1, .closingTry), (1, 1, .running 2)] ∧
    pairClosing.admissions = [{ id := 2, awaited := false, stage := .launching }] ∧
    pairClosing.activeGroups = [1] ∧
    pairClosing.stats.sessionsCompleted ≠ pairLastPage.stats.sessionsCompleted ∧
    (∃ i m, Event.pageFinish 0 = .pageFinish i ∧ pairLastPage.members[i]? = some m ∧
      m.phase = .running 1 ∧
      pairClosing.stats.sessionsCompleted = pairLastPage.stats.sessionsCompleted + 1 ∧
      m.session.id + pairConfig.MAX_SESSIONS ∈ pairClosing.sessionsInProgress ∧
      pairClosing.members[i]? = some { m with phase := .closingTry }) ∧
    (∃ s2, step pairConfig pairLastPage (.pageFinish 0) = some s2 ∧
      s2.stats.sessionsCompleted = pairLastPage.stats.sessionsCompleted + 1 ∧
      s2.members = pairLastPage.members.set 0
        { session := ⟨0, 0, 0, 0⟩, groupId := 1, phase := .closingTry } ∧
      (⟨0, 0, 0, 0⟩ : Session).id + pairConfig.MAX_SESSIONS ∈ s2.sessionsInProgress ∧
      (pairLastPage.isShuttingDown = false →
        s2.admissions = pairLastPage.admissions
          ++ [{ id := (⟨0, 0, 0, 0⟩ : Session).id + pairConfig.MAX_SESSIONS,
                awaited := false, stage := .launching }] ∧
        s2.totalActiveSessions = pairLastPage.totalActiveSessions + 1) ∧
      (pairLastPage.isShuttingDown = true →
        s2.admissions = pairLastPage.admissions ∧
        s2.totalActiveSessions = pairLastPage.totalActiveSessions) ∧
      s2.activeGroups = pairLastPage.activeGroups ∧
      s2.stats.groupsCompleted = pairLastPage.stats.groupsCompleted) ∧
    (step pairConfig pairClosing (.groupResolve 1)).isSome = false :=
  ⟨by rfl, by decide, by decide, by decide, by decide, by decide,
   (member_barrier pairConfig pairLastPage pairClosing (.pageFinish 0) (by rfl)).1
     (by decide),
   (member_barrier pairConfig pairLastPage pairClosing (.pageFinish 0) (by rfl)).2.1 0
     { session := ⟨0, 0, 0, 0⟩, groupId := 1, phase := .running 1 } (by rfl) rfl,
   by decide⟩

/-! ### Shutdown -/

theorem creating_nextRef_step (cfg : Config) (t t1 : State) (e : Event)
    (hsd : t.isShuttingDown = true) (hS : Step cfg t e t1) :
    t1.nextRef + creating t1 ≤ t.nextRef + creating t := by
  cases hS
  case rampBatch => contradiction
  case launchOk i a hi hst =>
    obtain ⟨f1, -, -, -, -, f6, -, -, -⟩ := createBrowserSession_launched_frame t
    have := countP_set_of_getElem? isCreating t.admissions i a { a with stage := .opening } hi
    simp only [isCreating, hst, if_true] at this
    simp only [creating, f1, f6]
    omega
  case openOk i now a hi hst =>
    have := countP_set_of_getElem? isCreating t.admissions i a
      { a with stage := .navigating { ref := t.nextRef, id := a.id, startTime := now,
                                      lastActiveTime := now } } hi
    simp only [isCreating, hst, if_true, Bool.false_eq_true, if_false] at this
    simp only [creating, createBrowserSession_return]
    omega
  case createFail i a hi hst =>
    have := countP_eraseIdx isCreating t.admissions i a hi
    simp only [startNewSession_catch, createBrowserSession_catch, creating]
    split_ifs
    all_goals
      simp only []
      omega
  case navigated i a session hi hst =>
    obtain ⟨g1, g2⟩ := startNewGroup_admissions_nextRef cfg
      { t with admissions := t.admissions.eraseIdx i,
               stats := { t.stats with activeSessionsCount := t.stats.activeSessionsCount + 1 },
               waitingForGroup := t.waitingForGroup ++ [session],
               sessionsInProgress := setDelete a.id t.sessionsInProgress }
    have := countP_eraseIdx isCreating t.admissions i a hi
    simp only [creating, startNewSession_success, g1, g2]
    omega
  case retryFire j x hj =>
    rw [startNewSession_shutdown cfg _ x false (by exact hsd)]
    exact le_refl _
  case topUp clock h1 =>
    simp only [main_topUp]
    split_ifs
    · obtain ⟨-, h2, -, -, -⟩ := foldl_registerAndStart_shutdown cfg
        (topUpIds (↑cfg.MAX_SESSIONS
          - (t.totalActiveSessions + ↑t.sessionsInProgress.length)).toNat clock) t hsd
      have h3 := (foldl_registerAndStart_refCount cfg
        (topUpIds (↑cfg.MAX_SESSIONS
          - (t.totalActiveSessions + ↑t.sessionsInProgress.length)).toNat clock) t 0).2
      simp only [creating, h2, h3]
      exact le_refl _
    · exact le_refl _
  case lastPageFinish i m hm hp =>
    simp only [member_afterRun, hsd]
    exact le_refl _
  case closeOkCatch i m hm hp =>
    simp only [member_catchRest, hsd]
    exact le_refl _
  case closeThrowCatch i m hm hp =>
    simp only [member_catchRest, member_catchInner, countBrowserError, hsd]
    exact le_refl _
  all_goals
    try simp only [main_catch, handleShutdown, countBrowserError, main_whileHead,
      member_closed, startNewGroup_resolved, member_catchEnter, cleanupSession_closed,
      cleanupSession_catch]
  all_goals (try split_ifs)
  all_goals exact le_refl _

theorem shutdown_step (cfg : Config) (t t1 : State) (e : Event)
    (hsd : t.isShuttingDown = true) (hS : Step cfg t e t1) :
    t1.isShuttingDown = true ∧
    t1.admissions.length ≤ t.admissions.length ∧
    t1.stats.sessionsOpened = t.stats.sessionsOpened ∧
    t1.groupCounter = t.groupCounter ∧
    t1.members.length ≤ t.members.length := by
  cases hS
  case rampBatch => contradiction
  case sweepBegin => contradiction
  case topUp clock hpc =>
    simp only [main_topUp]
    split_ifs
    · obtain ⟨h1, h2, h3, h4, h5⟩ := foldl_registerAndStart_shutdown cfg
        (topUpIds (↑cfg.MAX_SESSIONS
          - (t.totalActiveSessions + ↑t.sessionsInProgress.length)).toNat clock) t hsd
      simp [h1, h2, h3, h4, h5]
    · simp [hsd]
  all_goals
    try simp only [main_catch, handleShutdown, countBrowserError, main_whileHead,
      createBrowserSession_launched, getNextUserAgent, createBrowserSession_return,
      startNewSession_catch, createBrowserSession_catch, startNewSession_success,
      member_afterRun, member_closed, member_catchRest, startNewGroup_resolved,
      member_catchEnter, member_catchInner, cleanupSession_closed, cleanupSession_catch]
  all_goals (try simp only [hsd])
  all_goals (try simp only [startNewSession_shutdown, startNewGroup_shutdown, hsd])
  all_goals (try split_ifs)
  all_goals first
    | (simp; done)
    | (simp only [List.length_eraseIdx, List.length_set, true_and, and_true, le_refl]
       split_ifs <;> omega)

theorem shutdown_run (cfg : Config) (es : List Event) (t t1 : State)
    (hsd : t.isShuttingDown = true) (hrun : run cfg t es = some t1) :
    t1.isShuttingDown = true ∧
    t1.admissions.length ≤ t.admissions.length ∧
    t1.stats.sessionsOpened = t.stats.sessionsOpened ∧
    t1.groupCounter = t.groupCounter ∧
    t1.members.length ≤ t.members.length ∧
    t1.nextRef + creating t1 ≤ t.nextRef + creating t := by
  induction es generalizing t with
  | nil =>
    simp only [run, Option.some.injEq] at hrun
    subst hrun
    exact ⟨hsd, le_refl _, rfl, rfl, le_refl _, le_refl _⟩
  | cons e es ih =>
    simp only [run] at hrun
    cases hstep : step cfg t e with
    | none => rw [hstep] at hrun; cases hrun
    | some t2 =>
      rw [hstep] at hrun
      have hS := step_sound cfg t e t2 hstep
      obtain ⟨a1, a2, a3, a4, a5⟩ := shutdown_step cfg t t2 e hsd hS
      have a6 := creating_nextRef_step cfg t t2 e hsd hS
      obtain ⟨b1, b2, b3, b4, b5, b6⟩ := ih t2 a1 hrun
      exact ⟨b1, le_trans b2 a2, b3.trans a3, b4.trans a4, le_trans b5 a5, le_trans b6 a6⟩

/-- C10 (counterexample): sessions 0 and 1 are admitted, session 0 reaches the waiting set,
then a signal runs `handleShutdown`, which closes session 0 only.  The admission of
session 1, already past the gate, goes on under the flag: its browser and pages are
created (`nextRef` 1 to 2, `stats.totalTabsActive` 2 to 4) and it joins the waiting set,
while the closes that `handleShutdown` has started are still that of session 0 alone. -/
theorem session_created_after_shutdown :
    (run pairConfig init pairSignalTrace).map
      (fun s => (s.isShuttingDown, s.nextRef, s.stats.totalTabsActive,
        s.waitingForGroup.map (fun x => x.id), s.cleanups.map (fun x => x.id)))
      = some (true, 1, 2, [0], [0]) ∧
    (run pairConfig init (pairSignalTrace ++ [.launchOk 0, .openOk 0 5, .navigated 0])).map
      (fun s => (s.isShuttingDown, s.nextRef, s.stats.totalTabsActive,
        s.waitingForGroup.map (fun x => x.id), s.cleanups.map (fun x => x.id)))
      = some (true, 2, 4, [0, 1], [0]) := by
  constructor <;> rfl

/-- C10 (amended): `handleShutdown` sets `isShuttingDown`, empties `sessionsInProgress` and
calls `cleanupSession` (hence `browser.close()`) for every session of the waiting set and
for nothing else; it is what a signal runs.  In any state `t` whose flag is set,
`startNewSession` and `startNewGroup` return without any effect, and along every run from
`t` the flag stays set, no admission is started (no new entry among the admissions,
`stats.sessionsOpened` unchanged) and no group is formed (`groupCounter` unchanged, no new
group member).  The admissions that were in flight when the flag was set are not
cancelled: the sessions created under the flag are at most as many as the admissions
that had not yet created theirs. -/
theorem shutdown_stops_admission (cfg : Config) (s t t1 : State) (es : List Event)
    (sessionId : Nat) (awaited : Bool) (hsd : t.isShuttingDown = true)
    (hrun : run cfg t es = some t1) :
    (handleShutdown s).isShuttingDown = true ∧
    (handleShutdown s).sessionsInProgress = [] ∧
    (handleShutdown s).cleanups = s.cleanups ++ s.waitingForGroup ∧
    (handleShutdown s).admissions = s.admissions ∧
    (handleShutdown s).members = s.members ∧
    step cfg s .signal = some (handleShutdown s) ∧
    startNewSession cfg t sessionId awaited = t ∧
    startNewGroup cfg t = t ∧
    t1.isShuttingDown = true ∧
    t1.admissions.length ≤ t.admissions.length ∧
    t1.stats.sessionsOpened = t.stats.sessionsOpened ∧
    t1.groupCounter = t.groupCounter ∧
    t1.members.length ≤ t.members.length ∧
    t1.nextRef + creating t1 ≤ t.nextRef + creating t :=
  ⟨rfl, rfl, rfl, rfl, rfl, rfl, startNewSession_shutdown cfg t _ _ hsd,
    startNewGroup_shutdown cfg t hsd, shutdown_run cfg es t t1 hsd hrun⟩

/-- Witness of `shutdown_stops_admission`: from `pairShutDown`, where the flag is set and
session 1 is being created, the admission runs to its end; the flag stays set,
`startNewSession(7)` does nothing, and the one session created is the one that was in
flight. -/
theorem shutdown_stops_admission_witness :
    pairShutDown.isShuttingDown = true ∧
    run pairConfig pairShutDown [.launchOk 0, .openOk 0 5, .navigated 0] = some pairLate ∧
    creating pairShutDown = 1 ∧ pairShutDown.nextRef = 1 ∧ pairLate.nextRef = 2 ∧
    startNewSession pairConfig pairShutDown 7 false = pairShutDown ∧
    pairLate.isShuttingDown = true ∧
    pairLate.nextRef + creating pairLate ≤ pairShutDown.nextRef + creating pairShutDown :=
  ⟨rfl, rfl, by decide, rfl, rfl,
   (shutdown_stops_admission pairConfig init pairShutDown pairLate
      [.launchOk 0, .openOk 0 5, .navigated 0] 7 false rfl rfl).2.2.2.2.2.2.1,
   (shutdown_stops_admission pairConfig init pairShutDown pairLate
      [.launchOk 0, .openOk 0 5, .navigated 0] 7 false rfl rfl).2.2.2.2.2.2.2.2.1,
   (shutdown_stops_admission pairConfig init pairShutDown pairLate
      [.launchOk 0, .openOk 0 5, .navigated 0] 7 false rfl rfl).2.2.2.2.2.2.2.2.2.2.2.2.2⟩

/-! ### The error ledger -/

theorem length_pushHistory_le (r : ErrorDetails) (history : List ErrorDetails)
    (h : history.length ≤ 50) : (pushHistory r history).length ≤ 50 := by
  unfold pushHistory
  dsimp only
  split
  · simp only [List.length_dropLast, List.length_cons]; omega
  · simp only [List.length_cons] at *; omega

theorem pushHistory_eq_take (r : ErrorDetails) (history : List ErrorDetails)
    (h : history.length ≤ 50) : pushHistory r history = (r :: history).take 50 := by
  unfold pushHistory
  dsimp only
  split
  · rename_i hlt
    have hlen : (r :: history).length - 1 = 50 := by
      simp only [List.length_cons] at hlt ⊢; omega
    rw [List.dropLast_eq_take, hlen]
  · rename_i hge
    rw [List.take_of_length_le]
    simp only [List.length_cons] at hge ⊢; omega

theorem logError_history (s : State) (timestamp : Nat) (category : ErrorCategory)
    (type : String) (error : JsError) :
    (logError s timestamp category type error).stats.errorHistory
      = pushHistory (errorDetails timestamp category type error) s.stats.errorHistory := by
  cases category; rfl

theorem length_logError_history (s : State) (c : LogCall) (h : s.stats.errorHistory.length ≤ 50) :
    (logError s c.timestamp c.category c.type c.error).stats.errorHistory.length ≤ 50 := by
  rw [logError_history]
  exact length_pushHistory_le _ _ h

/-- C11: starting from an empty history, after any sequence of `logError` calls
`stats.errors.errorHistory` holds at most 50 entries. -/
theorem errorHistory_bounded (s : State) (calls : List LogCall)
    (hempty : s.stats.errorHistory = []) :
    (logErrors s calls).stats.errorHistory.length ≤ 50 := by
  have hle : s.stats.errorHistory.length ≤ 50 := by simp [hempty]
  clear hempty
  unfold logErrors
  induction calls generalizing s with
  | nil => exact hle
  | cons c cs ih => exact ih _ (length_logError_history s c hle)

/-- C12: on a history of at most 50 entries `logError` leaves the first 50 entries of the
new record followed by the old history: the new record is at index 0, the older ones follow
in their order, nothing is dropped while the old history had fewer than 50 entries, and
exactly its last entry is dropped when it had 50.  Hence after three calls the dashboard
shows the records of these three calls, latest first. -/
theorem logError_prepends (s : State) (timestamp : Nat) (category : ErrorCategory)
    (type : String) (error : JsError) (c1 c2 c3 : LogCall)
    (hlen : s.stats.errorHistory.length ≤ 50) :
    (logError s timestamp category type error).stats.errorHistory
      = (errorDetails timestamp category type error :: s.stats.errorHistory).take 50 ∧
    (logError s timestamp category type error).stats.errorHistory[0]?
      = some (errorDetails timestamp category type error) ∧
    (s.stats.errorHistory.length < 50 →
      (logError s timestamp category type error).stats.errorHistory
        = errorDetails timestamp category type error :: s.stats.errorHistory) ∧
    (s.stats.errorHistory.length = 50 →
      (logError s timestamp category type error).stats.errorHistory
        = errorDetails timestamp category type error :: s.stats.errorHistory.dropLast) ∧
    updateDashboard_lastErrors (logErrors s [c1, c2, c3])
      = [errorDetails c3.timestamp c3.category c3.type c3.error,
         errorDetails c2.timestamp c2.category c2.type c2.error,
         errorDetails c1.timestamp c1.category c1.type c1.error] := by
  have h0 := pushHistory_eq_take (errorDetails timestamp category type error)
    s.stats.errorHistory hlen
  refine ⟨?_, ?_, ?_, ?_, ?_⟩
  · rw [logError_history, h0]
  · rw [logError_history, h0]; simp
  · intro hlt
    rw [logError_history, h0, List.take_of_length_le]
    simp only [List.length_cons]; omega
  · intro heq
    rw [logError_history, h0, List.dropLast_eq_take, heq]
    rfl
  · have l1 := length_logError_history s c1 hlen
    have l2 := length_logError_history _ c2 l1
    simp only [updateDashboard_lastErrors, logErrors, List.foldl_cons, List.foldl_nil]
    rw [logError_history, pushHistory_eq_take _ _ l2, logError_history,
      pushHistory_eq_take _ _ l1, logError_history, pushHistory_eq_take _ _ hlen]
    simp [List.take_take]

/-- The key `total` is itself a property of the category object, so a call with the type
`total` would pass the test `stats.errors[category][type] !== undefined` and count twice.
No call site passes it: the types passed are `pageLoad`, `scrolling`, `clicking`,
`mouseMovement`, `navigation` and `pageValidation`. -/
theorem logError_total_counted_twice :
    (logError init 0 .browser "total"
        { message := some "boom", stack := none }).stats.browser.total
      = init.stats.browser.total + 2 := by
  decide

/-- C13: for every category and every error type (any key but the aggregate `total`
itself), `logError` adds exactly 1 to the total of the category, adds exactly 1 to the
counter whose name is `type` when `type` names a sub-kind counter of that category, and
changes only the total when it names none (such as `pageValidation`).  The other sub-kind
counters and the counters of the other category are as before, and outside the category
object and the history nothing changes.  In `main-local.js` the ledger has the one
category `browser`; in `main-turk.js` the same function works on `proxy` and `browser`. -/
theorem logError_counters (s : State) (t : Turk.State) (timestamp : Nat) (type : String)
    (error : JsError) (htype : type ≠ "total") :
    ((logError s timestamp .browser type error).stats.browser.total
        = s.stats.browser.total + 1 ∧
      (logError s timestamp .browser type error).stats.browser.navigation
        = s.stats.browser.navigation + (if type = "navigation" then 1 else 0) ∧
      (logError s timestamp .browser type error).stats.browser.pageLoad
        = s.stats.browser.pageLoad + (if type = "pageLoad" then 1 else 0) ∧
      (logError s timestamp .browser type error).stats.browser.clicking
        = s.stats.browser.clicking + (if type = "clicking" then 1 else 0) ∧
      (logError s timestamp .browser type error).stats.browser.scrolling
        = s.stats.browser.scrolling + (if type = "scrolling" then 1 else 0) ∧
      (logError s timestamp .browser type error).stats.browser.mouseMovement
        = s.stats.browser.mouseMovement + (if type = "mouseMovement" then 1 else 0) ∧
      (logError s timestamp .browser type error).stats.browser.sessionCreation
        = s.stats.browser.sessionCreation + (if type = "sessionCreation" then 1 else 0) ∧
      logError s timestamp .browser type error
        = { s with stats := { s.stats with
              browser := (logError s timestamp .browser type error).stats.browser,
              errorHistory := (logError s timestamp .browser type error).stats.errorHistory } }) ∧
    ((Turk.logError t timestamp .browser type error).stats.browser.total
        = t.stats.browser.total + 1 ∧
      (Turk.logError t timestamp .browser type error).stats.browser.navigation
        = t.stats.browser.navigation + (if type = "navigation" then 1 else 0) ∧
      (Turk.logError t timestamp .browser type error).stats.browser.pageLoad
        = t.stats.browser.pageLoad + (if type = "pageLoad" then 1 else 0) ∧
      (Turk.logError t timestamp .browser type error).stats.browser.clicking
        = t.stats.browser.clicking + (if type = "clicking" then 1 else 0) ∧
      (Turk.logError t timestamp .browser type error).stats.browser.scrolling
        = t.stats.browser.scrolling + (if type = "scrolling" then 1 else 0) ∧
      (Turk.logError t timestamp .browser type error).stats.browser.mouseMovement
        = t.stats.browser.mouseMovement + (if type = "mouseMovement" then 1 else 0) ∧
      (Turk.logError t timestamp .browser type error).stats.browser.sessionCreation
        = t.stats.browser.sessionCreation + (if type = "sessionCreation" then 1 else 0) ∧
      (Turk.logError t timestamp .browser type error).stats.proxy = t.stats.proxy) ∧
    ((Turk.logError t timestamp .proxy type error).stats.proxy.total
        = t.stats.proxy.total + 1 ∧
      (Turk.logError t timestamp .proxy type error).stats.proxy.connection
        = t.stats.proxy.connection + (if type = "connection" then 1 else 0) ∧
      (Turk.logError t timestamp .proxy type error).stats.proxy.authentication
        = t.stats.proxy.authentication + (if type = "authentication" then 1 else 0) ∧
      (Turk.logError t timestamp .proxy type error).stats.proxy.timeout
        = t.stats.proxy.timeout + (if type = "timeout" then 1 else 0) ∧
      (Turk.logError t timestamp .proxy type error).stats.browser = t.stats.browser) := by
  refine ⟨?_, ?_, ?_⟩
  · simp only [logError, BrowserErrors.bump, if_neg htype]
    split_ifs <;> simp_all
  · simp only [Turk.logError, BrowserErrors.bump, if_neg htype]
    split_ifs <;> simp_all
  · simp only [Turk.logError, Turk.ProxyErrors.bump, if_neg htype]
    split_ifs <;> simp_all

/-- Witness of `logError_counters`: a `pageValidation` error changes only the total of
`browser`, in both files; a `clicking` error the total and the `clicking` counter. -/
theorem logError_counters_witness :
    "pageValidation" ≠ "total" ∧ "clicking" ≠ "total" ∧
    (logError init 0 .browser "pageValidation" { message := none, stack := none }).stats.browser
      = { init.stats.browser with total := 1 } ∧
    (Turk.logError Turk.init 0 .browser "pageValidation"
        { message := none, stack := none }).stats
      = { Turk.init.stats with
            browser := { Turk.init.stats.browser with total := 1 },
            errorHistory := [{ timestamp := 0, category := "browser",
                               type := "pageValidation", message := "Unknown error",
                               stack := none }] } ∧
    (logError init 0 .browser "pageValidation"
        { message := none, stack := none }).stats.browser.total
      = init.stats.browser.total + 1 ∧
    (logError init 0 .browser "clicking" { message := none, stack := none }).stats.browser.clicking
      = init.stats.browser.clicking + (if "clicking" = "clicking" then 1 else 0) :=
  ⟨by decide, by decide, by decide, by decide,
   (logError_counters init Turk.init 0 "pageValidation" { message := none, stack := none }
      (by decide)).1.1,
   (logError_counters init Turk.init 0 "clicking" { message := none, stack := none }
      (by decide)).1.2.2.2.1⟩

/-- Witness of `errorHistory_bounded`: two logged errors from the initial state. -/
theorem errorHistory_bounded_witness :
    init.stats.errorHistory = [] ∧
    (logErrors init [⟨1, .browser, "clicking", ⟨none, none⟩⟩,
                     ⟨2, .browser, "scrolling", ⟨some "x", none⟩⟩]).stats.errorHistory.length
      ≤ 50 :=
  ⟨rfl, errorHistory_bounded init _ rfl⟩

/-- Witness of `logError_prepends`: on the empty history of the initial state the logged
record is the only entry. -/
theorem logError_prepends_witness :
    init.stats.errorHistory.length ≤ 50 ∧
    (logError init 7 .browser "clicking" ⟨none, none⟩).stats.errorHistory
      = [errorDetails 7 .browser "clicking" ⟨none, none⟩] :=
  ⟨by decide,
   (logError_prepends init 7 .browser "clicking" ⟨none, none⟩
      ⟨1, .browser, "a", ⟨none, none⟩⟩ ⟨2, .browser, "b", ⟨none, none⟩⟩
      ⟨3, .browser, "c", ⟨none, none⟩⟩ (by decide)).2.2.1 (by decide)⟩


/-! ### The identity rotator -/

theorem getNextUserAgent_calls_spec (s : State) (k : Nat) (hs : s.userAgents ≠ [])
    (h0 : s.currentUserAgentIndex = 0) :
    (getNextUserAgent_calls k s).userAgents = s.userAgents ∧
    (getNextUserAgent_calls k s).currentUserAgentIndex = k % s.userAgents.length := by
  have hN : s.userAgents.length ≠ 0 := by simpa using hs
  induction k with
  | zero => simp [getNextUserAgent_calls, h0]
  | succ k ih =>
    obtain ⟨h1, h2⟩ := ih
    simp only [getNextUserAgent_calls, getNextUserAgent, h1, if_neg hN, h2]
    exact ⟨trivial, by rw [Nat.add_mod, Nat.mod_mod, ← Nat.add_mod]⟩

theorem turk_getNextUserAgent_calls_spec (s : Turk.State) (k : Nat) (hs : s.userAgents ≠ [])
    (h0 : s.currentUserAgentIndex = 0) :
    (Turk.getNextUserAgent_calls k s).userAgents = s.userAgents ∧
    (Turk.getNextUserAgent_calls k s).currentUserAgentIndex = k % s.userAgents.length := by
  have hN : s.userAgents.length ≠ 0 := by simpa using hs
  induction k with
  | zero => simp [Turk.getNextUserAgent_calls, h0]
  | succ k ih =>
    obtain ⟨h1, h2⟩ := ih
    simp only [Turk.getNextUserAgent_calls, Turk.getNextUserAgent, h1, if_neg hN, h2]
    exact ⟨trivial, by rw [Nat.add_mod, Nat.mod_mod, ← Nat.add_mod]⟩

/-- C14: with a non-empty list of `N` identities and the cursor at 0, in `main-local.js` as
in `main-turk.js`, the call of `getNextUserAgent` that follows `k` earlier calls (the
`k + 1`-th call) returns entry `k mod N`, which exists; after `k` calls the cursor is
`k mod N`, hence below `N`; and the `N + 1`-th call returns entry 0 again. -/
theorem getNextUserAgent_cycles (s : State) (t : Turk.State) (k : Nat)
    (hs : s.userAgents ≠ []) (hs0 : s.currentUserAgentIndex = 0)
    (ht : t.userAgents ≠ []) (ht0 : t.currentUserAgentIndex = 0) :
    ((getNextUserAgent (getNextUserAgent_calls k s)).1
        = s.userAgents[k % s.userAgents.length]? ∧
      (∃ a, s.userAgents[k % s.userAgents.length]? = some a) ∧
      (getNextUserAgent_calls k s).currentUserAgentIndex = k % s.userAgents.length ∧
      (getNextUserAgent_calls k s).currentUserAgentIndex < s.userAgents.length ∧
      (getNextUserAgent (getNextUserAgent_calls s.userAgents.length s)).1
        = s.userAgents[0]?) ∧
    ((Turk.getNextUserAgent (Turk.getNextUserAgent_calls k t)).1
        = t.userAgents[k % t.userAgents.length]? ∧
      (∃ a, t.userAgents[k % t.userAgents.length]? = some a) ∧
      (Turk.getNextUserAgent_calls k t).currentUserAgentIndex = k % t.userAgents.length ∧
      (Turk.getNextUserAgent_calls k t).currentUserAgentIndex < t.userAgents.length ∧
      (Turk.getNextUserAgent (Turk.getNextUserAgent_calls t.userAgents.length t)).1
        = t.userAgents[0]?) := by
  have hN : s.userAgents.length ≠ 0 := by simpa using hs
  have hM : t.userAgents.length ≠ 0 := by simpa using ht
  have hlt : ∀ n, n % s.userAgents.length < s.userAgents.length :=
    fun n => Nat.mod_lt _ (Nat.pos_of_ne_zero hN)
  have hlt' : ∀ n, n % t.userAgents.length < t.userAgents.length :=
    fun n => Nat.mod_lt _ (Nat.pos_of_ne_zero hM)
  have key : ∀ n, (getNextUserAgent (getNextUserAgent_calls n s)).1
      = s.userAgents[n % s.userAgents.length]? := by
    intro n
    obtain ⟨h1, h2⟩ := getNextUserAgent_calls_spec s n hs hs0
    simp only [getNextUserAgent, h1, if_neg hN, h2]
  have key' : ∀ n, (Turk.getNextUserAgent (Turk.getNextUserAgent_calls n t)).1
      = t.userAgents[n % t.userAgents.length]? := by
    intro n
    obtain ⟨h1, h2⟩ := turk_getNextUserAgent_calls_spec t n ht ht0
    simp only [Turk.getNextUserAgent, h1, if_neg hM, h2]
  refine ⟨⟨key k, ⟨_, List.getElem?_eq_getElem (hlt k)⟩, ?_, ?_, ?_⟩,
    ⟨key' k, ⟨_, List.getElem?_eq_getElem (hlt' k)⟩, ?_, ?_, ?_⟩⟩
  · exact (getNextUserAgent_calls_spec s k hs hs0).2
  · rw [(getNextUserAgent_calls_spec s k hs hs0).2]; exact hlt k
  · rw [key, Nat.mod_self]
  · exact (turk_getNextUserAgent_calls_spec t k ht ht0).2
  · rw [(turk_getNextUserAgent_calls_spec t k ht ht0).2]; exact hlt' k
  · rw [key', Nat.mod_self]

/-- Witness of `getNextUserAgent_cycles`: with three identities the fifth call returns
entry `4 mod 3`. -/
theorem getNextUserAgent_cycles_witness :
    threeAgents.userAgents ≠ [] ∧ turkThreeAgents.userAgents ≠ [] ∧
    (getNextUserAgent (getNextUserAgent_calls 4 threeAgents)).1
      = threeAgents.userAgents[4 % threeAgents.userAgents.length]? ∧
    (getNextUserAgent (getNextUserAgent_calls 4 threeAgents)).1 = some "ua1" :=
  ⟨by decide, by decide,
   (getNextUserAgent_cycles threeAgents turkThreeAgents 4 (by decide) rfl (by decide) rfl).1.1,
   by decide⟩

/-- C15 (counterexample): on the empty identity list of its initial state,
`getNextUserAgent` of `main-turk.js` returns the default string and leaves the cursor
alone, but `stats.errors.browser.total` stays 0: the statement `stats.browserErrors++`
writes `NaN` to a property that the literal `stats` does not have.  `getNextUserAgent` of
`main-local.js` in the same situation raises `stats.errors.browser.total` to 1. -/
theorem turk_getNextUserAgent_skips_ledger :
    (Turk.getNextUserAgent Turk.init).1 = some defaultUserAgent ∧
    (Turk.getNextUserAgent Turk.init).2.currentUserAgentIndex = 0 ∧
    (Turk.getNextUserAgent Turk.init).2.stats.browser.total = 0 ∧
    (Turk.getNextUserAgent Turk.init).2.stats.browserErrors = .nan ∧
    (getNextUserAgent init).1 = some defaultUserAgent ∧
    (getNextUserAgent init).2.currentUserAgentIndex = 0 ∧
    (getNextUserAgent init).2.stats.browser.total = 1 := by
  refine ⟨rfl, rfl, rfl, rfl, rfl, rfl, rfl⟩

theorem userAgents_startNewSession (cfg : Config) (s : State) (x : Nat) (a : Bool) :
    (startNewSession cfg s x a).userAgents = s.userAgents ∧
    (startNewSession cfg s x a).mainPc = s.mainPc := by
  unfold startNewSession; split <;> exact ⟨rfl, rfl⟩

theorem userAgents_startNewGroup (cfg : Config) (s : State) :
    (startNewGroup cfg s).userAgents = s.userAgents ∧
    (startNewGroup cfg s).mainPc = s.mainPc := by
  unfold startNewGroup; split <;> exact ⟨rfl, rfl⟩

theorem userAgents_foldl_registerAndStart (cfg : Config) (ids : List Nat) (s : State) :
    (ids.foldl (registerAndStart cfg) s).userAgents = s.userAgents ∧
    (ids.foldl (registerAndStart cfg) s).mainPc = s.mainPc := by
  induction ids generalizing s with
  | nil => exact ⟨rfl, rfl⟩
  | cons x xs ih =>
    rw [List.foldl_cons]
    obtain ⟨h1, h2⟩ := ih (registerAndStart cfg s x)
    obtain ⟨h3, h4⟩ := userAgents_startNewSession cfg
      { s with sessionsInProgress := setAdd x s.sessionsInProgress } x true
    exact ⟨h1.trans h3, h2.trans h4⟩

/-- Every step keeps a loaded identity list as it is and never brings `main` back to
`loadUserAgents`. -/
theorem userAgents_step (cfg : Config) (s s1 : State) (e : Event) (hS : Step cfg s e s1)
    (hpc : s.mainPc ≠ .loading) :
    s1.userAgents = s.userAgents ∧ s1.mainPc ≠ .loading := by
  cases hS
  case loadEmpty rows h1 h2 => exact absurd h1 hpc
  case loadRows rows h1 h2 => exact absurd h1 hpc
  case loadErr h1 => exact absurd h1 hpc
  case loadCloseErr rows h1 => exact absurd h1.1 hpc
  case rampBatch clock batch h1 h2 h3 h4 =>
    exact ⟨(userAgents_foldl_registerAndStart cfg _ s).1, by simp⟩
  case topUp clock h1 =>
    refine ⟨?_, by simp⟩
    simp only [main_topUp]
    split_ifs
    · exact (userAgents_foldl_registerAndStart cfg _ s).1
    · rfl
  case navigated i a session hi hst =>
    unfold startNewSession_success
    obtain ⟨h1, h2⟩ := userAgents_startNewGroup cfg
      { s with admissions := s.admissions.eraseIdx i,
               stats := { s.stats with activeSessionsCount := s.stats.activeSessionsCount + 1 },
               waitingForGroup := s.waitingForGroup ++ [session],
               sessionsInProgress := setDelete a.id s.sessionsInProgress }
    exact ⟨h1, by rw [h2]; exact hpc⟩
  case retryFire j x hj =>
    obtain ⟨h1, h2⟩ := userAgents_startNewSession cfg
      { s with retries := s.retries.eraseIdx j } x false
    exact ⟨h1, by rw [h2]; exact hpc⟩
  case launchOk i a hi hst =>
    refine ⟨?_, ?_⟩
    · simp only [createBrowserSession_launched, getNextUserAgent]
      split <;> rfl
    · simp only [createBrowserSession_launched, getNextUserAgent]
      split <;> exact hpc
  case lastPageFinish i m hm hp =>
    simp only [member_afterRun]
    split_ifs
    · obtain ⟨h1, h2⟩ := userAgents_startNewSession cfg
        { s with members := s.members.set i { m with phase := .closingTry },
                 stats := { s.stats with sessionsCompleted := s.stats.sessionsCompleted + 1 },
                 sessionsInProgress :=
                   setAdd (m.session.id + cfg.MAX_SESSIONS) s.sessionsInProgress }
        (m.session.id + cfg.MAX_SESSIONS) false
      exact ⟨h1, by rw [h2]; exact hpc⟩
    · exact ⟨rfl, hpc⟩
  case closeOkCatch i m hm hp =>
    simp only [member_catchRest]
    split_ifs
    · refine ⟨(userAgents_startNewSession cfg _ _ false).1, ?_⟩
      rw [(userAgents_startNewSession cfg _ _ false).2]; exact hpc
    · exact ⟨rfl, hpc⟩
  case closeThrowCatch i m hm hp =>
    simp only [member_catchRest, member_catchInner, countBrowserError]
    split_ifs
    · refine ⟨(userAgents_startNewSession cfg _ _ false).1, ?_⟩
      rw [(userAgents_startNewSession cfg _ _ false).2]; exact hpc
    · exact ⟨rfl, hpc⟩
  case createFail i a hi hst =>
    simp only [startNewSession_catch, createBrowserSession_catch]
    split_ifs
    all_goals exact ⟨rfl, hpc⟩
  case rampBreak clock batch h1 h2 h3 h4 =>
    simp only [main_whileHead]
    split_ifs
    all_goals exact ⟨rfl, by simp⟩
  case rampEnd clock batch h1 h2 h3 =>
    simp only [main_whileHead]
    split_ifs
    all_goals exact ⟨rfl, by simp⟩
  case join clock h1 h2 =>
    simp only [main_whileHead]
    split_ifs
    all_goals exact ⟨rfl, by simp⟩
  all_goals exact ⟨rfl, hpc⟩

theorem guarded_step (cfg : Config) (s s1 : State) (e : Event) (hG : Guarded s)
    (hS : Step cfg s e s1) : Guarded s1 := by
  rcases hG with ⟨hu, hpc⟩ | ⟨ha, hr, hm, hw, hpc⟩
  · obtain ⟨h1, h2⟩ := userAgents_step cfg s s1 e hS hpc
    exact Or.inl ⟨by rw [h1]; exact hu, h2⟩
  · cases hS
    case loadRows rows h1 h2 =>
      exact Or.inl ⟨fun h => h2 (by have h0 : rows = [] := h; simp [h0]), by simp⟩
    case loadEmpty rows h1 h2 =>
      exact Or.inr ⟨ha, hr, hm, hw, Or.inr rfl⟩
    case loadErr h1 =>
      exact Or.inr ⟨ha, hr, hm, hw, Or.inr rfl⟩
    case loadCloseErr rows h1 =>
      exact Or.inr ⟨ha, hr, hm, hw, Or.inr rfl⟩
    case urlFetch urls h1 => exact Or.inr ⟨ha, hr, hm, hw, hpc⟩
    case rampBreak clock batch h1 h2 h3 h4 => rw [h1] at hpc; simp at hpc
    case rampBatch clock batch h1 h2 h3 h4 => rw [h1] at hpc; simp at hpc
    case rampEnd clock batch h1 h2 h3 => rw [h1] at hpc; simp at hpc
    case topUp clock h1 => rw [h1] at hpc; simp at hpc
    case join clock h1 h2 => rw [h1] at hpc; simp at hpc
    case launchOk i a hi hst => rw [ha] at hi; simp at hi
    case openOk i now a hi hst => rw [ha] at hi; simp at hi
    case createFail i a hi hst => rw [ha] at hi; simp at hi
    case navigated i a session hi hst => rw [ha] at hi; simp at hi
    case retryFire j x hj => rw [hr] at hj; simp at hj
    case pageFinish i m n hi hp => rw [hm] at hi; simp at hi
    case lastPageFinish i m hi hp => rw [hm] at hi; simp at hi
    case runThrow i m n hi hp => rw [hm] at hi; simp at hi
    case closeOkTry i m hi hp => rw [hm] at hi; simp at hi
    case closeOkCatch i m hi hp => rw [hm] at hi; simp at hi
    case closeThrowTry i m hi hp => rw [hm] at hi; simp at hi
    case closeThrowCatch i m hi hp => rw [hm] at hi; simp at hi
    case groupResolve g hg => exact Or.inr ⟨ha, hr, hm, hw, hpc⟩
    case sweepIdle h => exact Or.inr ⟨ha, hr, hm, hw, hpc⟩
    case sweepBegin h => exact Or.inr ⟨ha, hr, hm, hw, hpc⟩
    case sweepStale j now session h1 h2 h3 => rw [hw] at h2; simp at h2
    case sweepFresh j now session h1 h2 h3 => exact Or.inr ⟨ha, hr, hm, hw, hpc⟩
    case sweepEnd h => exact Or.inr ⟨ha, hr, hm, hw, hpc⟩
    case cleanupOk i session hi =>
      refine Or.inr ⟨ha, hr, hm, ?_, hpc⟩
      show setDelete session s.waitingForGroup = []
      rw [hw]; rfl
    case cleanupFail i session hi => exact Or.inr ⟨ha, hr, hm, hw, hpc⟩
    case signal => exact Or.inr ⟨ha, hr, hm, hw, hpc⟩
    case uncaught => exact Or.inr ⟨ha, hr, hm, hw, hpc⟩

theorem guarded_run (cfg : Config) (es : List Event) (s s1 : State) (hG : Guarded s)
    (hrun : run cfg s es = some s1) : Guarded s1 := by
  induction es generalizing s with
  | nil =>
    simp only [run, Option.some.injEq] at hrun
    exact hrun ▸ hG
  | cons e es ih =>
    simp only [run] at hrun
    cases hstep : step cfg s e with
    | none => rw [hstep] at hrun; cases hrun
    | some s2 =>
      rw [hstep] at hrun
      exact ih s2 (guarded_step cfg s s2 e hG (step_sound cfg s e s2 hstep)) hrun

/-- C15 (amended): on an empty identity list `getNextUserAgent` returns the same fixed
default string and leaves the cursor as it is, in `main-local.js` and in `main-turk.js`;
in `main-local.js` it also adds exactly 1 to `stats.errors.browser.total` and changes
nothing else.  The branch is guarded in both files: `loadUserAgents` resolves only with a
non-empty list, and in no reachable state of `main-local.js` can `createBrowserSession`
take an identity (an admission resume from `chromium.launch`) while the list is empty. -/
theorem getNextUserAgent_empty (s : State) (t : Turk.State) (hs : s.userAgents = [])
    (ht : t.userAgents = []) :
    ((getNextUserAgent s).1 = some defaultUserAgent ∧
      (getNextUserAgent s).2.currentUserAgentIndex = s.currentUserAgentIndex ∧
      (getNextUserAgent s).2.stats.browser.total = s.stats.browser.total + 1 ∧
      (getNextUserAgent s).2 = countBrowserError s) ∧
    ((Turk.getNextUserAgent t).1 = (getNextUserAgent s).1 ∧
      (Turk.getNextUserAgent t).2.currentUserAgentIndex = t.currentUserAgentIndex ∧
      (Turk.getNextUserAgent t).2.userAgents = t.userAgents) ∧
    (∀ (cfg : Config) (es : List Event) (s1 s2 : State) (i : Nat),
      run cfg init es = some s1 → step cfg s1 (.launchOk i) = some s2 →
        s1.userAgents ≠ []) ∧
    (∀ (t0 : Turk.State) (o : Turk.LoadOutcome), (Turk.loadUserAgents t0 o).1 = true →
      (Turk.loadUserAgents t0 o).2.userAgents ≠ []) := by
  have hs0 : s.userAgents.length = 0 := by rw [hs]; rfl
  have ht0 : t.userAgents.length = 0 := by rw [ht]; rfl
  refine ⟨?_, ?_, ?_, ?_⟩
  · refine ⟨?_, ?_, ?_, ?_⟩ <;> simp [getNextUserAgent, hs0, countBrowserError]
  · refine ⟨?_, ?_, ?_⟩ <;> simp [getNextUserAgent, Turk.getNextUserAgent, hs0, ht0]
  · intro cfg es s1 s2 i hrun hstep
    have hG : Guarded s1 := guarded_run cfg es init s1
      (Or.inr ⟨rfl, rfl, rfl, rfl, Or.inl rfl⟩) hrun
    rcases hG with ⟨hu, -⟩ | ⟨ha, -, -, -, -⟩
    · exact hu
    · simp [step, ha] at hstep
  · intro t0 o hres
    cases o with
    | openError => simp [Turk.loadUserAgents] at hres
    | queryError => simp [Turk.loadUserAgents] at hres
    | rows rows closeError =>
      by_cases h1 : rows.length = 0
      · simp [Turk.loadUserAgents, h1] at hres
      · intro h
        apply h1
        by_cases h2 : closeError = true
        · simp [Turk.loadUserAgents, h1, h2] at hres
        · simp only [Turk.loadUserAgents, h1, h2, if_false] at h
          have h0 : rows = [] := h
          simp [h0]

/-- Witness of `getNextUserAgent_empty`: the initial states of the two files, whose
identity lists are empty. -/
theorem getNextUserAgent_empty_witness :
    init.userAgents = [] ∧ Turk.init.userAgents = [] ∧
    (getNextUserAgent init).1 = some defaultUserAgent ∧
    (getNextUserAgent init).2.stats.browser.total = init.stats.browser.total + 1 ∧
    (Turk.getNextUserAgent Turk.init).1 = (getNextUserAgent init).1 ∧
    (Turk.getNextUserAgent Turk.init).2.currentUserAgentIndex
      = Turk.init.currentUserAgentIndex :=
  ⟨rfl, rfl,
   (getNextUserAgent_empty init Turk.init rfl rfl).1.1,
   (getNextUserAgent_empty init Turk.init rfl rfl).1.2.2.1,
   (getNextUserAgent_empty init Turk.init rfl rfl).2.1.1,
   (getNextUserAgent_empty init Turk.init rfl rfl).2.1.2.1⟩

/-! ### Navigation targets -/

theorem succ_mod_ne (n L : Nat) (hL : 2 ≤ L) : n % L ≠ (n + 1) % L := by
  have hr : n % L < L := Nat.mod_lt _ (by omega)
  rw [Nat.add_mod]
  have h1 : 1 % L = 1 := Nat.mod_eq_of_lt (by omega)
  rw [h1]
  by_cases hlt : n % L + 1 < L
  · rw [Nat.mod_eq_of_lt hlt]; omega
  · have heq : n % L + 1 = L := by omega
    rw [heq, Nat.mod_self]; omega

theorem toDouble_of_lt (n : Nat) (h : n < 2 ^ 53) : toDouble n = n := by
  unfold toDouble
  have : droppedBits 1024 n = 0 := by
    rw [show (1024 : Nat) = 1023 + 1 from rfl, droppedBits, if_pos h]
  simp [this]

theorem jsAdd_one_of_lt (n : Nat) (h : n < 2 ^ 53) : jsAdd n 1 = n + 1 := by
  unfold jsAdd
  rcases Nat.lt_or_ge (n + 1) (2 ^ 53) with h1 | h1
  · exact toDouble_of_lt _ h1
  · have : n + 1 = 2 ^ 53 := by omega
    rw [this]
    decide

/-- C19 (counterexample): the session id `2 ^ 53` is a double, but `2 ^ 53 + 1` is not: the
sum is rounded back to `2 ^ 53`.  With three URLs both pages are sent to `URLS[2]`: the two
indices are equal. -/
theorem startNewSession_targets_coincide :
    toDouble (2 ^ 53) = 2 ^ 53 ∧ jsAdd (2 ^ 53) 1 = 2 ^ 53 ∧
    startNewSession_targets threeUrls (2 ^ 53) = some (some "u2", some "u2") ∧
    2 ^ 53 % threeUrls.URLS.length = jsAdd (2 ^ 53) 1 % threeUrls.URLS.length := by
  refine ⟨by decide, by decide, by decide, by decide⟩

/-- C19 (amended): with a URL set of length `L < 2` no navigation is attempted.  With
`L ≥ 2` the two pages are sent to `URLS[id mod L]` and `URLS[(id + 1) mod L]`, where
`id + 1` is the sum as a double, and both indices are below `L`.  For every id below
`2 ^ 53` the sum is exact, the second index is `(id + 1) mod L` over the integers, and the
two indices differ. -/
theorem startNewSession_targets_spec (s : State) (sessionId : Nat) :
    (s.URLS.length < 2 → startNewSession_targets s sessionId = none) ∧
    (2 ≤ s.URLS.length →
      ∃ (hi : sessionId % s.URLS.length < s.URLS.length)
        (hj : jsAdd sessionId 1 % s.URLS.length < s.URLS.length),
        startNewSession_targets s sessionId
          = some (some (s.URLS.get ⟨sessionId % s.URLS.length, hi⟩),
                  some (s.URLS.get ⟨jsAdd sessionId 1 % s.URLS.length, hj⟩))) ∧
    (2 ≤ s.URLS.length → sessionId < 2 ^ 53 →
      jsAdd sessionId 1 = sessionId + 1 ∧
      ∃ (hi : sessionId % s.URLS.length < s.URLS.length)
        (hj : (sessionId + 1) % s.URLS.length < s.URLS.length),
        startNewSession_targets s sessionId
          = some (some (s.URLS.get ⟨sessionId % s.URLS.length, hi⟩),
                  some (s.URLS.get ⟨(sessionId + 1) % s.URLS.length, hj⟩)) ∧
        sessionId % s.URLS.length ≠ (sessionId + 1) % s.URLS.length) := by
  refine ⟨?_, ?_, ?_⟩
  · intro h
    unfold startNewSession_targets
    rw [if_neg (by omega)]
  · intro h
    have hi : sessionId % s.URLS.length < s.URLS.length := Nat.mod_lt _ (by omega)
    have hj : jsAdd sessionId 1 % s.URLS.length < s.URLS.length := Nat.mod_lt _ (by omega)
    refine ⟨hi, hj, ?_⟩
    unfold startNewSession_targets
    rw [if_pos h, List.getElem?_eq_getElem hi, List.getElem?_eq_getElem hj]
    rfl
  · intro h hid
    have hadd := jsAdd_one_of_lt sessionId hid
    have hi : sessionId % s.URLS.length < s.URLS.length := Nat.mod_lt _ (by omega)
    have hj : (sessionId + 1) % s.URLS.length < s.URLS.length := Nat.mod_lt _ (by omega)
    refine ⟨hadd, hi, hj, ?_, succ_mod_ne _ _ h⟩
    unfold startNewSession_targets
    rw [if_pos h, hadd, List.getElem?_eq_getElem hi, List.getElem?_eq_getElem hj]
    rfl

/-- Witness of `startNewSession_targets_spec`: with three URLs session 5 is sent to
`URLS[2]` and `URLS[0]`. -/
theorem startNewSession_targets_spec_witness :
    2 ≤ threeUrls.URLS.length ∧ 5 < 2 ^ 53 ∧
    startNewSession_targets threeUrls 5 = some (some "u2", some "u0") ∧
    jsAdd 5 1 = 5 + 1 ∧
    5 % threeUrls.URLS.length ≠ (5 + 1) % threeUrls.URLS.length :=
  ⟨by decide, by decide, by decide,
   ((startNewSession_targets_spec threeUrls 5).2.2 (by decide) (by decide)).1,
   ((startNewSession_targets_spec threeUrls 5).2.2 (by decide) (by decide)).2.2.2.2⟩


/-! ### The proxy of a session -/

theorem lineage_spec (cfg : Config) (proxies : List Turk.ProxyData) (j k : Nat) :
    (Turk.lineage cfg proxies j k).sessionId = j + k * cfg.MAX_SESSIONS ∧
    (Turk.lineage cfg proxies j k).proxyData = proxies[j % proxies.length]? := by
  induction k with
  | zero => simp [Turk.lineage, Turk.main_call]
  | succ k ih =>
    obtain ⟨h1, h2⟩ := ih
    simp only [Turk.lineage, Turk.startNewGroup_replacement, Turk.startNewSession_record,
      Turk.startNewSession_retry, h1, h2]
    exact ⟨by rw [Nat.add_mul, Nat.one_mul, Nat.add_assoc], trivial⟩

/-- C20 (counterexample): with seven proxies and `MAX_SESSIONS = 360`, the replacement of
session 0 is admitted with id 360 and with the proxy of session 0, entry 0 of the list,
whereas `360 mod 7 = 3`. -/
theorem replacement_keeps_proxy_of_predecessor :
    (Turk.lineage Turk.CONFIG sevenProxies 0 1).sessionId = 360 ∧
    (Turk.lineage Turk.CONFIG sevenProxies 0 1).proxyData = sevenProxies[0]? ∧
    (Turk.lineage Turk.CONFIG sevenProxies 0 1).proxyData
      ≠ sevenProxies[(Turk.lineage Turk.CONFIG sevenProxies 0 1).sessionId
          % sevenProxies.length]? := by
  decide

/-- C20 (amended): a session that `main` admits with id `i`, in ramp-up or in the steady
state, is created with `proxies[i mod proxies.length]`, an entry of a non-empty list.  A
retry keeps the proxy of the failed attempt and a replacement takes over the proxy of the
session it replaces: generation `k` of the line started with id `j` has id
`j + k * MAX_SESSIONS` and is created with `proxies[j mod proxies.length]`, which is the
entry at its own id modulo the length whenever `proxies.length` divides `MAX_SESSIONS`. -/
theorem proxy_of_admitted_session (cfg : Config) (proxies : List Turk.ProxyData) (i j k : Nat)
    (hne : proxies ≠ []) :
    (Turk.main_call proxies i).proxyData = proxies[i % proxies.length]? ∧
    (∃ p, p ∈ proxies ∧ (Turk.main_call proxies i).proxyData = some p) ∧
    (Turk.startNewSession_retry (Turk.main_call proxies i)).proxyData
      = (Turk.main_call proxies i).proxyData ∧
    (Turk.lineage cfg proxies j k).sessionId = j + k * cfg.MAX_SESSIONS ∧
    (Turk.lineage cfg proxies j k).proxyData = proxies[j % proxies.length]? ∧
    (proxies.length ∣ cfg.MAX_SESSIONS →
      (Turk.lineage cfg proxies j k).proxyData
        = proxies[(Turk.lineage cfg proxies j k).sessionId % proxies.length]?) := by
  have hpos : 0 < proxies.length := List.length_pos.mpr hne
  have hlt : i % proxies.length < proxies.length := Nat.mod_lt _ hpos
  obtain ⟨h1, h2⟩ := lineage_spec cfg proxies j k
  refine ⟨rfl, ⟨proxies.get ⟨i % proxies.length, hlt⟩, List.get_mem _ _ _, ?_⟩, rfl, h1, h2, ?_⟩
  · simp only [Turk.main_call]
    rw [List.getElem?_eq_getElem hlt]
    rfl
  · rintro ⟨q, hq⟩
    rw [h1, h2, hq]
    have : (j + k * (proxies.length * q)) % proxies.length = j % proxies.length := by
      rw [← Nat.mul_assoc, Nat.mul_comm k, Nat.mul_assoc]
      exact Nat.add_mul_mod_self_left _ _ _
    rw [this]

/-- Witness of `proxy_of_admitted_session`: with seven proxies `main` gives session 10 the
entry `10 mod 7`; with five proxies, whose number divides 360, the second replacement in
the line of session 3 uses the entry at its own id modulo 5. -/
theorem proxy_of_admitted_session_witness :
    sevenProxies ≠ [] ∧
    (Turk.main_call sevenProxies 10).proxyData = sevenProxies[10 % sevenProxies.length]? ∧
    (Turk.main_call sevenProxies 10).proxyData = some ⟨"10.0.0.3", 8000⟩ ∧
    (sevenProxies.take 5).length ∣ Turk.CONFIG.MAX_SESSIONS ∧
    (Turk.lineage Turk.CONFIG (sevenProxies.take 5) 3 2).proxyData
      = (sevenProxies.take 5)[(Turk.lineage Turk.CONFIG (sevenProxies.take 5) 3 2).sessionId
          % (sevenProxies.take 5).length]? :=
  ⟨by decide,
   (proxy_of_admitted_session Turk.CONFIG sevenProxies 10 0 1 (by decide)).1,
   by decide, by decide,
   (proxy_of_admitted_session Turk.CONFIG (sevenProxies.take 5) 0 3 2 (by decide)).2.2.2.2.2
     (by decide)⟩


/-! ### The target URL set -/

theorem fetchRecentPosts_loop_pages (source : Nat → Response) :
    ∀ (rest : List (List String)) (fuel page : Nat) (acc : List String) (req : Nat),
      (∀ i (h : i < rest.length), source (page + i) = .data (some (rest.get ⟨i, h⟩))) →
      (∀ l ∈ rest, l ≠ []) → acc.length < REQUIRED_URLS → rest.length < fuel →
      fetchRecentPosts_loop source fuel page acc req =
        if (acc ++ rest.flatMap nonVideoLinks).length < REQUIRED_URLS then
          fetchRecentPosts_loop source (fuel - rest.length) (page + rest.length)
            (acc ++ rest.flatMap nonVideoLinks) (req + rest.length)
        else
          some ⟨(acc ++ rest.flatMap nonVideoLinks).take REQUIRED_URLS,
            req + pagesNeeded acc rest⟩ := by
  intro rest
  induction rest with
  | nil =>
    intro fuel page acc req _ _ hacc _
    simp [hacc]
  | cons l ls ih =>
    intro fuel page acc req hsrc hne hacc hfuel
    obtain ⟨f, rfl⟩ : ∃ f, fuel = f + 1 := ⟨fuel - 1, by simp at hfuel; omega⟩
    have h0 : source page = .data (some l) := by
      have := hsrc 0 (by simp)
      simpa using this
    have hl : l.length ≠ 0 := by
      have := hne l (by simp)
      intro h
      exact this (List.length_eq_zero.mp h)
    rw [fetchRecentPosts_loop, if_pos hacc, h0]
    simp only [if_neg hl]
    by_cases hfull : REQUIRED_URLS ≤ (acc ++ nonVideoLinks l).length
    · rw [if_pos hfull]
      have hnot : ¬ (acc ++ (l :: ls).flatMap nonVideoLinks).length < REQUIRED_URLS := by
        simp only [List.flatMap_cons, List.length_append] at hfull ⊢
        omega
      rw [if_neg hnot]
      have htake : (acc ++ (l :: ls).flatMap nonVideoLinks).take REQUIRED_URLS =
          (acc ++ nonVideoLinks l).take REQUIRED_URLS := by
        rw [List.flatMap_cons, ← List.append_assoc]
        exact List.take_append_of_le_length hfull
      rw [htake, pagesNeeded, if_pos hfull]
    · rw [if_neg hfull]
      have hsrc1 : ∀ i (h : i < ls.length),
          source (page + 1 + i) = .data (some (ls.get ⟨i, h⟩)) := by
        intro i h
        have := hsrc (i + 1) (by simp; omega)
        rw [show page + 1 + i = page + (i + 1) by omega, this]
        simp
      have hne1 : ∀ l1 ∈ ls, l1 ≠ [] := fun l1 h1 => hne l1 (List.mem_cons_of_mem _ h1)
      have hf1 : ls.length < f := by simp at hfuel; omega
      rw [ih f (page + 1) (acc ++ nonVideoLinks l) (req + 1) hsrc1 hne1 (by omega) hf1]
      simp only [List.flatMap_cons, List.append_assoc, List.length_cons, pagesNeeded,
        if_neg hfull]
      rw [show f + 1 - (ls.length + 1) = f - ls.length by omega,
        show page + 1 + ls.length = page + (ls.length + 1) by omega,
        show req + 1 + ls.length = req + (ls.length + 1) by omega,
        show req + 1 + pagesNeeded (acc ++ nonVideoLinks l) ls =
          req + (1 + pagesNeeded (acc ++ nonVideoLinks l) ls) by omega]

theorem sourceOf_page (pages : List (List String)) (last : Response) (i : Nat)
    (h : i < pages.length) : sourceOf pages last (1 + i) = .data (some (pages.get ⟨i, h⟩)) := by
  rw [show 1 + i = i + 1 by omega, sourceOf]
  simp [List.getElem?_eq_getElem h]

theorem sourceOf_last (pages : List (List String)) (last : Response) :
    sourceOf pages last (1 + pages.length) = last := by
  rw [show 1 + pages.length = pages.length + 1 by omega, sourceOf]
  simp

theorem pagesNeeded_le (rest : List (List String)) :
    ∀ acc : List String, pagesNeeded acc rest ≤ rest.length := by
  induction rest with
  | nil => intro acc; simp [pagesNeeded]
  | cons l ls ih =>
    intro acc
    simp only [pagesNeeded, List.length_cons]
    split
    · omega
    · have := ih (acc ++ nonVideoLinks l); omega

theorem pagesNeeded_pos (rest : List (List String)) (acc : List String) (h : rest ≠ []) :
    1 ≤ pagesNeeded acc rest := by
  cases rest with
  | nil => exact absurd rfl h
  | cons l ls =>
    simp only [pagesNeeded]
    split <;> omega

/-- Before the last page that `pagesNeeded` counts, fewer than `REQUIRED_URLS` links have
been accumulated; with it, at least `REQUIRED_URLS` if the pages hold that many. -/
theorem pagesNeeded_spec (rest : List (List String)) :
    ∀ acc : List String, acc.length < REQUIRED_URLS →
      (acc ++ (rest.take (pagesNeeded acc rest - 1)).flatMap nonVideoLinks).length
          < REQUIRED_URLS ∧
      (REQUIRED_URLS ≤ (acc ++ rest.flatMap nonVideoLinks).length →
        (acc ++ rest.flatMap nonVideoLinks).take REQUIRED_URLS =
          (acc ++ (rest.take (pagesNeeded acc rest)).flatMap nonVideoLinks).take
            REQUIRED_URLS) := by
  induction rest with
  | nil => intro acc hacc; simp [pagesNeeded, hacc]
  | cons l ls ih =>
    intro acc hacc
    simp only [pagesNeeded]
    by_cases hfull : REQUIRED_URLS ≤ (acc ++ nonVideoLinks l).length
    · rw [if_pos hfull]
      refine ⟨by simpa using hacc, fun _ => ?_⟩
      simp only [List.take_succ_cons, List.take_zero, List.flatMap_cons, List.flatMap_nil,
        List.append_nil]
      rw [← List.append_assoc]
      exact List.take_append_of_le_length hfull
    · rw [if_neg hfull]
      obtain ⟨h1, h2⟩ := ih (acc ++ nonVideoLinks l) (by omega)
      have hpos : pagesNeeded (acc ++ nonVideoLinks l) ls = 0 ∨
          1 ≤ pagesNeeded (acc ++ nonVideoLinks l) ls := by omega
      constructor
      · rcases hpos with h0 | hp
        · rw [h0]; simpa using hacc
        · rw [show 1 + pagesNeeded (acc ++ nonVideoLinks l) ls - 1 =
            (pagesNeeded (acc ++ nonVideoLinks l) ls - 1) + 1 by omega]
          simpa [List.flatMap_cons, List.append_assoc] using h1
      · intro hge
        rw [show 1 + pagesNeeded (acc ++ nonVideoLinks l) ls =
            pagesNeeded (acc ++ nonVideoLinks l) ls + 1 by omega]
        simpa [List.flatMap_cons, List.append_assoc] using
          h2 (by simpa [List.flatMap_cons, List.append_assoc] using hge)

theorem includesVideo_iff (link : String) :
    includesVideo link = true ↔ ∃ a b, link.toList = a ++ "/video/".toList ++ b := by
  unfold includesVideo
  rw [List.any_eq_true]
  constructor
  · rintro ⟨t, ht, hp⟩
    rw [List.mem_tails] at ht
    rw [ List.isPrefixOf_iff_prefix] at hp
    obtain ⟨a, ha⟩ := ht
    obtain ⟨b, hb⟩ := hp
    exact ⟨a, b, by rw [← ha, ← hb, List.append_assoc]⟩
  · rintro ⟨a, b, h⟩
    refine ⟨"/video/".toList ++ b, ?_, ?_⟩
    · rw [List.mem_tails]
      exact ⟨a, by rw [h, List.append_assoc]⟩
    · rw [ List.isPrefixOf_iff_prefix]
      exact ⟨b, rfl⟩

theorem not_includesVideo_of_mem_nonVideoLinks (pages : List (List String)) (u : String)
    (h : u ∈ pages.flatMap nonVideoLinks) : includesVideo u = false := by
  rw [List.mem_flatMap] at h
  obtain ⟨l, _, hu⟩ := h
  unfold nonVideoLinks at hu
  rw [List.mem_filter] at hu
  simpa using hu.2

/-- What `fetchRecentPosts` returns when the source serves `pages`, none of them empty, and
then answers with `last`, in terms of the loop state in which `last` arrives. -/
theorem fetchRecentPosts_pages (pages : List (List String)) (last : Response) (fuel : Nat)
    (hne : ∀ links ∈ pages, links ≠ []) (hfuel : pages.length < fuel) :
    fetchRecentPosts (sourceOf pages last) fuel =
      if (pages.flatMap nonVideoLinks).length < REQUIRED_URLS then
        fetchRecentPosts_loop (sourceOf pages last) (fuel - pages.length) (1 + pages.length)
          (pages.flatMap nonVideoLinks) pages.length
      else
        some ⟨(pages.flatMap nonVideoLinks).take REQUIRED_URLS, pagesNeeded [] pages⟩ := by
  unfold fetchRecentPosts
  rw [fetchRecentPosts_loop_pages (sourceOf pages last) pages fuel 1 [] 0
    (fun i h => sourceOf_page pages last i h) hne (by decide) hfuel]
  simp

/-- C17: when the content source serves the pages `pages` (none of them empty) and then
an empty page, and no request fails, `fetchRecentPosts` returns, whatever the fuel beyond
one iteration per page served. It has then requested the pages `1` to `requests`, and the
array it returns is the first `min(10, n)` links, in source order, of the links of the
pages read that do not contain `/video/`, `n` being their number; this is also the first
ten non-video links of the whole sequence. The array has at most 10 entries, none of them
contains `/video/`, and the pages before the last one requested had yielded fewer than 10
links: no page is requested once 10 links are held. -/
theorem fetchRecentPosts_spec (pages : List (List String)) (fuel : Nat)
    (hne : ∀ links ∈ pages, links ≠ []) (hfuel : pages.length < fuel) :
    ∃ r, fetchRecentPosts (sourceOf pages (.data (some []))) fuel = some r ∧
      1 ≤ r.requests ∧ r.requests ≤ pages.length + 1 ∧
      r.urls = ((pages.take r.requests).flatMap nonVideoLinks).take REQUIRED_URLS ∧
      r.urls.length =
        min 10 ((pages.take r.requests).flatMap nonVideoLinks).length ∧
      r.urls = (pages.flatMap nonVideoLinks).take REQUIRED_URLS ∧
      r.urls.length ≤ 10 ∧
      (∀ u ∈ r.urls, ¬ ∃ a b, u.toList = a ++ "/video/".toList ++ b) ∧
      ((pages.take (r.requests - 1)).flatMap nonVideoLinks).length < 10 := by
  have hvideo : ∀ u ∈ (pages.flatMap nonVideoLinks).take REQUIRED_URLS,
      ¬ ∃ a b, u.toList = a ++ "/video/".toList ++ b := by
    intro u hu hex
    have h1 := not_includesVideo_of_mem_nonVideoLinks pages u (List.mem_of_mem_take hu)
    rw [(includesVideo_iff u).mpr hex] at h1
    exact Bool.noConfusion h1
  rw [fetchRecentPosts_pages pages _ fuel hne hfuel]
  by_cases hfew : (pages.flatMap nonVideoLinks).length < REQUIRED_URLS
  · obtain ⟨f, hf⟩ : ∃ f, fuel - pages.length = f + 1 := ⟨fuel - pages.length - 1, by omega⟩
    rw [if_pos hfew, hf, fetchRecentPosts_loop, if_pos hfew, sourceOf_last]
    have hall : (pages.flatMap nonVideoLinks).take REQUIRED_URLS =
        pages.flatMap nonVideoLinks := List.take_of_length_le (by omega)
    refine ⟨_, rfl, ?_, ?_, ?_, ?_, ?_, ?_, ?_, ?_⟩
    · show 1 ≤ pages.length + 1
      omega
    · show pages.length + 1 ≤ pages.length + 1
      omega
    · show pages.flatMap nonVideoLinks =
        ((pages.take (pages.length + 1)).flatMap nonVideoLinks).take REQUIRED_URLS
      rw [List.take_of_length_le (Nat.le_succ _), hall]
    · show (pages.flatMap nonVideoLinks).length =
        min 10 ((pages.take (pages.length + 1)).flatMap nonVideoLinks).length
      rw [List.take_of_length_le (Nat.le_succ _)]
      have : (pages.flatMap nonVideoLinks).length < 10 := hfew
      omega
    · exact hall.symm
    · show (pages.flatMap nonVideoLinks).length ≤ 10
      exact Nat.le_of_lt hfew
    · intro u hu
      exact hvideo u (by rw [hall]; exact hu)
    · show ((pages.take (pages.length + 1 - 1)).flatMap nonVideoLinks).length < 10
      rw [Nat.add_sub_cancel, List.take_of_length_le (Nat.le_refl _)]
      exact hfew
  · rw [if_neg hfew]
    have hge : REQUIRED_URLS ≤ ([] ++ pages.flatMap nonVideoLinks).length := by
      simpa using hfew
    have hpages : pages ≠ [] := by
      rintro rfl
      exact hfew (by decide)
    obtain ⟨h1, h2⟩ := pagesNeeded_spec pages [] (by decide)
    have h2 := h2 hge
    simp only [List.nil_append] at h1 h2
    refine ⟨_, rfl, pagesNeeded_pos pages [] hpages,
      Nat.le_succ_of_le (pagesNeeded_le pages []), h2, ?_, rfl, ?_, hvideo, h1⟩
    · show ((pages.flatMap nonVideoLinks).take REQUIRED_URLS).length = _
      rw [h2, List.length_take]
      rfl
    · show ((pages.flatMap nonVideoLinks).take REQUIRED_URLS).length ≤ 10
      rw [List.length_take]
      exact Nat.min_le_left _ _

/-- Witness of `fetchRecentPosts_spec`: two pages of six links each, one of them a video
link on the first page; the first ten non-video links are returned after two requests. -/
theorem fetchRecentPosts_spec_witness :
    (∀ links ∈ twoPages, links ≠ []) ∧ twoPages.length < 3 ∧
    fetchRecentPosts (sourceOf twoPages (.data (some []))) 3 =
      some ⟨["a1", "a2", "a3", "a4", "a5", "b1", "b2", "b3", "b4", "b5"], 2⟩ ∧
    ∃ r, fetchRecentPosts (sourceOf twoPages (.data (some []))) 3 = some r ∧
      1 ≤ r.requests ∧ r.requests ≤ twoPages.length + 1 ∧
      r.urls = ((twoPages.take r.requests).flatMap nonVideoLinks).take REQUIRED_URLS ∧
      r.urls.length =
        min 10 ((twoPages.take r.requests).flatMap nonVideoLinks).length ∧
      r.urls = (twoPages.flatMap nonVideoLinks).take REQUIRED_URLS ∧
      r.urls.length ≤ 10 ∧
      (∀ u ∈ r.urls, ¬ ∃ a b, u.toList = a ++ "/video/".toList ++ b) ∧
      ((twoPages.take (r.requests - 1)).flatMap nonVideoLinks).length < 10 :=
  ⟨by decide, by decide, by decide,
    fetchRecentPosts_spec twoPages 3 (by decide) (by decide)⟩

/-- C16 (counterexample): with `URLS = ["u0", "u1", "u2"]`, a refresh whose first request
throws makes `fetchRecentPosts` return `[]`, and `URLS = await fetchRecentPosts()` leaves
`URLS` empty: the set held before the refresh is not kept. -/
theorem failed_refresh_empties_URLS :
    threeUrls.URLS = ["u0", "u1", "u2"] ∧
    fetchRecentPosts (sourceOf [] .failure) 1 = some ⟨[], 1⟩ ∧
    (fetchRecentPosts (sourceOf [] .failure) 1).map
      (fun r => (scheduleURLFetch_assign threeUrls r.urls).URLS) = some [] ∧
    (step CONFIG threeUrls (.urlFetch [])).map (fun s => s.URLS) = some [] ∧
    (scheduleURLFetch_assign threeUrls []).URLS ≠ threeUrls.URLS := by
  refine ⟨rfl, by decide, by decide, rfl, by decide⟩

/-- C16 (amended): when the content source serves the pages `pages` (none of them empty,
together fewer than 10 non-video links, so that a further page is requested) and the next
request throws, `fetchRecentPosts` returns the empty array after `pages.length + 1`
requests, dropping the links accumulated so far, and the refresh step of
`scheduleURLFetch` assigns it: afterwards `URLS` is empty, whatever it held before, and
nothing else of the state has changed. -/
theorem failed_refresh_clears_URLS (cfg : Config) (s : State) (pages : List (List String))
    (fuel : Nat) (hne : ∀ links ∈ pages, links ≠ [])
    (hfew : (pages.flatMap nonVideoLinks).length < REQUIRED_URLS)
    (hfuel : pages.length < fuel) (hpc : s.mainPc ≠ .loading) :
    ∃ r, fetchRecentPosts (sourceOf pages .failure) fuel = some r ∧
      r.urls = [] ∧ r.requests = pages.length + 1 ∧
      step cfg s (.urlFetch r.urls) = some (scheduleURLFetch_assign s r.urls) ∧
      (scheduleURLFetch_assign s r.urls).URLS = [] ∧
      scheduleURLFetch_assign s r.urls = { s with URLS := [] } := by
  obtain ⟨f, hf⟩ : ∃ f, fuel - pages.length = f + 1 := ⟨fuel - pages.length - 1, by omega⟩
  rw [fetchRecentPosts_pages pages _ fuel hne hfuel, if_pos hfew, hf, fetchRecentPosts_loop,
    if_pos hfew, sourceOf_last]
  refine ⟨_, rfl, rfl, rfl, ?_, rfl, rfl⟩
  show step cfg s (.urlFetch []) = some (scheduleURLFetch_assign s [])
  simp [step, hpc, scheduleURLFetch_assign]

/-- Witness of `failed_refresh_clears_URLS`: one page of five non-video links is served,
then the second request throws; `URLS` held three links before. -/
theorem failed_refresh_clears_URLS_witness :
    (∀ links ∈ twoPages.take 1, links ≠ []) ∧
    ((twoPages.take 1).flatMap nonVideoLinks).length < REQUIRED_URLS ∧
    (twoPages.take 1).length < 2 ∧ threeUrls.mainPc ≠ .loading ∧
    threeUrls.URLS = ["u0", "u1", "u2"] ∧
    ∃ r, fetchRecentPosts (sourceOf (twoPages.take 1) .failure) 2 = some r ∧
      r.urls = [] ∧ r.requests = (twoPages.take 1).length + 1 ∧
      step CONFIG threeUrls (.urlFetch r.urls) =
        some (scheduleURLFetch_assign threeUrls r.urls) ∧
      (scheduleURLFetch_assign threeUrls r.urls).URLS = [] ∧
      scheduleURLFetch_assign threeUrls r.urls = { threeUrls with URLS := [] } :=
  ⟨by decide, by decide, by decide, by decide, rfl,
    failed_refresh_clears_URLS CONFIG threeUrls (twoPages.take 1) 2 (by decide) (by decide)
      (by decide) (by decide)⟩


/-! ### Ramp-up -/

theorem takeWhile_lt_range' (M : Nat) : ∀ (n a : Nat),
    (List.range' a n).takeWhile (fun x => decide (x < M)) = List.range' a (min n (M - a)) := by
  intro n
  induction n with
  | zero => intro a; simp
  | succ n ih =>
    intro a
    rw [List.range'_succ, List.takeWhile_cons]
    by_cases h : a < M
    · rw [show min (n + 1) (M - a) = min n (M - (a + 1)) + 1 by omega, List.range'_succ]
      simp [h, ih]
    · rw [show min (n + 1) (M - a) = 0 by omega]
      simp [h]

/-- The inner `for` loop of ramp-up visits the ids from `batchStart` on, `BATCH_SIZE` of
them unless `MAX_SESSIONS` comes first. -/
theorem batchIds_eq_range' (cfg : Config) (batchStart : Nat) :
    batchIds cfg batchStart =
      List.range' batchStart (min BATCH_SIZE (cfg.MAX_SESSIONS - batchStart)) := by
  unfold batchIds
  rw [← List.range'_eq_map_range, takeWhile_lt_range']

theorem flatMap_batchIds (cfg : Config) (k : Nat) :
    (List.range k).flatMap (fun batch => batchIds cfg (batch * BATCH_SIZE)) =
      List.range (min (k * BATCH_SIZE) cfg.MAX_SESSIONS) := by
  induction k with
  | zero => simp
  | succ k ih =>
    rw [List.range_succ, List.flatMap_append, ih, List.flatMap_singleton, batchIds_eq_range',
      List.range_eq_range', List.range_eq_range']
    by_cases h : k * BATCH_SIZE ≤ cfg.MAX_SESSIONS
    · rw [show min (k * BATCH_SIZE) cfg.MAX_SESSIONS = k * BATCH_SIZE by omega]
      have := @List.range'_append 0 (k * BATCH_SIZE)
        (min BATCH_SIZE (cfg.MAX_SESSIONS - k * BATCH_SIZE)) 1
      simp only [Nat.one_mul, Nat.zero_add] at this
      rw [this]
      congr 1
      simp only [BATCH_SIZE] at h ⊢
      omega
    · rw [show min BATCH_SIZE (cfg.MAX_SESSIONS - k * BATCH_SIZE) = 0 by omega]
      simp only [List.range'_zero, List.append_nil]
      congr 1
      simp only [BATCH_SIZE] at h ⊢
      omega

theorem batches_spec (cfg : Config) :
    cfg.MAX_SESSIONS ≤ batches cfg * BATCH_SIZE ∧
    (batches cfg * BATCH_SIZE < cfg.MAX_SESSIONS + BATCH_SIZE) := by
  unfold batches BATCH_SIZE
  omega

/-- C18: the ramp-up loop of `main` runs `batches = ceil(MAX_SESSIONS / 50)` iterations,
and the ids of the successive batches, put end to end, are `0, 1, ..., MAX_SESSIONS - 1`:
every id below `MAX_SESSIONS` is in exactly one batch, in ascending order. Every batch
has at most 50 ids, and every batch but the last has exactly 50. When `main` resumes at
the head of iteration `batch` with no shutdown requested, it runs that batch if
`batch < batches` and leaves ramp-up otherwise; running the batch puts each of its ids
into `sessionsInProgress` and issues one admission for each, in batch order, every one of
which passes the gate of `startNewSession`. -/
theorem ramp_up_partitions (cfg : Config) (s : State) (clock : List Nat) (batch : Nat)
    (hpc : s.mainPc = .ramp batch) (hblocked : mainBlocked s = false)
    (hsd : s.isShuttingDown = false) :
    (cfg.MAX_SESSIONS ≤ batches cfg * 50 ∧ batches cfg * 50 < cfg.MAX_SESSIONS + 50) ∧
    (List.range (batches cfg)).flatMap (fun b => batchIds cfg (b * BATCH_SIZE)) =
      List.range cfg.MAX_SESSIONS ∧
    (∀ b, (batchIds cfg (b * BATCH_SIZE)).length ≤ 50) ∧
    (∀ b, b + 1 < batches cfg → (batchIds cfg (b * BATCH_SIZE)).length = 50) ∧
    step cfg s (.mainStep clock) =
      some (if batch < batches cfg then
        { main_rampBatch cfg s batch with mainPc := .ramp (batch + 1) }
      else { s with mainPc := .steadyTimer }) ∧
    (main_rampBatch cfg s batch).admissions =
      s.admissions ++ (batchIds cfg (batch * BATCH_SIZE)).map
        (fun x => { id := x, awaited := true, stage := .launching }) ∧
    (main_rampBatch cfg s batch).totalActiveSessions =
      s.totalActiveSessions + ((batchIds cfg (batch * BATCH_SIZE)).length : Int) ∧
    (∀ x, x ∈ (main_rampBatch cfg s batch).sessionsInProgress ↔
      x ∈ s.sessionsInProgress ∨ x ∈ batchIds cfg (batch * BATCH_SIZE)) := by
  have hb := batches_spec cfg
  obtain ⟨_, f2, f3, f4, _, _, _⟩ :=
    foldl_registerAndStart_running cfg (batchIds cfg (batch * BATCH_SIZE)) s hsd
  refine ⟨by simpa [BATCH_SIZE] using hb, ?_, ?_, ?_, ?_, f4, f2, ?_⟩
  · rw [flatMap_batchIds]
    congr 1
    omega
  · intro b
    rw [batchIds_eq_range', List.length_range']
    simp only [BATCH_SIZE]
    omega
  · intro b hlt
    rw [batchIds_eq_range', List.length_range']
    simp only [BATCH_SIZE] at hb ⊢
    omega
  · show main_resume cfg s clock = _
    unfold main_resume
    rw [hpc]
    simp only [hblocked, hsd, Bool.false_eq_true, if_false]
    split
    · rfl
    · simp [main_whileHead, hsd]
  · intro x
    show x ∈ ((batchIds cfg (batch * BATCH_SIZE)).foldl (registerAndStart cfg)
      s).sessionsInProgress ↔ _
    rw [f3, mem_foldl_setAdd]

/-- Witness of `ramp_up_partitions`: the first iteration of ramp-up with
`MAX_SESSIONS = 150`, which are three batches of 50. -/
theorem ramp_up_partitions_witness :
    threeAgents.mainPc = .ramp 0 ∧ mainBlocked threeAgents = false ∧
    threeAgents.isShuttingDown = false ∧ batches CONFIG = 3 ∧
    batchIds CONFIG (2 * BATCH_SIZE) = List.range' 100 50 ∧
    ((CONFIG.MAX_SESSIONS ≤ batches CONFIG * 50 ∧
        batches CONFIG * 50 < CONFIG.MAX_SESSIONS + 50) ∧
    (List.range (batches CONFIG)).flatMap (fun b => batchIds CONFIG (b * BATCH_SIZE)) =
      List.range CONFIG.MAX_SESSIONS ∧
    (∀ b, (batchIds CONFIG (b * BATCH_SIZE)).length ≤ 50) ∧
    (∀ b, b + 1 < batches CONFIG → (batchIds CONFIG (b * BATCH_SIZE)).length = 50) ∧
    step CONFIG threeAgents (.mainStep []) =
      some (if 0 < batches CONFIG then
        { main_rampBatch CONFIG threeAgents 0 with mainPc := .ramp (0 + 1) }
      else { threeAgents with mainPc := .steadyTimer }) ∧
    (main_rampBatch CONFIG threeAgents 0).admissions =
      threeAgents.admissions ++ (batchIds CONFIG (0 * BATCH_SIZE)).map
        (fun x => { id := x, awaited := true, stage := .launching }) ∧
    (main_rampBatch CONFIG threeAgents 0).totalActiveSessions =
      threeAgents.totalActiveSessions + ((batchIds CONFIG (0 * BATCH_SIZE)).length : Int) ∧
    (∀ x, x ∈ (main_rampBatch CONFIG threeAgents 0).sessionsInProgress ↔
      x ∈ threeAgents.sessionsInProgress ∨ x ∈ batchIds CONFIG (0 * BATCH_SIZE))) :=
  ⟨rfl, rfl, rfl, by decide, by decide,
    ramp_up_partitions CONFIG threeAgents [] 0 rfl rfl rfl⟩


/-! ### Calls that register their id first -/

/-- C21: at the four call sites that register the id first (the two loops of `main` and
the two replacement calls of the per-member handler of `startNewGroup`), the registration
and the call are one synchronous stretch, and while `isShuttingDown` is false the call
passes the gate whatever `totalActiveSessions` and `sessionsInProgress` hold: the id is in
`sessionsInProgress`, `totalActiveSessions` and `stats.sessionsOpened` grow by 1, and one
creation is awaited at `chromium.launch`.  A ramp-up batch and a top-up admit every id
they visit. -/
theorem registered_calls_pass_gate (cfg : Config) (s : State) (sessionId batch : Nat)
    (session : Session) (clock : List Nat) (hsd : s.isShuttingDown = false) :
    (¬ gateRejects cfg { s with sessionsInProgress := setAdd sessionId s.sessionsInProgress }
        sessionId) ∧
    ((registerAndStart cfg s sessionId).admissions
        = s.admissions ++ [{ id := sessionId, awaited := true, stage := .launching }] ∧
      (registerAndStart cfg s sessionId).totalActiveSessions = s.totalActiveSessions + 1 ∧
      (registerAndStart cfg s sessionId).stats.sessionsOpened = s.stats.sessionsOpened + 1 ∧
      sessionId ∈ (registerAndStart cfg s sessionId).sessionsInProgress) ∧
    ((main_rampBatch cfg s batch).admissions
        = s.admissions ++ (batchIds cfg (batch * BATCH_SIZE)).map
            (fun x => { id := x, awaited := true, stage := .launching }) ∧
      (main_rampBatch cfg s batch).totalActiveSessions
        = s.totalActiveSessions + ((batchIds cfg (batch * BATCH_SIZE)).length : Int)) ∧
    ((main_topUp cfg s clock).admissions
        = s.admissions ++ (topUpIds ((cfg.MAX_SESSIONS : Int) - occupancy s).toNat clock).map
            (fun x => { id := x, awaited := true, stage := .launching }) ∧
      (main_topUp cfg s clock).totalActiveSessions
        = s.totalActiveSessions + (((cfg.MAX_SESSIONS : Int) - occupancy s).toNat : Int)) ∧
    ((member_afterRun cfg s session).admissions
        = s.admissions ++ [{ id := session.id + cfg.MAX_SESSIONS, awaited := false,
                             stage := .launching }] ∧
      (member_afterRun cfg s session).totalActiveSessions = s.totalActiveSessions + 1 ∧
      session.id + cfg.MAX_SESSIONS ∈ (member_afterRun cfg s session).sessionsInProgress) ∧
    ((member_catchRest cfg s session).admissions
        = s.admissions ++ [{ id := session.id + cfg.MAX_SESSIONS, awaited := false,
                             stage := .launching }] ∧
      (member_catchRest cfg s session).totalActiveSessions = s.totalActiveSessions - 1 + 1 ∧
      session.id + cfg.MAX_SESSIONS ∈ (member_catchRest cfg s session).sessionsInProgress) := by
  have hlen : ∀ n, (topUpIds n clock).length = n := by
    intro n; simp [topUpIds]
  refine ⟨?_, ?_, ?_, ?_, ?_, ?_⟩
  · rintro (h | ⟨h, -⟩)
    · rw [show s.isShuttingDown = false from hsd] at h; cases h
    · exact h (mem_setAdd_self _ _)
  · unfold registerAndStart
    rw [startNewSession_pass]
    · exact ⟨rfl, rfl, rfl, mem_setAdd_self _ _⟩
    · exact hsd
    · exact mem_setAdd_self _ _
  · obtain ⟨-, f2, -, f4, -, -, -⟩ :=
      foldl_registerAndStart_running cfg (batchIds cfg (batch * BATCH_SIZE)) s hsd
    exact ⟨f4, f2⟩
  · unfold main_topUp occupancy
    dsimp only
    split_ifs with hlt
    · obtain ⟨-, f2, -, f4, -, -, -⟩ := foldl_registerAndStart_running cfg
        (topUpIds (↑cfg.MAX_SESSIONS
          - (s.totalActiveSessions + ↑s.sessionsInProgress.length)).toNat clock) s hsd
      exact ⟨f4, by rw [f2, hlen]⟩
    · have h0 : ((cfg.MAX_SESSIONS : Int)
          - (s.totalActiveSessions + ↑s.sessionsInProgress.length)).toNat = 0 := by omega
      rw [h0]
      simp [topUpIds]
  · unfold member_afterRun
    dsimp only
    rw [if_pos hsd, startNewSession_pass]
    · exact ⟨rfl, rfl, mem_setAdd_self _ _⟩
    · exact hsd
    · exact mem_setAdd_self _ _
  · unfold member_catchRest
    dsimp only
    rw [if_pos hsd, startNewSession_pass]
    · exact ⟨rfl, rfl, mem_setAdd_self _ _⟩
    · exact hsd
    · exact mem_setAdd_self _ _

/-- Witness of `registered_calls_pass_gate`: with `MAX_SESSIONS = 150`, a state whose
occupancy sum is 1002 rejects the call for the unregistered id 9 and admits it once it
is registered. -/
theorem registered_calls_pass_gate_witness :
    crowded.isShuttingDown = false ∧ occupancy crowded = 1002 ∧
    startNewSession CONFIG crowded 9 true = crowded ∧
    ((¬ gateRejects CONFIG
        { crowded with sessionsInProgress := setAdd 9 crowded.sessionsInProgress } 9) ∧
    ((registerAndStart CONFIG crowded 9).admissions
        = crowded.admissions ++ [{ id := 9, awaited := true, stage := .launching }] ∧
      (registerAndStart CONFIG crowded 9).totalActiveSessions
        = crowded.totalActiveSessions + 1 ∧
      (registerAndStart CONFIG crowded 9).stats.sessionsOpened
        = crowded.stats.sessionsOpened + 1 ∧
      9 ∈ (registerAndStart CONFIG crowded 9).sessionsInProgress) ∧
    ((main_rampBatch CONFIG crowded 0).admissions
        = crowded.admissions ++ (batchIds CONFIG (0 * BATCH_SIZE)).map
            (fun x => { id := x, awaited := true, stage := .launching }) ∧
      (main_rampBatch CONFIG crowded 0).totalActiveSessions
        = crowded.totalActiveSessions + ((batchIds CONFIG (0 * BATCH_SIZE)).length : Int)) ∧
    ((main_topUp CONFIG crowded []).admissions
        = crowded.admissions
          ++ (topUpIds ((CONFIG.MAX_SESSIONS : Int) - occupancy crowded).toNat []).map
            (fun x => { id := x, awaited := true, stage := .launching }) ∧
      (main_topUp CONFIG crowded []).totalActiveSessions
        = crowded.totalActiveSessions
          + (((CONFIG.MAX_SESSIONS : Int) - occupancy crowded).toNat : Int)) ∧
    ((member_afterRun CONFIG crowded ⟨0, 3, 0, 0⟩).admissions
        = crowded.admissions ++ [{ id := (⟨0, 3, 0, 0⟩ : Session).id + CONFIG.MAX_SESSIONS,
                                   awaited := false, stage := .launching }] ∧
      (member_afterRun CONFIG crowded ⟨0, 3, 0, 0⟩).totalActiveSessions
        = crowded.totalActiveSessions + 1 ∧
      (⟨0, 3, 0, 0⟩ : Session).id + CONFIG.MAX_SESSIONS
        ∈ (member_afterRun CONFIG crowded ⟨0, 3, 0, 0⟩).sessionsInProgress) ∧
    ((member_catchRest CONFIG crowded ⟨0, 3, 0, 0⟩).admissions
        = crowded.admissions ++ [{ id := (⟨0, 3, 0, 0⟩ : Session).id + CONFIG.MAX_SESSIONS,
                                   awaited := false, stage := .launching }] ∧
      (member_catchRest CONFIG crowded ⟨0, 3, 0, 0⟩).totalActiveSessions
        = crowded.totalActiveSessions - 1 + 1 ∧
      (⟨0, 3, 0, 0⟩ : Session).id + CONFIG.MAX_SESSIONS
        ∈ (member_catchRest CONFIG crowded ⟨0, 3, 0, 0⟩).sessionsInProgress)) :=
  ⟨rfl, by decide, by decide,
    registered_calls_pass_gate CONFIG crowded 9 0 ⟨0, 3, 0, 0⟩ [] rfl⟩

/-! ### What `totalActiveSessions` counts -/

theorem length_setDelete_le {α : Type} [DecidableEq α] (x : α) (l : List α) :
    (setDelete x l).length ≤ l.length :=
  List.length_filter_le _ _

theorem length_setDelete_of_mem {α : Type} [DecidableEq α] (x : α) (l : List α) (h : x ∈ l) :
    (setDelete x l).length + 1 ≤ l.length := by
  induction l with
  | nil => cases h
  | cons y ys ih =>
    have hle := length_setDelete_le x ys
    unfold setDelete at ih hle ⊢
    by_cases hy : y = x
    · have hf : (y :: ys).filter (fun z => decide (z ≠ x))
          = ys.filter (fun z => decide (z ≠ x)) := by
        rw [List.filter_cons]
        simp [hy]
      rw [hf, List.length_cons]
      omega
    · have hx : x ∈ ys := by
        rcases List.mem_cons.mp h with h | h
        · exact absurd h.symm hy
        · exact h
      have hf : (y :: ys).filter (fun z => decide (z ≠ x))
          = y :: ys.filter (fun z => decide (z ≠ x)) := by
        rw [List.filter_cons]
        simp [hy]
      have := ih hx
      rw [hf, List.length_cons, List.length_cons]
      omega

theorem length_setDelete_nodup {α : Type} [DecidableEq α] (x : α) (l : List α) (h : l.Nodup) :
    (setDelete x l).length + (if x ∈ l then 1 else 0) = l.length := by
  induction l with
  | nil => simp [setDelete]
  | cons y ys ih =>
    rw [List.nodup_cons] at h
    have := ih h.2
    unfold setDelete at this ⊢
    by_cases hy : y = x
    · have hx : x ∉ ys := hy ▸ h.1
      have hf : (y :: ys).filter (fun z => decide (z ≠ x))
          = ys.filter (fun z => decide (z ≠ x)) := by
        rw [List.filter_cons]
        simp [hy]
      have hm : x ∈ y :: ys := by rw [hy]; exact List.mem_cons_self _ _
      rw [hf, if_pos hm, List.length_cons]
      rw [if_neg hx] at this
      omega
    · have hf : (y :: ys).filter (fun z => decide (z ≠ x))
          = y :: ys.filter (fun z => decide (z ≠ x)) := by
        rw [List.filter_cons]
        simp [hy]
      have hiff : (x ∈ y :: ys) ↔ x ∈ ys := by
        rw [List.mem_cons]
        constructor
        · rintro (h' | h')
          · exact absurd h'.symm hy
          · exact h'
        · exact Or.inr
      rw [hf, List.length_cons, List.length_cons]
      by_cases hx : x ∈ ys
      · rw [if_pos (hiff.mpr hx)]
        rw [if_pos hx] at this
        omega
      · rw [if_neg (fun h' => hx (hiff.mp h'))]
        rw [if_neg hx] at this
        omega

theorem orphaned_startNewSession (cfg : Config) (s : State) (x : Nat) (a : Bool) :
    orphaned (startNewSession cfg s x a) = orphaned s := by
  unfold startNewSession orphaned live
  split
  · rfl
  · simp only [List.length_append, List.length_singleton]
    push_cast
    ring

theorem orphaned_foldl_registerAndStart (cfg : Config) (ids : List Nat) (s : State) :
    orphaned (ids.foldl (registerAndStart cfg) s) = orphaned s := by
  induction ids generalizing s with
  | nil => rfl
  | cons x xs ih =>
    rw [List.foldl_cons, ih, registerAndStart, orphaned_startNewSession]
    rfl

theorem orphaned_startNewGroup (cfg : Config) (s : State) :
    orphaned s ≤ orphaned (startNewGroup cfg s) ∧
    (s.waitingForGroup.Nodup → orphaned (startNewGroup cfg s) = orphaned s) := by
  unfold startNewGroup
  split
  · have hle : ((s.waitingForGroup.take cfg.GROUP_SIZE).foldl (fun w x => setDelete x w)
        s.waitingForGroup).length + (s.waitingForGroup.take cfg.GROUP_SIZE).length
          ≤ s.waitingForGroup.length := by
      rw [foldl_setDelete]
      have h1 : (s.waitingForGroup.filter
          (fun y => decide (y ∉ s.waitingForGroup.take cfg.GROUP_SIZE))).length
            ≤ (s.waitingForGroup.drop cfg.GROUP_SIZE).length := by
        conv_lhs => rw [← List.take_append_drop cfg.GROUP_SIZE s.waitingForGroup]
        rw [List.filter_append]
        have h0 : (s.waitingForGroup.take cfg.GROUP_SIZE).filter
            (fun y => decide (y ∉ List.take cfg.GROUP_SIZE
              (s.waitingForGroup.take cfg.GROUP_SIZE ++ s.waitingForGroup.drop cfg.GROUP_SIZE)))
              = [] := by
          rw [List.filter_eq_nil_iff]
          intro a ha
          rw [List.take_append_drop]
          simpa using ha
        rw [h0, List.nil_append]
        exact List.length_filter_le _ _
      have h2 : (s.waitingForGroup.take cfg.GROUP_SIZE).length
          + (s.waitingForGroup.drop cfg.GROUP_SIZE).length = s.waitingForGroup.length := by
        rw [← List.length_append, List.take_append_drop]
      omega
    constructor
    · simp only [orphaned, live, List.length_append, List.length_map]
      push_cast
      omega
    · intro hnd
      have heq := take_foldl_setDelete s.waitingForGroup cfg.GROUP_SIZE hnd
      have h2 : (s.waitingForGroup.take cfg.GROUP_SIZE).length
          + (s.waitingForGroup.drop cfg.GROUP_SIZE).length = s.waitingForGroup.length := by
        rw [← List.length_append, List.take_append_drop]
      simp only [orphaned, live, List.length_append, List.length_map, heq]
      push_cast
      omega
  · exact ⟨le_refl _, fun _ => rfl⟩

theorem refsFresh_nodup {s : State} (h : RefsFresh s) : s.waitingForGroup.Nodup := by
  rw [List.nodup_iff_count_le_one]
  intro x
  have h1 : s.waitingForGroup.count x
      ≤ s.waitingForGroup.countP (fun y => decide (y.ref = x.ref)) := by
    unfold List.count
    apply List.countP_mono_left
    intro y _ hy
    simp only [beq_iff_eq] at hy
    simp [hy]
  have h2 := (h x.ref).1
  unfold refCount at h2
  omega

theorem refsFresh_held {s : State} (h : RefsFresh s) {i : Nat} {a : Admission} {x : Session}
    (hi : s.admissions[i]? = some a) (hst : a.stage = .navigating x) :
    x ∉ s.waitingForGroup := by
  intro hx
  have h2 := (h x.ref).1
  unfold refCount at h2
  have hw : 0 < s.waitingForGroup.countP (fun y => decide (y.ref = x.ref)) :=
    List.countP_pos_iff.mpr ⟨x, hx, by simp⟩
  have ha : 0 < s.admissions.countP (holdsRef x.ref) :=
    List.countP_pos_iff.mpr ⟨a, List.getElem?_mem hi, by simp [holdsRef, hst]⟩
  omega

/-- One step never lowers the number of orphaned units; it raises it by one when
`cleanupSession` closes a waiting session, and by nothing else when session records are
unique objects. -/
theorem orphaned_step (cfg : Config) (s s1 : State) (e : Event) (hS : Step cfg s e s1) :
    orphaned s + (if removesWaiting s e = true then 1 else 0) ≤ orphaned s1 ∧
    (RefsFresh s →
      orphaned s1 = orphaned s + (if removesWaiting s e = true then 1 else 0)) := by
  have key : ∀ d : Int, orphaned s1 = orphaned s + d →
      (if removesWaiting s e = true then (1 : Int) else 0) = d →
      orphaned s + (if removesWaiting s e = true then 1 else 0) ≤ orphaned s1 ∧
      (RefsFresh s →
        orphaned s1 = orphaned s + (if removesWaiting s e = true then 1 else 0)) := by
    intro d h1 h2
    rw [h2, h1]
    exact ⟨le_refl _, fun _ => rfl⟩
  cases hS
  case navigated i a session hi hst =>
    have hil : i < s.admissions.length := (List.getElem?_eq_some_iff.mp hi).1
    have hg := orphaned_startNewGroup cfg
      { s with admissions := s.admissions.eraseIdx i,
               stats := { s.stats with activeSessionsCount := s.stats.activeSessionsCount + 1 },
               waitingForGroup := s.waitingForGroup ++ [session],
               sessionsInProgress := setDelete a.id s.sessionsInProgress }
    have hmid : orphaned
        { s with admissions := s.admissions.eraseIdx i,
                 stats := { s.stats with activeSessionsCount := s.stats.activeSessionsCount + 1 },
                 waitingForGroup := s.waitingForGroup ++ [session],
                 sessionsInProgress := setDelete a.id s.sessionsInProgress } = orphaned s := by
      simp only [orphaned, live, List.length_eraseIdx, hil, if_true, List.length_append,
        List.length_singleton]
      push_cast
      omega
    simp only [removesWaiting, Bool.false_eq_true, if_false, add_zero]
    unfold startNewSession_success
    constructor
    · rw [← hmid]; exact hg.1
    · intro hfresh
      have hnd := refsFresh_nodup hfresh
      rw [← hmid]
      apply hg.2
      show (s.waitingForGroup ++ [session]).Nodup
      rw [List.nodup_append]
      refine ⟨hnd, List.nodup_singleton _, ?_⟩
      intro x hx hx1
      rw [List.mem_singleton] at hx1
      subst hx1
      exact refsFresh_held hfresh hi hst hx
  case cleanupOk i session hi =>
    have hrw : removesWaiting s (.cleanupOk i) = decide (session ∈ s.waitingForGroup) := by
      simp only [removesWaiting, hi]
    rw [hrw]
    have hle := length_setDelete_le session s.waitingForGroup
    constructor
    · by_cases hm : session ∈ s.waitingForGroup
      · have := length_setDelete_of_mem session s.waitingForGroup hm
        simp only [orphaned, live, cleanupSession_closed, hm, decide_True, if_true]
        omega
      · simp only [orphaned, live, cleanupSession_closed, hm, decide_False,
          Bool.false_eq_true, if_false]
        omega
    · intro hfresh
      have := length_setDelete_nodup session s.waitingForGroup (refsFresh_nodup hfresh)
      by_cases hm : session ∈ s.waitingForGroup
      · rw [if_pos hm] at this
        simp only [orphaned, live, cleanupSession_closed, hm, decide_True, if_true]
        omega
      · rw [if_neg hm] at this
        simp only [orphaned, live, cleanupSession_closed, hm, decide_False,
          Bool.false_eq_true, if_false]
        omega
  case rampBatch clock batch h1 h2 h3 h4 =>
    refine key 0 ?_ rfl
    have := orphaned_foldl_registerAndStart cfg (batchIds cfg (batch * BATCH_SIZE)) s
    simp only [orphaned, live, main_rampBatch] at this ⊢
    omega
  case topUp clock h1 =>
    refine key 0 ?_ rfl
    unfold main_topUp
    dsimp only
    split_ifs
    · have := orphaned_foldl_registerAndStart cfg
        (topUpIds (↑cfg.MAX_SESSIONS
          - (s.totalActiveSessions + ↑s.sessionsInProgress.length)).toNat clock) s
      simp only [orphaned, live] at this ⊢
      omega
    · simp only [orphaned, live]; omega
  case retryFire j x hj =>
    refine key 0 ?_ rfl
    rw [orphaned_startNewSession]
    simp only [orphaned, live]; omega
  case launchOk i a hi hst =>
    refine key 0 ?_ rfl
    obtain ⟨f1, f2, -, f4, f5, -, -, -, -⟩ := createBrowserSession_launched_frame s
    simp only [orphaned, live, List.length_set, f1, f2, f4, f5]
    omega
  case openOk i now a hi hst =>
    refine key 0 ?_ rfl
    simp only [orphaned, live, List.length_set, createBrowserSession_return]
    omega
  case createFail i a hi hst =>
    refine key 0 ?_ rfl
    have hil : i < s.admissions.length := (List.getElem?_eq_some_iff.mp hi).1
    simp only [startNewSession_catch, createBrowserSession_catch]
    split_ifs <;>
      simp only [orphaned, live, List.length_eraseIdx, hil, if_true] <;> omega
  case pageFinish i m n hm hp =>
    refine key 0 ?_ rfl
    simp only [orphaned, live, List.length_set]; omega
  case lastPageFinish i m hm hp =>
    refine key 0 ?_ rfl
    unfold member_afterRun
    dsimp only
    split_ifs
    · rw [orphaned_startNewSession]
      simp only [orphaned, live, List.length_set]; omega
    · simp only [orphaned, live, List.length_set]; omega
  case runThrow i m n hm hp =>
    refine key 0 ?_ rfl
    simp only [orphaned, live, List.length_set, member_catchEnter, countBrowserError]; omega
  case closeOkTry i m hm hp =>
    refine key 0 ?_ rfl
    have hil : i < s.members.length := (List.getElem?_eq_some_iff.mp hm).1
    simp only [orphaned, live, member_closed, List.length_eraseIdx, hil, if_true]
    omega
  case closeOkCatch i m hm hp =>
    refine key 0 ?_ rfl
    have hil : i < s.members.length := (List.getElem?_eq_some_iff.mp hm).1
    unfold member_catchRest
    dsimp only
    split_ifs
    · rw [orphaned_startNewSession]
      simp only [orphaned, live, List.length_eraseIdx, hil, if_true]; omega
    · simp only [orphaned, live, List.length_eraseIdx, hil, if_true]; omega
  case closeThrowTry i m hm hp =>
    refine key 0 ?_ rfl
    simp only [orphaned, live, List.length_set, member_catchEnter, countBrowserError]; omega
  case closeThrowCatch i m hm hp =>
    refine key 0 ?_ rfl
    have hil : i < s.members.length := (List.getElem?_eq_some_iff.mp hm).1
    unfold member_catchRest member_catchInner countBrowserError
    dsimp only
    split_ifs
    · rw [orphaned_startNewSession]
      simp only [orphaned, live, List.length_eraseIdx, hil, if_true]; omega
    · simp only [orphaned, live, List.length_eraseIdx, hil, if_true]; omega
  all_goals
    refine key 0 ?_ rfl
  all_goals
    try simp only [main_catch, handleShutdown, countBrowserError, main_whileHead,
      startNewGroup_resolved, cleanupSession_catch, orphaned, live]
  all_goals (try split_ifs)
  all_goals (try simp only [orphaned, live])
  all_goals omega

theorem orphaned_run_le (cfg : Config) (es : List Event) (s s1 : State)
    (hrun : run cfg s es = some s1) : orphaned s ≤ orphaned s1 := by
  induction es generalizing s with
  | nil =>
    simp only [run, Option.some.injEq] at hrun
    rw [hrun]
  | cons e es ih =>
    simp only [run] at hrun
    cases hstep : step cfg s e with
    | none => rw [hstep] at hrun; cases hrun
    | some s2 =>
      rw [hstep] at hrun
      have h1 := (orphaned_step cfg s s2 e (step_sound cfg s e s2 hstep)).1
      have h2 := ih s2 hrun
      have h3 : (0 : Int) ≤ (if removesWaiting s e = true then 1 else 0) := by
        split <;> decide
      omega

theorem orphaned_run (cfg : Config) (es : List Event) (s s1 : State) (h : RefsFresh s)
    (hrun : run cfg s es = some s1) :
    orphaned s1 = orphaned s + (removedByCleanup cfg s es : Int) := by
  induction es generalizing s with
  | nil =>
    simp only [run, Option.some.injEq] at hrun
    rw [hrun]
    simp [removedByCleanup]
  | cons e es ih =>
    simp only [run] at hrun
    cases hstep : step cfg s e with
    | none => rw [hstep] at hrun; cases hrun
    | some s2 =>
      rw [hstep] at hrun
      have hS := step_sound cfg s e s2 hstep
      have h1 := (orphaned_step cfg s s2 e hS).2 h
      have h2 := ih s2 (refsFresh_step cfg s s2 e h hS) hrun
      simp only [removedByCleanup, hstep]
      rw [h2, h1]
      push_cast
      by_cases hr : removesWaiting s e = true
      · simp only [hr, if_true]; ring
      · simp only [hr, if_false]; ring

/-- C22: `cleanupSession` changes neither `totalActiveSessions` nor
`stats.sessionsCompleted` nor `stats.sessionsFailed`.  When its `browser.close()` resolves,
the only changes are `stats.totalTabsActive` less 2, `stats.activeSessionsCount` less 1 and
the session gone from the waiting set; when it throws, the only change is
`stats.errors.browser.total` plus 1, and the waiting set is as before.  Neither starts an
admission, schedules a retry or registers an id.  Hence, when the session closed was in the
waiting set, one more unit of `totalActiveSessions` belongs to no session in flight,
waiting or in a group, and stays so in every later state, whatever events follow. -/
theorem cleanupSession_leaves_unit (cfg : Config) (s s2 : State) (i : Nat) (session : Session)
    (es : List Event) (hc : s.cleanups[i]? = some session)
    (hw : session ∈ s.waitingForGroup)
    (hrun : run cfg s (.cleanupOk i :: es) = some s2) :
    (∃ t, step cfg s (.cleanupOk i) = some t ∧
      t = { s with cleanups := s.cleanups.eraseIdx i,
                   stats := { s.stats with
                     totalTabsActive := s.stats.totalTabsActive - 2,
                     activeSessionsCount := s.stats.activeSessionsCount - 1 },
                   waitingForGroup :=
                     s.waitingForGroup.filter (fun y => decide (y ≠ session)) } ∧
      t.totalActiveSessions = s.totalActiveSessions ∧
      t.stats.sessionsCompleted = s.stats.sessionsCompleted ∧
      t.stats.sessionsFailed = s.stats.sessionsFailed ∧
      session ∉ t.waitingForGroup ∧
      t.admissions = s.admissions ∧ t.retries = s.retries ∧
      t.sessionsInProgress = s.sessionsInProgress ∧
      orphaned s + 1 ≤ orphaned t) ∧
    (∃ u, step cfg s (.cleanupFail i) = some u ∧
      u = { s with cleanups := s.cleanups.eraseIdx i,
                   stats := { s.stats with browser := { s.stats.browser with
                     total := s.stats.browser.total + 1 } } } ∧
      u.totalActiveSessions = s.totalActiveSessions ∧
      u.stats.sessionsCompleted = s.stats.sessionsCompleted ∧
      u.stats.sessionsFailed = s.stats.sessionsFailed ∧
      u.waitingForGroup = s.waitingForGroup ∧
      u.admissions = s.admissions ∧ u.retries = s.retries ∧
      u.sessionsInProgress = s.sessionsInProgress) ∧
    orphaned s + 1 ≤ orphaned s2 := by
  have hstep : step cfg s (.cleanupOk i)
      = some (cleanupSession_closed { s with cleanups := s.cleanups.eraseIdx i } session) := by
    simp only [step, hc]
  have hS := step_sound cfg s _ _ hstep
  have h1 := (orphaned_step cfg s _ _ hS).1
  have hrm : removesWaiting s (.cleanupOk i) = true := by
    simp only [removesWaiting, hc, hw, decide_True]
  rw [if_pos hrm] at h1
  refine ⟨⟨_, hstep, rfl, rfl, rfl, rfl, ?_, rfl, rfl, rfl, h1⟩,
    ⟨cleanupSession_catch { s with cleanups := s.cleanups.eraseIdx i },
      by simp only [step, hc], rfl, rfl, rfl, rfl, rfl, rfl, rfl, rfl⟩, ?_⟩
  · show session ∉ setDelete session s.waitingForGroup
    rw [mem_setDelete]
    exact fun h => h.2 rfl
  · simp only [run, hstep, Option.some_bind] at hrun
    have := orphaned_run_le cfg es _ s2 hrun
    omega

/-- Witness of `cleanupSession_leaves_unit`: with `MAX_SESSIONS = 1` and `GROUP_SIZE = 2`
the only session waits, is found stale and is closed by `cleanupSession`.  Afterwards no
session exists, `totalActiveSessions` is still 1, and the steady-state loop of `main`
admits nothing. -/
theorem cleanupSession_leaves_unit_witness :
    loneStale.cleanups[0]? = some ⟨0, 0, 0, 0⟩ ∧
    (⟨0, 0, 0, 0⟩ : Session) ∈ loneStale.waitingForGroup ∧
    run loneConfig loneStale
      (.cleanupOk 0 :: [.sweepEnd, .mainStep [], .mainStep [200000]]) = some loneLost ∧
    orphaned loneStale = 0 ∧ orphaned loneLost = 1 ∧ live loneLost = 0 ∧
    loneLost.totalActiveSessions = 1 ∧ loneLost.admissions = [] ∧
    ((∃ t, step loneConfig loneStale (.cleanupOk 0) = some t ∧
      t = { loneStale with
              cleanups := loneStale.cleanups.eraseIdx 0,
              stats := { loneStale.stats with
                totalTabsActive := loneStale.stats.totalTabsActive - 2,
                activeSessionsCount := loneStale.stats.activeSessionsCount - 1 },
              waitingForGroup := loneStale.waitingForGroup.filter
                (fun y => decide (y ≠ (⟨0, 0, 0, 0⟩ : Session))) } ∧
      t.totalActiveSessions = loneStale.totalActiveSessions ∧
      t.stats.sessionsCompleted = loneStale.stats.sessionsCompleted ∧
      t.stats.sessionsFailed = loneStale.stats.sessionsFailed ∧
      (⟨0, 0, 0, 0⟩ : Session) ∉ t.waitingForGroup ∧
      t.admissions = loneStale.admissions ∧ t.retries = loneStale.retries ∧
      t.sessionsInProgress = loneStale.sessionsInProgress ∧
      orphaned loneStale + 1 ≤ orphaned t) ∧
    (∃ u, step loneConfig loneStale (.cleanupFail 0) = some u ∧
      u = { loneStale with
              cleanups := loneStale.cleanups.eraseIdx 0,
              stats := { loneStale.stats with browser := { loneStale.stats.browser with
                total := loneStale.stats.browser.total + 1 } } } ∧
      u.totalActiveSessions = loneStale.totalActiveSessions ∧
      u.stats.sessionsCompleted = loneStale.stats.sessionsCompleted ∧
      u.stats.sessionsFailed = loneStale.stats.sessionsFailed ∧
      u.waitingForGroup = loneStale.waitingForGroup ∧
      u.admissions = loneStale.admissions ∧ u.retries = loneStale.retries ∧
      u.sessionsInProgress = loneStale.sessionsInProgress) ∧
    orphaned loneStale + 1 ≤ orphaned loneLost) :=
  ⟨rfl, by decide, rfl, by decide, by decide, by decide, by decide, by decide,
    cleanupSession_leaves_unit loneConfig loneStale loneLost 0 ⟨0, 0, 0, 0⟩
      [.sweepEnd, .mainStep [], .mainStep [200000]] rfl (by decide) rfl⟩


/-! ### What the occupancy sum counts -/

theorem id_ne_of_mem_eraseIdx (l : List Admission) (i : Nat) (a b : Admission)
    (hnd : (l.map (fun a => a.id)).Nodup) (hi : l[i]? = some a) (hb : b ∈ l.eraseIdx i) :
    b.id ≠ a.id := by
  induction l generalizing i with
  | nil => simp at hi
  | cons x xs ih =>
    rw [List.map_cons, List.nodup_cons] at hnd
    cases i with
    | zero =>
      simp only [List.getElem?_cons_zero, Option.some.injEq] at hi
      subst hi
      simp only [List.eraseIdx_cons_zero] at hb
      intro heq
      exact hnd.1 (List.mem_map.mpr ⟨b, hb, heq⟩)
    | succ k =>
      simp only [List.getElem?_cons_succ] at hi
      simp only [List.eraseIdx_cons_succ, List.mem_cons] at hb
      rcases hb with rfl | hb
      · intro heq
        exact hnd.1 (List.mem_map.mpr ⟨a, List.getElem?_mem hi, heq.symm⟩)
      · exact ih k hnd.2 hi hb

theorem registered_congr {s s1 : State} (h : Registered s)
    (h2 : s1.sessionsInProgress = s.sessionsInProgress)
    (h3 : s1.admissions.map (fun a => a.id) = s.admissions.map (fun a => a.id)) :
    Registered s1 := by
  unfold Registered
  rw [h2, h3]
  exact h

theorem registered_register {s s1 : State} (h : Registered s) (ids : List Nat)
    (h2 : s1.sessionsInProgress = ids.foldl (fun acc x => setAdd x acc) s.sessionsInProgress)
    (h3 : s1.admissions.map (fun a => a.id) = s.admissions.map (fun a => a.id) ++ ids) :
    Registered s1 := by
  unfold Registered
  rw [h2, h3]
  intro x hx
  rw [mem_foldl_setAdd]
  rcases List.mem_append.mp hx with hx | hx
  · exact Or.inl (h x hx)
  · exact Or.inr hx

theorem registered_settle {s s1 : State} (h : Registered s) (hpend : (pendingIds s).Nodup)
    (i : Nat) (a : Admission) (hi : s.admissions[i]? = some a)
    (h3 : s1.admissions = s.admissions.eraseIdx i)
    (hcase : s1.sessionsInProgress = setDelete a.id s.sessionsInProgress ∨
      s1.sessionsInProgress = setAdd a.id (setDelete a.id s.sessionsInProgress)) :
    Registered s1 := by
  unfold pendingIds at hpend
  rw [List.nodup_append] at hpend
  unfold Registered
  rw [h3]
  intro x hx
  obtain ⟨b, hb, rfl⟩ := List.mem_map.mp hx
  have hne := id_ne_of_mem_eraseIdx s.admissions i a b hpend.1 hi hb
  have hin : b.id ∈ s.sessionsInProgress :=
    h b.id (List.mem_map.mpr ⟨b, List.mem_of_mem_eraseIdx hb, rfl⟩)
  rcases hcase with h2 | h2 <;> rw [h2]
  · rw [mem_setDelete]; exact ⟨hin, hne⟩
  · rw [mem_setAdd, mem_setDelete]; exact Or.inr ⟨hin, hne⟩

theorem registered_step (cfg : Config) (s s1 : State) (e : Event) (hinv : Inv cfg s)
    (hreg : Registered s) (hS : Step cfg s e s1) (hord : orderly s e = true)
    (hpend : (pendingIds s).Nodup) : Registered s1 := by
  cases hS
  case loadEmpty rows h1 h2 => simp [orderly, h2] at hord
  case loadErr => simp [orderly] at hord
  case loadCloseErr => simp [orderly] at hord
  case signal => simp [orderly] at hord
  case uncaught => simp [orderly] at hord
  case rampBreak clock batch h1 h2 h3 h4 => rw [hinv.running] at h4; cases h4
  case closeThrowTry i m hm hp => simp [orderly, hm, hp] at hord
  case loadRows rows h1 h2 => exact registered_congr hreg rfl rfl
  case urlFetch urls h1 => exact registered_congr hreg rfl rfl
  case rampEnd clock batch h1 h2 h3 =>
    rw [main_whileHead_running s hinv.running]
    exact registered_congr hreg rfl rfl
  case join clock h1 h2 =>
    rw [main_whileHead_running s hinv.running]
    exact registered_congr hreg rfl rfl
  case launchOk i a h1 h2 =>
    obtain ⟨f1, f2, f3, f4, f5, f6, f7, f8, f9⟩ := createBrowserSession_launched_frame s
    refine registered_congr hreg f3 ?_
    simp only [f1]; exact map_id_set _ _ a _ h1 rfl
  case openOk i now a h1 h2 =>
    refine registered_congr hreg rfl ?_
    exact map_id_set _ _ a _ h1 rfl
  case pageFinish i m n hm hp => exact registered_congr hreg rfl rfl
  case runThrow i m n hm hp => exact registered_congr hreg rfl rfl
  case groupResolve g hg => exact registered_congr hreg rfl rfl
  case sweepIdle h => exact hreg
  case sweepBegin h => exact registered_congr hreg rfl rfl
  case sweepStale j now session h1 h2 h3 => exact registered_congr hreg rfl rfl
  case sweepFresh => exact hreg
  case sweepEnd h => exact registered_congr hreg rfl rfl
  case cleanupOk i session h => exact registered_congr hreg rfl rfl
  case cleanupFail i session h => exact registered_congr hreg rfl rfl
  case closeOkTry i m hm hp => exact registered_congr hreg rfl rfl
  case rampBatch clock batch h1 h2 h3 h4 =>
    obtain ⟨f1, f2, f3, f4, f5, f6, f7⟩ := foldl_registerAndStart_running cfg
      (batchIds cfg (batch * BATCH_SIZE)) s hinv.running
    refine registered_register hreg (batchIds cfg (batch * BATCH_SIZE)) f3 ?_
    simp only [main_rampBatch, f4, List.map_append, List.map_map, Function.comp_def,
      List.map_id']
  case topUp clock h1 =>
    unfold main_topUp
    dsimp only
    split_ifs with hlt
    · obtain ⟨f1, f2, f3, f4, f5, f6, f7⟩ := foldl_registerAndStart_running cfg
        (topUpIds (↑cfg.MAX_SESSIONS
          - (s.totalActiveSessions + ↑s.sessionsInProgress.length)).toNat clock) s hinv.running
      refine registered_register hreg _ f3 ?_
      simp only [f4, List.map_append, List.map_map, Function.comp_def, List.map_id']
    · exact registered_congr hreg rfl rfl
  case retryFire j x hj =>
    have hx : x ∈ s.sessionsInProgress := hinv.retrying x (List.getElem?_mem hj)
    rw [startNewSession_pass cfg { s with retries := s.retries.eraseIdx j } x false
      hinv.running hx]
    intro y hy
    simp only [List.map_append, List.map_cons, List.map_nil, List.mem_append,
      List.mem_singleton] at hy
    rcases hy with hy | rfl
    · exact hreg y hy
    · exact hx
  case createFail i a hi hst =>
    simp only [startNewSession_catch, createBrowserSession_catch]
    split_ifs with hc
    · exact registered_settle hreg hpend i a hi rfl (Or.inr rfl)
    · exact registered_settle hreg hpend i a hi rfl (Or.inl rfl)
  case navigated i a session hi hst =>
    obtain ⟨g1, g2, g3, g4, g5, g6⟩ := startNewGroup_frame cfg
      { s with admissions := s.admissions.eraseIdx i,
               stats := { s.stats with activeSessionsCount := s.stats.activeSessionsCount + 1 },
               waitingForGroup := s.waitingForGroup ++ [session],
               sessionsInProgress := setDelete a.id s.sessionsInProgress }
    exact registered_settle hreg hpend i a hi g3 (Or.inl g2)
  case lastPageFinish i m hm hp =>
    unfold member_afterRun
    dsimp only
    rw [if_pos hinv.running, startNewSession_pass]
    · exact registered_register hreg [m.session.id + cfg.MAX_SESSIONS] rfl (by simp)
    · exact hinv.running
    · exact mem_setAdd_self _ _
  case closeOkCatch i m hm hp =>
    unfold member_catchRest
    dsimp only
    rw [if_pos hinv.running, startNewSession_pass]
    · exact registered_register hreg [m.session.id + cfg.MAX_SESSIONS] rfl (by simp)
    · exact hinv.running
    · exact mem_setAdd_self _ _
  case closeThrowCatch i m hm hp =>
    unfold member_catchRest member_catchInner countBrowserError
    dsimp only
    rw [if_pos hinv.running, startNewSession_pass]
    · exact registered_register hreg [m.session.id + cfg.MAX_SESSIONS] rfl (by simp)
    · exact hinv.running
    · exact mem_setAdd_self _ _

theorem registered_run (cfg : Config) (es : List Event) (s s1 : State) (hinv : Inv cfg s)
    (hreg : Registered s) (hpend : (pendingIds s).Nodup) (hrun : run cfg s es = some s1)
    (hord : orderlyRun cfg s es = true) :
    Inv cfg s1 ∧ Registered s1 ∧ (pendingIds s1).Nodup := by
  induction es generalizing s with
  | nil =>
    simp only [run, Option.some.injEq] at hrun
    exact hrun ▸ ⟨hinv, hreg, hpend⟩
  | cons e es ih =>
    simp only [run] at hrun
    cases hstep : step cfg s e with
    | none => rw [hstep] at hrun; cases hrun
    | some s2 =>
      rw [hstep] at hrun
      simp only [orderlyRun, hstep, Bool.and_eq_true, decide_eq_true_eq] at hord
      have hS := step_sound cfg s e s2 hstep
      exact ih s2 (inv_step cfg s s2 e hinv hS hord.1.1 hpend)
        (registered_step cfg s s2 e hinv hreg hS hord.1.1 hpend) hord.1.2 hrun hord.2

/-- C23 (counterexample): with `MAX_SESSIONS = 1` and `GROUP_SIZE = 2`, two reachable
states in which no admission is in flight and no session is waiting or in a group, yet
`totalActiveSessions + sessionsInProgress.size` is 1 and not 0: after `cleanupSession` has
closed the stale waiting session 0 (its unit of `totalActiveSessions` is never taken out),
and after the admission of id 0 has failed and waits for its retry timer (its id is back
in `sessionsInProgress`). -/
theorem occupancy_counts_closed_and_retrying :
    (run loneConfig init (loneStaleTrace ++ [.cleanupOk 0])).map
      (fun s => (s.admissions.length, s.waitingForGroup.length + s.members.length,
        s.totalActiveSessions, s.sessionsInProgress.length, occupancy s))
      = some (0, 0, 1, 0, 1) ∧
    (run loneConfig init [.loadOk ["ua"], .mainStep [], .createFail 0]).map
      (fun s => (s.admissions.length, s.waitingForGroup.length + s.members.length,
        s.totalActiveSessions, s.sessionsInProgress.length, occupancy s))
      = some (0, 0, 0, 1, 1) := by
  constructor <;> decide

/-- C23 (amended): in every state reached from the initial state by events that start no
shutdown, with pairwise distinct ids among the pending admissions and without a
`browser.close()` that throws after a successful run, every admission in flight has its id
in `sessionsInProgress`, and `sessionsInProgress` holds exactly the ids of the `k`
admissions in flight and of the `r` failed admissions that wait for their retry timer.
`totalActiveSessions` counts the `k` admissions in flight, the `a` sessions that are
waiting or in a group, and the `c` waiting sessions that `cleanupSession` has closed.
Hence `totalActiveSessions + sessionsInProgress.size = a + 2k + r + c`, and this is the sum
that the gate compares with `MAX_SESSIONS` and that the steady-state loop subtracts from
`MAX_SESSIONS` to get `needed`. -/
theorem occupancy_counts_inflight_twice (cfg : Config) (es : List Event) (s : State)
    (hrun : run cfg init es = some s) (hord : orderlyRun cfg init es = true) :
    (∀ a ∈ s.admissions, a.id ∈ s.sessionsInProgress) ∧
    s.sessionsInProgress.length = s.admissions.length + s.retries.length ∧
    s.totalActiveSessions
      = (s.admissions.length : Int)
        + ((s.waitingForGroup.length : Int) + (s.members.length : Int))
        + (removedByCleanup cfg init es : Int) ∧
    occupancy s
      = ((s.waitingForGroup.length : Int) + (s.members.length : Int))
        + 2 * (s.admissions.length : Int) + (s.retries.length : Int)
        + (removedByCleanup cfg init es : Int) ∧
    (∀ x, gateRejects cfg s x ↔
      x ∉ s.sessionsInProgress ∧ (cfg.MAX_SESSIONS : Int) ≤ occupancy s) ∧
    (∀ clock, main_topUp cfg s clock
      = (topUpIds ((cfg.MAX_SESSIONS : Int) - occupancy s).toNat clock).foldl
          (registerAndStart cfg) s) := by
  obtain ⟨hinv, hreg, hpend⟩ := registered_run cfg es init s (inv_init cfg)
    (by intro x hx; simp [init] at hx) (by simp [pendingIds, init]) hrun hord
  have hall : ∀ a ∈ s.admissions, a.id ∈ s.sessionsInProgress :=
    fun a ha => hreg a.id (List.mem_map.mpr ⟨a, ha, rfl⟩)
  have hlen : s.sessionsInProgress.length = s.admissions.length + s.retries.length := by
    have h1 := length_le_of_nodup_subset hinv.nodup hinv.known
    have h2 : (pendingIds s).length ≤ s.sessionsInProgress.length := by
      refine length_le_of_nodup_subset hpend ?_
      intro x hx
      unfold pendingIds at hx
      rcases List.mem_append.mp hx with hx | hx
      · exact hreg x hx
      · exact hinv.retrying x hx
    simp only [pendingIds, List.length_append, List.length_map] at h1 h2
    omega
  have horph := orphaned_run cfg es init s (fun r => by simp [refCount, init]) hrun
  have h0 : orphaned init = 0 := by decide
  rw [h0] at horph
  simp only [orphaned, live] at horph
  refine ⟨hall, hlen, by omega, ?_, ?_, ?_⟩
  · unfold occupancy
    rw [hlen]
    push_cast
    omega
  · intro x
    unfold gateRejects occupancy
    rw [hinv.running]
    simp
  · intro clock
    unfold main_topUp occupancy
    dsimp only
    split_ifs with hlt
    · rfl
    · have hz : ((cfg.MAX_SESSIONS : Int)
          - (s.totalActiveSessions + ↑s.sessionsInProgress.length)).toNat = 0 := by omega
      rw [hz]
      rfl

/-- Witness of `occupancy_counts_inflight_twice`: after `soloTrace` the replacement of
session 0 is in flight (`k = 1`) and session 0 is still in its group (`a = 1`); the
occupancy sum is `1 + 2 * 1 = 3`. -/
theorem occupancy_counts_inflight_twice_witness :
    run soloConfig init soloTrace = some soloReplaced ∧
    orderlyRun soloConfig init soloTrace = true ∧
    occupancy soloReplaced = 3 ∧ soloReplaced.admissions.length = 1 ∧
    soloReplaced.waitingForGroup.length + soloReplaced.members.length = 1 ∧
    ((∀ a ∈ soloReplaced.admissions, a.id ∈ soloReplaced.sessionsInProgress) ∧
    soloReplaced.sessionsInProgress.length
      = soloReplaced.admissions.length + soloReplaced.retries.length ∧
    soloReplaced.totalActiveSessions
      = (soloReplaced.admissions.length : Int)
        + ((soloReplaced.waitingForGroup.length : Int) + (soloReplaced.members.length : Int))
        + (removedByCleanup soloConfig init soloTrace : Int) ∧
    occupancy soloReplaced
      = ((soloReplaced.waitingForGroup.length : Int) + (soloReplaced.members.length : Int))
        + 2 * (soloReplaced.admissions.length : Int) + (soloReplaced.retries.length : Int)
        + (removedByCleanup soloConfig init soloTrace : Int) ∧
    (∀ x, gateRejects soloConfig soloReplaced x ↔
      x ∉ soloReplaced.sessionsInProgress
        ∧ (soloConfig.MAX_SESSIONS : Int) ≤ occupancy soloReplaced) ∧
    (∀ clock, main_topUp soloConfig soloReplaced clock
      = (topUpIds ((soloConfig.MAX_SESSIONS : Int) - occupancy soloReplaced).toNat clock).foldl
          (registerAndStart soloConfig) soloReplaced)) :=
  ⟨rfl, by decide, by decide, by decide, by decide,
    occupancy_counts_inflight_twice soloConfig soloTrace soloReplaced rfl (by decide)⟩

end SessionManager
